import Mathlib

/-!
# AvantLumi: a shallow embedding of the LED state controller

The controller of `src/AvantLumi.cpp` is embedded as pure functions over a
record `AvantLumi` holding the members of the C++ class.  A member function
`bool AvantLumi::f(args)` becomes `f : AvantLumi → args → Bool × AvantLumi`
(return value, object after the call).

Conventions
* `uint8_t` / `uint32_t` values are natural numbers; a function parameter of
  type `uint8_t` holds the value *after* the implicit conversion that C++
  applies at the call (`uint8_t_of` below).
* An Arduino `String` is the list of its `char`s.
* Calls into the strip driver (`FastLED.show`, `FastLED.setBrightness`,
  `FastLED.setMaxPowerInVoltsAndMilliamps`) act on the driver singleton only
  and leave every member of the controller untouched.
* C++ does not fix the order in which the arguments of a call are evaluated.
  Where that order matters (the `random8` calls among the arguments in
  `generateRandomPalette`) it is a parameter of the embedding.
-/

set_option maxRecDepth 100000
set_option maxHeartbeats 4000000

/-! ## Arduino `String` -/

/-- An Arduino `String`: the sequence of its characters. -/
abbrev Str := List Char

/-- C `isspace` in the "C" locale: space, `\t`, `\n`, `\v`, `\f`, `\r`. -/
def isspace (c : Char) : Bool :=
  c.toNat == 32 || (9 ≤ c.toNat && c.toNat ≤ 13)

/-- C `tolower` in the "C" locale: only `A`..`Z` are mapped. -/
def tolower (c : Char) : Char :=
  if 65 ≤ c.toNat ∧ c.toNat ≤ 90 then Char.ofNat (c.toNat + 32) else c

/-- `String::toLowerCase()`: `tolower` applied to every character. -/
def toLowerCase (s : Str) : Str := s.map tolower

/-- `String::trim()`: skips leading `isspace` characters, then trailing ones. -/
def trim (s : Str) : Str :=
  ((s.dropWhile isspace).reverse.dropWhile isspace).reverse

/-- `String(n)` for an unsigned integer: its decimal digits. -/
def decimal (n : Nat) : Str := (Nat.repr n).toList

/-- The implicit conversion of an `int` argument to a `uint8_t` parameter. -/
def uint8_t_of (x : Int) : Nat := (x % 256).toNat

/-- Arduino `constrain(amt, low, high)`. -/
def constrain (amt low high : Nat) : Nat :=
  if amt < low then low else if amt > high then high else amt

/-! ## FastLED colours and palettes -/

/-- FastLED `CRGB`: one byte per channel. -/
structure CRGB where
  r : Nat
  g : Nat
  b : Nat
deriving DecidableEq, Repr

/-- `CRGB(uint32_t colorcode)`: `0xRRGGBB`. -/
def CRGB.ofCode (c : Nat) : CRGB := ⟨c / 65536 % 256, c / 256 % 256, c % 256⟩

/-- FastLED `CRGBPalette16`: sixteen colour stops. -/
abbrev CRGBPalette16 := { l : List CRGB // l.length = 16 }

/-- The sixteen-colour constructor `CRGBPalette16(c00, ..., c15)`. -/
def CRGBPalette16.of16 (c00 c01 c02 c03 c04 c05 c06 c07
    c08 c09 c10 c11 c12 c13 c14 c15 : CRGB) : CRGBPalette16 :=
  ⟨[c00, c01, c02, c03, c04, c05, c06, c07, c08, c09, c10, c11, c12, c13, c14, c15], rfl⟩

/-- The seven stock gradients of the FastLED library that the controller
refers to (`RainbowColors_p`, ...).  Their stops are defined in FastLED, not in
this repository, so they are a parameter of the embedding. -/
structure FastLEDPalettes where
  RainbowColors_p : CRGBPalette16
  PartyColors_p : CRGBPalette16
  OceanColors_p : CRGBPalette16
  ForestColors_p : CRGBPalette16
  HeatColors_p : CRGBPalette16
  CloudColors_p : CRGBPalette16
  LavaColors_p : CRGBPalette16
deriving DecidableEq

/-- FastLED `TBlendType`. -/
inductive TBlendType
  | NOBLEND
  | LINEARBLEND
deriving DecidableEq, Repr

namespace CRGB

/-! The `CRGB::HTMLColorCode` constants of FastLED used by the controller
(the standard web colour codes). -/

def AliceBlue : CRGB := ofCode 0xF0F8FF
def Aqua : CRGB := ofCode 0x00FFFF
def Aquamarine : CRGB := ofCode 0x7FFFD4
def Black : CRGB := ofCode 0x000000
def Blue : CRGB := ofCode 0x0000FF
def Brown : CRGB := ofCode 0xA52A2A
def CadetBlue : CRGB := ofCode 0x5F9EA0
def Chocolate : CRGB := ofCode 0xD2691E
def Coral : CRGB := ofCode 0xFF7F50
def CornflowerBlue : CRGB := ofCode 0x6495ED
def Crimson : CRGB := ofCode 0xDC143C
def Cyan : CRGB := ofCode 0x00FFFF
def DarkBlue : CRGB := ofCode 0x00008B
def DarkCyan : CRGB := ofCode 0x008B8B
def DarkGoldenrod : CRGB := ofCode 0xB8860B
def DarkGray : CRGB := ofCode 0xA9A9A9
def DarkGreen : CRGB := ofCode 0x006400
def DarkOrange : CRGB := ofCode 0xFF8C00
def DarkRed : CRGB := ofCode 0x8B0000
def DarkSeaGreen : CRGB := ofCode 0x8FBC8F
def DarkSlateBlue : CRGB := ofCode 0x483D8B
def DarkSlateGray : CRGB := ofCode 0x2F4F4F
def DarkTurquoise : CRGB := ofCode 0x00CED1
def DarkViolet : CRGB := ofCode 0x9400D3
def DeepPink : CRGB := ofCode 0xFF1493
def DeepSkyBlue : CRGB := ofCode 0x00BFFF
def DodgerBlue : CRGB := ofCode 0x1E90FF
def FireBrick : CRGB := ofCode 0xB22222
def ForestGreen : CRGB := ofCode 0x228B22
def Fuchsia : CRGB := ofCode 0xFF00FF
def Gold : CRGB := ofCode 0xFFD700
def Goldenrod : CRGB := ofCode 0xDAA520
def Gray : CRGB := ofCode 0x808080
def Green : CRGB := ofCode 0x008000
def GreenYellow : CRGB := ofCode 0xADFF2F
def Honeydew : CRGB := ofCode 0xF0FFF0
def HotPink : CRGB := ofCode 0xFF69B4
def IndianRed : CRGB := ofCode 0xCD5C5C
def Indigo : CRGB := ofCode 0x4B0082
def Lavender : CRGB := ofCode 0xE6E6FA
def LemonChiffon : CRGB := ofCode 0xFFFACD
def LightBlue : CRGB := ofCode 0xADD8E6
def LightCyan : CRGB := ofCode 0xE0FFFF
def LightGreen : CRGB := ofCode 0x90EE90
def LightPink : CRGB := ofCode 0xFFB6C1
def LightSteelBlue : CRGB := ofCode 0xB0C4DE
def LightYellow : CRGB := ofCode 0xFFFFE0
def Lime : CRGB := ofCode 0x00FF00
def LimeGreen : CRGB := ofCode 0x32CD32
def Magenta : CRGB := ofCode 0xFF00FF
def Maroon : CRGB := ofCode 0x800000
def MediumBlue : CRGB := ofCode 0x0000CD
def MediumOrchid : CRGB := ofCode 0xBA55D3
def MediumSpringGreen : CRGB := ofCode 0x00FA9A
def MidnightBlue : CRGB := ofCode 0x191970
def Navy : CRGB := ofCode 0x000080
def Orange : CRGB := ofCode 0xFFA500
def OrangeRed : CRGB := ofCode 0xFF4500
def PaleGreen : CRGB := ofCode 0x98FB98
def PaleTurquoise : CRGB := ofCode 0xAFEEEE
def Peru : CRGB := ofCode 0xCD853F
def Pink : CRGB := ofCode 0xFFC0CB
def PowderBlue : CRGB := ofCode 0xB0E0E6
def Purple : CRGB := ofCode 0x800080
def Red : CRGB := ofCode 0xFF0000
def RoyalBlue : CRGB := ofCode 0x4169E1
def SaddleBrown : CRGB := ofCode 0x8B4513
def SeaGreen : CRGB := ofCode 0x2E8B57
def Sienna : CRGB := ofCode 0xA0522D
def Silver : CRGB := ofCode 0xC0C0C0
def SpringGreen : CRGB := ofCode 0x00FF7F
def SteelBlue : CRGB := ofCode 0x4682B4
def Teal : CRGB := ofCode 0x008080
def Thistle : CRGB := ofCode 0xD8BFD8
def Tomato : CRGB := ofCode 0xFF6347
def Turquoise : CRGB := ofCode 0x40E0D0
def Violet : CRGB := ofCode 0xEE82EE
def White : CRGB := ofCode 0xFFFFFF
def Yellow : CRGB := ofCode 0xFFFF00

end CRGB

/-! ## The controller object -/

/-- The data members of `class AvantLumi` (`AvantLumi.h`). -/
structure AvantLumi where
  leds : List CRGB
  dataPin : Nat
  numLeds : Nat
  fadeinEnabled : Bool
  useRandomPalette : Bool
  useSolidColor : Bool
  solidColor : CRGB
  ledEnabled : Bool
  currentBrightnessLevel : Nat
  targetBrightness : Nat
  actualBrightness : Nat
  lastBrightnessUpdate : Nat
  currentPaletteName : Str
  solidColorName : Str
  blendSpeed : Nat
  currentPalette : CRGBPalette16
  targetPalette : CRGBPalette16
  currentBlending : TBlendType
  maxVolts : Nat
  maxMilliamps : Nat
deriving DecidableEq

namespace AvantLumi

/-- The table `AvantLumi::brightnessLevels[6]`. -/
def brightnessLevels : List Nat := [0, 26, 64, 128, 192, 255]

/-- The read `brightnessLevels[i]`; the six entries are indexed `0..5` (a read
past the table is undefined in C++ and yields `0` here). -/
def brightnessAt (i : Nat) : Nat := brightnessLevels.getD i 0

/-! ### Custom palette definitions -/

def christmas_p : CRGBPalette16 := CRGBPalette16.of16
  CRGB.Red CRGB.DarkRed CRGB.Green CRGB.DarkGreen
  CRGB.Red CRGB.Green CRGB.DarkRed CRGB.ForestGreen
  CRGB.Crimson CRGB.LimeGreen CRGB.Red CRGB.Green
  CRGB.DarkRed CRGB.SeaGreen CRGB.Red CRGB.DarkGreen

def autumn_p : CRGBPalette16 := CRGBPalette16.of16
  CRGB.DarkOrange CRGB.OrangeRed CRGB.Maroon CRGB.SaddleBrown
  CRGB.Orange CRGB.Chocolate CRGB.DarkGoldenrod CRGB.FireBrick
  CRGB.Peru CRGB.Sienna CRGB.DarkOrange CRGB.Brown
  CRGB.Goldenrod CRGB.IndianRed CRGB.Orange CRGB.SaddleBrown

def cyberpunk_p : CRGBPalette16 := CRGBPalette16.of16
  CRGB.Magenta CRGB.DeepPink CRGB.Purple CRGB.Cyan
  CRGB.HotPink CRGB.DarkViolet CRGB.Aqua CRGB.Fuchsia
  CRGB.MediumOrchid CRGB.Turquoise CRGB.Violet CRGB.DeepSkyBlue
  CRGB.Magenta CRGB.Purple CRGB.Cyan CRGB.HotPink

def halloween_p : CRGBPalette16 := CRGBPalette16.of16
  CRGB.Orange CRGB.DarkOrange CRGB.Purple CRGB.Black
  CRGB.OrangeRed CRGB.DarkViolet CRGB.Orange CRGB.Indigo
  CRGB.Chocolate CRGB.Purple CRGB.DarkOrange CRGB.MidnightBlue
  CRGB.Orange CRGB.DarkSlateBlue CRGB.SaddleBrown CRGB.Purple

def winter_p : CRGBPalette16 := CRGBPalette16.of16
  CRGB.Blue CRGB.DarkBlue CRGB.White CRGB.LightSteelBlue
  CRGB.SteelBlue CRGB.PowderBlue CRGB.LightBlue CRGB.Navy
  CRGB.CornflowerBlue CRGB.AliceBlue CRGB.RoyalBlue CRGB.White
  CRGB.DodgerBlue CRGB.LightCyan CRGB.Blue CRGB.MidnightBlue

def spring_p : CRGBPalette16 := CRGBPalette16.of16
  CRGB.LightGreen CRGB.Pink CRGB.LightPink CRGB.PaleGreen
  CRGB.SpringGreen CRGB.Thistle CRGB.LemonChiffon CRGB.LightCyan
  CRGB.MediumSpringGreen CRGB.Lavender CRGB.LightYellow CRGB.Aquamarine
  CRGB.LightGreen CRGB.Pink CRGB.Honeydew CRGB.PaleTurquoise

def sunset_p : CRGBPalette16 := CRGBPalette16.of16
  CRGB.Red CRGB.Orange CRGB.Yellow CRGB.Pink
  CRGB.Crimson CRGB.DarkOrange CRGB.Gold CRGB.DeepPink
  CRGB.OrangeRed CRGB.Coral CRGB.Orange CRGB.LightPink
  CRGB.Red CRGB.Tomato CRGB.Yellow CRGB.HotPink

def ocean_deep_p : CRGBPalette16 := CRGBPalette16.of16
  CRGB.DarkBlue CRGB.MidnightBlue CRGB.Navy CRGB.DarkSlateBlue
  CRGB.Indigo CRGB.DarkTurquoise CRGB.SteelBlue CRGB.DarkCyan
  CRGB.MediumBlue CRGB.DarkSeaGreen CRGB.CadetBlue CRGB.DarkSlateGray
  CRGB.DarkBlue CRGB.Teal CRGB.Navy CRGB.MidnightBlue

def neon_p : CRGBPalette16 := CRGBPalette16.of16
  CRGB.Lime CRGB.Cyan CRGB.Magenta CRGB.Yellow
  CRGB.SpringGreen CRGB.Aqua CRGB.Fuchsia CRGB.GreenYellow
  CRGB.LimeGreen CRGB.DeepSkyBlue CRGB.HotPink CRGB.Gold
  CRGB.Lime CRGB.Turquoise CRGB.Violet CRGB.Yellow

def fire_p : CRGBPalette16 := CRGBPalette16.of16
  CRGB.Red CRGB.OrangeRed CRGB.Orange CRGB.DarkRed
  CRGB.Crimson CRGB.DarkOrange CRGB.Yellow CRGB.FireBrick
  CRGB.Red CRGB.Coral CRGB.Gold CRGB.Maroon
  CRGB.Tomato CRGB.Orange CRGB.Red CRGB.DarkRed

/-- The constructor `AvantLumi::AvantLumi(dataPin, numLeds)`.  The pixel buffer
`new CRGB[numLeds]` is not initialised by the constructor; it is taken as
black here and is overwritten by the first rendered frame. -/
def ctor (fl : FastLEDPalettes) (dataPin numLeds : Nat) : AvantLumi :=
  { leds := List.replicate numLeds CRGB.Black
    dataPin := dataPin
    numLeds := numLeds
    fadeinEnabled := true
    useRandomPalette := true
    useSolidColor := false
    solidColor := CRGB.Red
    ledEnabled := true
    currentBrightnessLevel := 3
    targetBrightness := brightnessAt 3
    actualBrightness := brightnessAt 3
    lastBrightnessUpdate := 0
    currentPaletteName := "party".toList
    solidColorName := "".toList
    blendSpeed := 4
    currentPalette := fl.PartyColors_p
    targetPalette := fl.PartyColors_p
    currentBlending := TBlendType.LINEARBLEND
    maxVolts := 5
    maxMilliamps := 500 }

/-- `AvantLumi::createSolidPalette`. -/
def createSolidPalette (color : CRGB) : CRGBPalette16 :=
  CRGBPalette16.of16 color color color color
    color color color color
    color color color color
    color color color color

/-- `AvantLumi::setRGB(uint8_t rVal, uint8_t gVal, uint8_t bVal)`. -/
def setRGB (s : AvantLumi) (rVal gVal bVal : Nat) : Bool × AvantLumi :=
  let rVal := constrain rVal 0 255
  let gVal := constrain gVal 0 255
  let bVal := constrain bVal 0 255
  let solidColor : CRGB := ⟨rVal, gVal, bVal⟩
  (true,
    { s with
      solidColor := solidColor
      targetPalette := createSolidPalette solidColor
      useSolidColor := true
      useRandomPalette := false
      currentPaletteName := "solid_color".toList
      solidColorName := "".toList })

/-- The array `validColors` of `AvantLumi::isValidColorName`. -/
def validColors : List Str :=
  ["red".toList, "green".toList, "blue".toList, "white".toList, "black".toList,
   "yellow".toList, "cyan".toList, "magenta".toList, "orange".toList, "purple".toList,
   "pink".toList, "brown".toList, "lightgreen".toList, "lightblue".toList,
   "lightpink".toList, "lightcyan".toList, "lightyellow".toList, "lightsteelblue".toList,
   "darkred".toList, "darkgreen".toList, "darkblue".toList, "darkorange".toList,
   "darkviolet".toList, "darkgray".toList, "darkgrey".toList, "darkcyan".toList,
   "darkgoldenrod".toList, "darkslateblue".toList, "darkturquoise".toList,
   "darkseagreen".toList, "mediumblue".toList, "mediumorchid".toList,
   "mediumspringgreen".toList, "springgreen".toList, "forestgreen".toList,
   "seagreen".toList, "limegreen".toList, "lime".toList, "aqua".toList,
   "aquamarine".toList, "turquoise".toList, "palegreen".toList, "paleturquoise".toList,
   "powderblue".toList, "steelblue".toList, "royalblue".toList, "cornflowerblue".toList,
   "deepskyblue".toList, "dodgerblue".toList, "midnightblue".toList, "navy".toList,
   "indigo".toList, "violet".toList, "fuchsia".toList, "hotpink".toList,
   "deeppink".toList, "crimson".toList, "firebrick".toList, "maroon".toList,
   "orangered".toList, "tomato".toList, "coral".toList, "chocolate".toList,
   "saddlebrown".toList, "sienna".toList, "peru".toList, "goldenrod".toList,
   "gold".toList, "greenyellow".toList, "lemonchiffon".toList, "honeydew".toList,
   "lavender".toList, "thistle".toList, "aliceblue".toList, "gray".toList, "grey".toList,
   "silver".toList, "teal".toList, "cadetblue".toList, "darkslategray".toList,
   "darkslategrey".toList, "indianred".toList]

/-- `AvantLumi::isValidColorName`: a linear search of `validColors` for the
lower-cased name. -/
def isValidColorName (colorName : Str) : Bool :=
  let colorName := toLowerCase colorName
  validColors.any (fun v => colorName == v)

/-- `AvantLumi::parseColorName`: the chain of comparisons, with pure red as the
fallback for a name that is not found. -/
def parseColorName (colorName : Str) : CRGB :=
  let colorName := toLowerCase colorName
  if colorName = "red".toList then CRGB.Red
  else if colorName = "green".toList then CRGB.Green
  else if colorName = "blue".toList then CRGB.Blue
  else if colorName = "white".toList then CRGB.White
  else if colorName = "black".toList then CRGB.Black
  else if colorName = "yellow".toList then CRGB.Yellow
  else if colorName = "cyan".toList then CRGB.Cyan
  else if colorName = "magenta".toList then CRGB.Magenta
  else if colorName = "orange".toList then CRGB.Orange
  else if colorName = "purple".toList then CRGB.Purple
  else if colorName = "pink".toList then CRGB.Pink
  else if colorName = "brown".toList then CRGB.Brown
  else if colorName = "lightgreen".toList then CRGB.LightGreen
  else if colorName = "lightblue".toList then CRGB.LightBlue
  else if colorName = "lightpink".toList then CRGB.LightPink
  else if colorName = "lightcyan".toList then CRGB.LightCyan
  else if colorName = "lightyellow".toList then CRGB.LightYellow
  else if colorName = "lightsteelblue".toList then CRGB.LightSteelBlue
  else if colorName = "darkred".toList then CRGB.DarkRed
  else if colorName = "darkgreen".toList then CRGB.DarkGreen
  else if colorName = "darkblue".toList then CRGB.DarkBlue
  else if colorName = "darkorange".toList then CRGB.DarkOrange
  else if colorName = "darkviolet".toList then CRGB.DarkViolet
  else if colorName = "darkgray".toList ∨ colorName = "darkgrey".toList then CRGB.DarkGray
  else if colorName = "darkcyan".toList then CRGB.DarkCyan
  else if colorName = "darkgoldenrod".toList then CRGB.DarkGoldenrod
  else if colorName = "darkslateblue".toList then CRGB.DarkSlateBlue
  else if colorName = "darkturquoise".toList then CRGB.DarkTurquoise
  else if colorName = "darkseagreen".toList then CRGB.DarkSeaGreen
  else if colorName = "mediumblue".toList then CRGB.MediumBlue
  else if colorName = "mediumorchid".toList then CRGB.MediumOrchid
  else if colorName = "mediumspringgreen".toList then CRGB.MediumSpringGreen
  else if colorName = "springgreen".toList then CRGB.SpringGreen
  else if colorName = "forestgreen".toList then CRGB.ForestGreen
  else if colorName = "seagreen".toList then CRGB.SeaGreen
  else if colorName = "limegreen".toList then CRGB.LimeGreen
  else if colorName = "lime".toList then CRGB.Lime
  else if colorName = "aqua".toList then CRGB.Aqua
  else if colorName = "aquamarine".toList then CRGB.Aquamarine
  else if colorName = "turquoise".toList then CRGB.Turquoise
  else if colorName = "palegreen".toList then CRGB.PaleGreen
  else if colorName = "paleturquoise".toList then CRGB.PaleTurquoise
  else if colorName = "powderblue".toList then CRGB.PowderBlue
  else if colorName = "steelblue".toList then CRGB.SteelBlue
  else if colorName = "royalblue".toList then CRGB.RoyalBlue
  else if colorName = "cornflowerblue".toList then CRGB.CornflowerBlue
  else if colorName = "deepskyblue".toList then CRGB.DeepSkyBlue
  else if colorName = "dodgerblue".toList then CRGB.DodgerBlue
  else if colorName = "midnightblue".toList then CRGB.MidnightBlue
  else if colorName = "navy".toList then CRGB.Navy
  else if colorName = "indigo".toList then CRGB.Indigo
  else if colorName = "violet".toList then CRGB.Violet
  else if colorName = "fuchsia".toList then CRGB.Fuchsia
  else if colorName = "hotpink".toList then CRGB.HotPink
  else if colorName = "deeppink".toList then CRGB.DeepPink
  else if colorName = "crimson".toList then CRGB.Crimson
  else if colorName = "firebrick".toList then CRGB.FireBrick
  else if colorName = "maroon".toList then CRGB.Maroon
  else if colorName = "orangered".toList then CRGB.OrangeRed
  else if colorName = "tomato".toList then CRGB.Tomato
  else if colorName = "coral".toList then CRGB.Coral
  else if colorName = "chocolate".toList then CRGB.Chocolate
  else if colorName = "saddlebrown".toList then CRGB.SaddleBrown
  else if colorName = "sienna".toList then CRGB.Sienna
  else if colorName = "peru".toList then CRGB.Peru
  else if colorName = "goldenrod".toList then CRGB.Goldenrod
  else if colorName = "gold".toList then CRGB.Gold
  else if colorName = "greenyellow".toList then CRGB.GreenYellow
  else if colorName = "lemonchiffon".toList then CRGB.LemonChiffon
  else if colorName = "honeydew".toList then CRGB.Honeydew
  else if colorName = "lavender".toList then CRGB.Lavender
  else if colorName = "thistle".toList then CRGB.Thistle
  else if colorName = "aliceblue".toList then CRGB.AliceBlue
  else if colorName = "gray".toList ∨ colorName = "grey".toList then CRGB.Gray
  else if colorName = "silver".toList then CRGB.Silver
  else if colorName = "teal".toList then CRGB.Teal
  else if colorName = "cadetblue".toList then CRGB.CadetBlue
  else if colorName = "darkslategray".toList ∨ colorName = "darkslategrey".toList then CRGB.DarkSlateGray
  else if colorName = "indianred".toList then CRGB.IndianRed
  else CRGB.Red

/-- `AvantLumi::setColor(String colorName)`. -/
def setColor (s : AvantLumi) (colorName : Str) : Bool × AvantLumi :=
  let colorName := trim colorName
  if colorName.length > 0 ∧ isValidColorName colorName = true then
    let solidColor := parseColorName colorName
    (true,
      { s with
        solidColor := solidColor
        solidColorName := colorName
        targetPalette := createSolidPalette solidColor
        useSolidColor := true
        useRandomPalette := false
        currentPaletteName := "solid_color".toList })
  else
    (false, s)

/-- `AvantLumi::setPalette(String paletteName)`.  The assignment
`useSolidColor = false` stands before the dispatch on the name. -/
def setPalette (fl : FastLEDPalettes) (s : AvantLumi) (paletteName : Str) : Bool × AvantLumi :=
  let paletteName := toLowerCase paletteName
  let paletteName := trim paletteName
  let s := { s with useSolidColor := false }
  if paletteName = "rainbow".toList then
    (true, { s with targetPalette := fl.RainbowColors_p, useRandomPalette := false, currentPaletteName := "rainbow".toList })
  else if paletteName = "party".toList then
    (true, { s with targetPalette := fl.PartyColors_p, useRandomPalette := false, currentPaletteName := "party".toList })
  else if paletteName = "ocean".toList then
    (true, { s with targetPalette := fl.OceanColors_p, useRandomPalette := false, currentPaletteName := "ocean".toList })
  else if paletteName = "forest".toList then
    (true, { s with targetPalette := fl.ForestColors_p, useRandomPalette := false, currentPaletteName := "forest".toList })
  else if paletteName = "heat".toList then
    (true, { s with targetPalette := fl.HeatColors_p, useRandomPalette := false, currentPaletteName := "heat".toList })
  else if paletteName = "cloud".toList then
    (true, { s with targetPalette := fl.CloudColors_p, useRandomPalette := false, currentPaletteName := "cloud".toList })
  else if paletteName = "lava".toList then
    (true, { s with targetPalette := fl.LavaColors_p, useRandomPalette := false, currentPaletteName := "lava".toList })
  else if paletteName = "u01".toList ∨ paletteName = "christmas".toList then
    (true, { s with targetPalette := christmas_p, useRandomPalette := false, currentPaletteName := "u01_christmas".toList })
  else if paletteName = "u02".toList ∨ paletteName = "autumn".toList then
    (true, { s with targetPalette := autumn_p, useRandomPalette := false, currentPaletteName := "u02_autumn".toList })
  else if paletteName = "u03".toList ∨ paletteName = "cyberpunk".toList then
    (true, { s with targetPalette := cyberpunk_p, useRandomPalette := false, currentPaletteName := "u03_cyberpunk".toList })
  else if paletteName = "u04".toList ∨ paletteName = "halloween".toList then
    (true, { s with targetPalette := halloween_p, useRandomPalette := false, currentPaletteName := "u04_halloween".toList })
  else if paletteName = "u05".toList ∨ paletteName = "winter".toList then
    (true, { s with targetPalette := winter_p, useRandomPalette := false, currentPaletteName := "u05_winter".toList })
  else if paletteName = "u06".toList ∨ paletteName = "spring".toList then
    (true, { s with targetPalette := spring_p, useRandomPalette := false, currentPaletteName := "u06_spring".toList })
  else if paletteName = "u07".toList ∨ paletteName = "sunset".toList then
    (true, { s with targetPalette := sunset_p, useRandomPalette := false, currentPaletteName := "u07_sunset".toList })
  else if paletteName = "u08".toList ∨ paletteName = "deep_ocean".toList then
    (true, { s with targetPalette := ocean_deep_p, useRandomPalette := false, currentPaletteName := "u08_deep_ocean".toList })
  else if paletteName = "u09".toList ∨ paletteName = "neon".toList then
    (true, { s with targetPalette := neon_p, useRandomPalette := false, currentPaletteName := "u09_neon".toList })
  else if paletteName = "u10".toList ∨ paletteName = "fire".toList then
    (true, { s with targetPalette := fire_p, useRandomPalette := false, currentPaletteName := "u10_fire".toList })
  else if paletteName = "random".toList then
    (true, { s with useRandomPalette := true, currentPaletteName := "random".toList })
  else
    (false, s)

/-- The text `on` / `off` that `getStatus` prints for a flag. -/
def onOff (b : Bool) : Str := if b then "on".toList else "off".toList

/-- `AvantLumi::getStatus`: the JSON text, built piece by piece as in the source. -/
def getStatus (s : AvantLumi) : Str :=
  let status := "\x7b".toList
  let status := status ++ ("\"switch\":\"".toList ++ onOff s.ledEnabled ++ "\",".toList)
  let status := status ++ ("\"bright\":".toList ++ decimal s.currentBrightnessLevel ++ ",".toList)
  let status := status ++ ("\"fade\":\"".toList ++ onOff s.fadeinEnabled ++ "\",".toList)
  let status :=
    if s.useSolidColor then
      let status := status ++ "\"rgb\":\x7b".toList
      let status := status ++ ("\"r\":".toList ++ decimal s.solidColor.r ++ ",".toList)
      let status := status ++ ("\"g\":".toList ++ decimal s.solidColor.g ++ ",".toList)
      let status := status ++ ("\"b\":".toList ++ decimal s.solidColor.b)
      let status :=
        if s.solidColorName.length > 0 then
          status ++ (",\"color\":\"".toList ++ s.solidColorName ++ "\"".toList)
        else status
      status ++ "\x7d".toList
    else
      status ++ ("\"palette\":\"".toList ++ s.currentPaletteName ++ "\"".toList)
  let status := status ++ (",\"power\":\x7b\"v\":".toList ++ decimal s.maxVolts
    ++ ",\"ma\":".toList ++ decimal s.maxMilliamps ++ "\x7d".toList)
  let status := status ++ (",\"blend_spd\":".toList ++ decimal s.blendSpeed)
  let status := status ++ "\x7d".toList
  status

/-- `AvantLumi::setBright(uint8_t level)`. -/
def setBright (s : AvantLumi) (level : Nat) : Bool × AvantLumi :=
  if level ≥ 1 ∧ level ≤ 5 then
    (true, { s with currentBrightnessLevel := level })
  else
    (false, s)

/-- `AvantLumi::setSwitch(String state)`. -/
def setSwitch (s : AvantLumi) (state : Str) : Bool × AvantLumi :=
  let state := toLowerCase state
  let state := trim state
  if state = "on".toList then
    (true, { s with ledEnabled := true })
  else if state = "off".toList then
    (true, { s with ledEnabled := false })
  else
    (false, s)

/-- `AvantLumi::setSwitch(bool state)`. -/
def setSwitchBool (s : AvantLumi) (state : Bool) : Bool × AvantLumi :=
  (true, { s with ledEnabled := state })

/-- `AvantLumi::setFade(String state)`. -/
def setFade (s : AvantLumi) (state : Str) : Bool × AvantLumi :=
  let state := toLowerCase state
  let state := trim state
  if state = "on".toList then
    (true, { s with fadeinEnabled := true })
  else if state = "off".toList then
    (true, { s with fadeinEnabled := false })
  else
    (false, s)

/-- `AvantLumi::setFade(bool state)`. -/
def setFadeBool (s : AvantLumi) (state : Bool) : Bool × AvantLumi :=
  (true, { s with fadeinEnabled := state })

/-- `AvantLumi::getRGB`. -/
def getRGB (s : AvantLumi) : CRGB := s.solidColor

/-- `AvantLumi::getColor`. -/
def getColor (s : AvantLumi) : Str := s.solidColorName

/-- `AvantLumi::getBright`. -/
def getBright (s : AvantLumi) : Nat := s.currentBrightnessLevel

/-- `AvantLumi::getSwitch`. -/
def getSwitch (s : AvantLumi) : Bool := s.ledEnabled

/-- `AvantLumi::getFade`. -/
def getFade (s : AvantLumi) : Bool := s.fadeinEnabled

/-- `AvantLumi::getPalette`. -/
def getPalette (s : AvantLumi) : Str :=
  if s.useSolidColor then "solid_color".toList else s.currentPaletteName

/-- `AvantLumi::setMaxPower(uint8_t voltsVal, uint32_t milliamps)`; the
forwarding call `FastLED.setMaxPowerInVoltsAndMilliamps` acts on the driver. -/
def setMaxPower (s : AvantLumi) (voltsVal milliamps : Nat) : Bool × AvantLumi :=
  if voltsVal < 3 ∨ voltsVal > 24 then
    (false, s)
  else if milliamps < 50 ∨ milliamps > 20000 then
    (false, s)
  else
    (true, { s with maxVolts := voltsVal, maxMilliamps := milliamps })

/-- `AvantLumi::getMaxVolts`. -/
def getMaxVolts (s : AvantLumi) : Nat := s.maxVolts

/-- `AvantLumi::getMaxMilliamps`. -/
def getMaxMilliamps (s : AvantLumi) : Nat := s.maxMilliamps

/-- `AvantLumi::setBlendSpeed(uint8_t speed_val)`. -/
def setBlendSpeed (s : AvantLumi) (speed_val : Nat) : Bool × AvantLumi :=
  if speed_val ≥ 1 ∧ speed_val ≤ 5 then
    (true, { s with blendSpeed := speed_val })
  else
    (false, s)

/-- `AvantLumi::getBlendSpeed`. -/
def getBlendSpeed (s : AvantLumi) : Nat := s.blendSpeed

/-- `AvantLumi::getBlendParameters`: the pair `(interval, maxChanges)`. -/
def getBlendParameters (speedLevel : Nat) : Nat × Nat :=
  match speedLevel with
  | 1 => (200, 25)
  | 2 => (100, 50)
  | 3 => (50, 75)
  | 4 => (25, 100)
  | 5 => (10, 150)
  | _ => (100, 50)

/-! ### Persistence -/

/-- The constant `CONFIG_MAGIC` ("LUMI"). -/
def CONFIG_MAGIC : Nat := 0x4C554D49

/-- The record `struct LedConfig` stored at offset 0 of the EEPROM.  The two
`char[32]` members hold their 32 characters. -/
structure LedConfig where
  magic : Nat
  ledEnabled : Bool
  currentBrightnessLevel : Nat
  fadeinEnabled : Bool
  useSolidColor : Bool
  solidColor : CRGB
  currentPaletteName : List Char
  solidColorName : List Char
  useRandomPalette : Bool
  blendSpeed : Nat
deriving DecidableEq

/-- The persistent store behind the `EEPROM` object: the record image found at
offset 0 (its first four bytes are the member `magic`), and whether
`EEPROM.commit()` manages to write the flash. -/
structure EEPROMClass where
  image : LedConfig
  commitOk : Bool
deriving DecidableEq

/-- The terminating character of a C string. -/
def NUL : Char := Char.ofNat 0

/-- `String::c_str()` as seen by the C string functions: the characters before
the first NUL. -/
def c_str (s : Str) : List Char := s.takeWhile (fun c => c != NUL)

/-- `strncpy(dest, src, n)`: the first `n` characters written to `dest`; a
source shorter than `n` is padded with NUL. -/
def strncpy (src : List Char) (n : Nat) : List Char :=
  let body := src.take n
  body ++ List.replicate (n - body.length) NUL

/-- The two statements `strncpy(buf, name.c_str(), sizeof(buf) - 1);
buf[sizeof(buf) - 1] = 0` for a `char buf[32]`. -/
def storeName (name : Str) : List Char := strncpy (c_str name) 31 ++ [NUL]

/-- `String(const char*)`: the characters of the buffer up to the first NUL. -/
def stringOfBuffer (buf : List Char) : Str := buf.takeWhile (fun c => c != NUL)

/-- `AvantLumi::saveConfig`: returns the result of `EEPROM.commit()` and the
store after the call. -/
def saveConfig (s : AvantLumi) (E : EEPROMClass) : Bool × EEPROMClass :=
  let config : LedConfig :=
    { magic := CONFIG_MAGIC
      ledEnabled := s.ledEnabled
      currentBrightnessLevel := s.currentBrightnessLevel
      fadeinEnabled := s.fadeinEnabled
      useSolidColor := s.useSolidColor
      solidColor := s.solidColor
      currentPaletteName := storeName s.currentPaletteName
      solidColorName := storeName s.solidColorName
      useRandomPalette := s.useRandomPalette
      blendSpeed := s.blendSpeed }
  if E.commitOk then (true, { E with image := config }) else (false, E)

/-- The nine member assignments of `loadConfig` that copy the record into the
object (`this->ledEnabled = config.ledEnabled; ...`). -/
def restoreMembers (s : AvantLumi) (config : LedConfig) : AvantLumi :=
  { s with
    ledEnabled := config.ledEnabled
    currentBrightnessLevel := config.currentBrightnessLevel
    fadeinEnabled := config.fadeinEnabled
    useSolidColor := config.useSolidColor
    solidColor := config.solidColor
    currentPaletteName := stringOfBuffer config.currentPaletteName
    solidColorName := stringOfBuffer config.solidColorName
    useRandomPalette := config.useRandomPalette
    blendSpeed := config.blendSpeed }

/-- `AvantLumi::loadConfig`. -/
def loadConfig (fl : FastLEDPalettes) (s : AvantLumi) (E : EEPROMClass) : Bool × AvantLumi :=
  let config := E.image
  if config.magic ≠ CONFIG_MAGIC then
    (false, s)
  else
    let s := restoreMembers s config
    let s :=
      if s.useSolidColor then
        { s with targetPalette := createSolidPalette s.solidColor }
      else
        (setPalette fl s s.currentPaletteName).2
    let s := { s with targetBrightness := brightnessAt s.currentBrightnessLevel }
    (true, s)

/-- `AvantLumi::checkConfig`: reads the first four bytes of the store, the
member `magic` of the record image, and writes no member of the object. -/
def checkConfig (s : AvantLumi) (E : EEPROMClass) : Bool × AvantLumi :=
  let magic := E.image.magic
  (magic == CONFIG_MAGIC, s)

/-! ### Sequences of setter calls -/

/-- One call of a public setter, with its arguments. -/
inductive Setter where
  | setRGB (rVal gVal bVal : Nat)
  | setColor (colorName : Str)
  | setBright (level : Nat)
  | setSwitch (state : Str)
  | setSwitchBool (state : Bool)
  | setFade (state : Str)
  | setFadeBool (state : Bool)
  | setPalette (paletteName : Str)
  | setBlendSpeed (speed_val : Nat)
  | setMaxPower (voltsVal milliamps : Nat)
deriving DecidableEq

/-- The effect of one setter call: its return value and the object afterwards. -/
def Setter.run (fl : FastLEDPalettes) (s : AvantLumi) : Setter → Bool × AvantLumi
  | .setRGB rVal gVal bVal => AvantLumi.setRGB s rVal gVal bVal
  | .setColor colorName => AvantLumi.setColor s colorName
  | .setBright level => AvantLumi.setBright s level
  | .setSwitch state => AvantLumi.setSwitch s state
  | .setSwitchBool state => AvantLumi.setSwitchBool s state
  | .setFade state => AvantLumi.setFade s state
  | .setFadeBool state => AvantLumi.setFadeBool s state
  | .setPalette paletteName => AvantLumi.setPalette fl s paletteName
  | .setBlendSpeed speed_val => AvantLumi.setBlendSpeed s speed_val
  | .setMaxPower voltsVal milliamps => AvantLumi.setMaxPower s voltsVal milliamps

/-- The object after a sequence of setter calls (return values are dropped,
so rejected calls are part of the sequence). -/
def runSetters (fl : FastLEDPalettes) (s : AvantLumi) (calls : List Setter) : AvantLumi :=
  calls.foldl (fun t c => (c.run fl t).2) s

/-- An arbitrary instance of the stock FastLED gradients, for evaluating the
embedding on concrete inputs: each gradient is a flat ramp of one colour. -/
def sampleStock : FastLEDPalettes :=
  { RainbowColors_p := createSolidPalette CRGB.Violet
    PartyColors_p := createSolidPalette CRGB.Purple
    OceanColors_p := createSolidPalette CRGB.Navy
    ForestColors_p := createSolidPalette CRGB.ForestGreen
    HeatColors_p := createSolidPalette CRGB.OrangeRed
    CloudColors_p := createSolidPalette CRGB.LightBlue
    LavaColors_p := createSolidPalette CRGB.Maroon }

/-- The Palette Catalog as the specification enumerates it: every identifier
(built-in name, short code `u01`..`u10`, descriptive alias) paired with the
gradient it names. -/
def catalog (fl : FastLEDPalettes) : List (Str × CRGBPalette16) :=
  [("rainbow".toList, fl.RainbowColors_p),
   ("party".toList, fl.PartyColors_p),
   ("ocean".toList, fl.OceanColors_p),
   ("forest".toList, fl.ForestColors_p),
   ("heat".toList, fl.HeatColors_p),
   ("cloud".toList, fl.CloudColors_p),
   ("lava".toList, fl.LavaColors_p),
   ("u01".toList, christmas_p), ("christmas".toList, christmas_p),
   ("u02".toList, autumn_p), ("autumn".toList, autumn_p),
   ("u03".toList, cyberpunk_p), ("cyberpunk".toList, cyberpunk_p),
   ("u04".toList, halloween_p), ("halloween".toList, halloween_p),
   ("u05".toList, winter_p), ("winter".toList, winter_p),
   ("u06".toList, spring_p), ("spring".toList, spring_p),
   ("u07".toList, sunset_p), ("sunset".toList, sunset_p),
   ("u08".toList, ocean_deep_p), ("deep_ocean".toList, ocean_deep_p),
   ("u09".toList, neon_p), ("neon".toList, neon_p),
   ("u10".toList, fire_p), ("fire".toList, fire_p)]

/-- Every value that the member `currentPaletteName` is ever assigned by the
constructor and the setters. -/
def paletteNames : List Str :=
  ["party".toList, "rainbow".toList, "ocean".toList, "forest".toList, "heat".toList,
   "cloud".toList, "lava".toList, "u01_christmas".toList, "u02_autumn".toList,
   "u03_cyberpunk".toList, "u04_halloween".toList, "u05_winter".toList,
   "u06_spring".toList, "u07_sunset".toList, "u08_deep_ocean".toList, "u09_neon".toList,
   "u10_fire".toList, "random".toList, "solid_color".toList]

/-- An erased store: every byte reads `0xFF`. -/
def erasedEEPROM : EEPROMClass :=
  { image :=
      { magic := 0xFFFFFFFF
        ledEnabled := true
        currentBrightnessLevel := 255
        fadeinEnabled := true
        useSolidColor := true
        solidColor := ⟨255, 255, 255⟩
        currentPaletteName := List.replicate 32 (Char.ofNat 255)
        solidColorName := List.replicate 32 (Char.ofNat 255)
        useRandomPalette := true
        blendSpeed := 255 }
    commitOk := true }

/-- The names held by the object are names the setters wrote: the palette
name is one of `paletteNames`, the colour name is empty or a spelling of a
valid colour. -/
def NamesOK (s : AvantLumi) : Prop :=
  s.currentPaletteName ∈ paletteNames ∧
  (s.solidColorName = [] ∨ toLowerCase s.solidColorName ∈ validColors)

/-- The record that `saveConfig` writes for the object `s`. -/
def recordOf (s : AvantLumi) : LedConfig :=
  { magic := CONFIG_MAGIC
    ledEnabled := s.ledEnabled
    currentBrightnessLevel := s.currentBrightnessLevel
    fadeinEnabled := s.fadeinEnabled
    useSolidColor := s.useSolidColor
    solidColor := s.solidColor
    currentPaletteName := storeName s.currentPaletteName
    solidColorName := storeName s.solidColorName
    useRandomPalette := s.useRandomPalette
    blendSpeed := s.blendSpeed }

end AvantLumi

/-! ## FastLED functions used by `update()` -/

/-- FastLED `CHSV`: hue, saturation, value, one byte each. -/
structure CHSV where
  h : Nat
  s : Nat
  v : Nat
deriving DecidableEq, Repr

/-- What the source of this repository leaves to the library and to the
compiler; these are parameters of the embedding.  The FastLED functions called
by the renderer and by the random palette whose bodies are not part of the
repository: `sin8(theta)`, `ColorFromPalette(pal, index, brightness, blend)` and
the four-colour gradient constructor `CRGBPalette16(CHSV, CHSV, CHSV, CHSV)`.
And `drawPlace`, the order in which the compiled program evaluates the eight
`random8` calls that stand among the arguments of the constructor expression of
`generateRandomPalette`: C++ does not fix the order of evaluation of function
arguments.  The calls are numbered 0..7 as they are written (0 and 1 the hue
and the value draw of the first colour, ..., 6 and 7 those of the fourth), and
`drawPlace j` is the place, 0 for the first and 7 for the last, that call `j`
has among the eight when the program runs. -/
structure FastLEDFns where
  sin8 : Nat → Nat
  ColorFromPalette : CRGBPalette16 → Nat → Nat → TBlendType → CRGB
  paletteOfCHSV4 : CHSV → CHSV → CHSV → CHSV → CRGBPalette16
  drawPlace : Nat → Nat

/-- FastLED `random8()` on the generator state `rand16seed`: the state is
advanced by `seed * 2053 + 13849` (16 bit) and the sum of its two bytes
(8 bit) is returned.  The pair is (value, new state). -/
def random8 (rand16seed : Nat) : Nat × Nat :=
  let rand16seed := (rand16seed * 2053 + 13849) % 65536
  ((rand16seed % 256 + rand16seed / 256) % 256, rand16seed)

/-- FastLED `random8(lim)`: `(random8() * lim) >> 8`. -/
def random8_lim (rand16seed lim : Nat) : Nat × Nat :=
  let r := random8 rand16seed
  ((r.1 * lim) / 256 % 256, r.2)

/-- FastLED `random8(min, lim)`: `random8(lim - min) + min` in 8-bit arithmetic. -/
def random8_range (rand16seed min lim : Nat) : Nat × Nat :=
  let delta := (lim + 256 - min) % 256
  let r := random8_lim rand16seed delta
  ((r.1 + min) % 256, r.2)

/-- FastLED `random16_set_seed(seed)`: the new 16-bit generator state. -/
def random16_set_seed (seed : Nat) : Nat := seed % 65536

/-- The 48 channel bytes of a palette in memory order (`r`, `g`, `b` of stop 0,
then of stop 1, ...), as `(uint8_t*)palette.entries` reads them. -/
def channelsOf (p : CRGBPalette16) : List Nat :=
  p.val.flatMap (fun c => [c.r, c.g, c.b])

/-- Channel bytes grouped into colours, three at a time. -/
def chunk3 : List Nat → List CRGB
  | r :: g :: b :: rest => ⟨r, g, b⟩ :: chunk3 rest
  | _ => []

/-- The palette whose 48 channel bytes are the given ones (were there fewer
bytes, the missing stops would be black). -/
def paletteOfChannels (l : List Nat) : CRGBPalette16 :=
  ⟨(chunk3 l ++ List.replicate 16 CRGB.Black).take 16, by
    rw [List.length_take, List.length_append, List.length_replicate]; omega⟩

/-- The sum of the channel-wise distances of two byte sequences. -/
def gapSum : List Nat → List Nat → Nat
  | c :: p1, t :: p2 => ((c - t) + (t - c)) + gapSum p1 p2
  | _, _ => 0

/-- The loop of FastLED `nblendPaletteTowardPalette` over the remaining channel
bytes `p1` (current) and `p2` (target), with the counter `changes`: an equal
byte is skipped; a smaller byte is raised by one; a larger byte is lowered by
one, and by one more if it is still larger; each moved byte counts as one
change and the loop stops once `changes >= maxChanges`. -/
def blendChannels (maxChanges : Nat) : List Nat → List Nat → Nat → List Nat
  | c :: p1, t :: p2, changes =>
    if c = t then
      c :: blendChannels maxChanges p1 p2 changes
    else
      let up := if c < t then (c + 1, changes + 1) else (c, changes)
      let down :=
        if up.1 > t then
          let c1 := up.1 - 1
          (if c1 > t then c1 - 1 else c1, up.2 + 1)
        else up
      if down.2 ≥ maxChanges then
        down.1 :: p1
      else
        down.1 :: blendChannels maxChanges p1 p2 down.2
  | p1, _, _ => p1

/-- FastLED `nblendPaletteTowardPalette(current, target, maxChanges)`: the new
value of `current`. -/
def nblendPaletteTowardPalette (current target : CRGBPalette16) (maxChanges : Nat) :
    CRGBPalette16 :=
  paletteOfChannels (blendChannels maxChanges (channelsOf current) (channelsOf target) 0)

/-- The difference `a - b` of two `unsigned long` values (32 bit). -/
def elapsed (a b : Nat) : Nat := (a + 4294967296 - b % 4294967296) % 4294967296

namespace AvantLumi

/-- `AvantLumi::updateBrightness`, with `millis()` returning `now`.  The call
`FastLED.setBrightness(actualBrightness)` hands the value to the driver. -/
def updateBrightness (s : AvantLumi) (now : Nat) : AvantLumi :=
  let currentTime := now
  if elapsed currentTime s.lastBrightnessUpdate ≥ 20 then
    let s := { s with lastBrightnessUpdate := currentTime }
    let desiredBrightness := if s.ledEnabled then brightnessAt s.currentBrightnessLevel else 0
    let s :=
      if s.targetBrightness ≠ desiredBrightness then
        { s with targetBrightness := desiredBrightness }
      else s
    if s.actualBrightness < s.targetBrightness then
      { s with actualBrightness :=
          (min ((s.actualBrightness : Int) + 3) (s.targetBrightness : Int)).toNat }
    else if s.actualBrightness > s.targetBrightness then
      { s with actualBrightness :=
          (max ((s.actualBrightness : Int) - 3) (s.targetBrightness : Int)).toNat }
    else s
  else s

/-- The pixel loop of `updateLEDs` from pixel `i` on, for `n` more pixels: the
pixels computed and the generator state after the loop. -/
def renderPixels (fx : FastLEDFns) (s : AvantLumi) (now : Nat) :
    Nat → Nat → Nat → List CRGB × Nat
  | 0, _, rand16seed => ([], rand16seed)
  | n + 1, i, rand16seed =>
    let period := random8_range rand16seed 10 20
    let fader := if s.fadeinEnabled then fx.sin8 ((now / period.1) % 256) else 255
    let rand16seed := if s.fadeinEnabled then period.2 else rand16seed
    let pixel := fx.ColorFromPalette s.currentPalette ((i * 20) % 256) fader s.currentBlending
    let rest := renderPixels fx s now n (i + 1) rand16seed
    (pixel :: rest.1, rest.2)

/-- `AvantLumi::updateLEDs`, on the object and the generator state found at the
call (`_seedBefore`), with `millis()` returning `now`: the state found is
overwritten by `random16_set_seed(535)` before the pixel loop and by
`random16_set_seed(millis())` after it. -/
def updateLEDs (fx : FastLEDFns) (s : AvantLumi) (_seedBefore : Nat) (now : Nat) :
    AvantLumi × Nat :=
  let rand16seed := random16_set_seed 535
  let frame := renderPixels fx s now s.numLeds 0 rand16seed
  ({ s with leds := frame.1 }, random16_set_seed now)

/-- The generator state after one `random8()` call. -/
def nextSeed (rand16seed : Nat) : Nat := (random8 rand16seed).2

/-- Argument evaluation in the order in which the arguments are written. -/
def leftToRight (j : Nat) : Nat := j

/-- Argument evaluation from the last argument to the first. -/
def rightToLeft (j : Nat) : Nat := 7 - j

/-- The four colours of `generateRandomPalette` and the generator state after
its nine `random8` calls.  `baseC = random8(255)` is a statement of its own and
is drawn first.  The eight calls `random8(0, 32)` and `random8(128, 255)` are
arguments of one expression; the call written at position `j` is the
`place j`-th of them to run (counting from 0) and so draws from the generator
state reached `place j` calls after the one of `baseC`.  A hue `baseC + r` is
narrowed to the `uint8_t` parameter of `CHSV`. -/
def randomColours (place : Nat → Nat) (rand16seed : Nat) : (CHSV × CHSV × CHSV × CHSV) × Nat :=
  let baseC := random8_lim rand16seed 255
  let h1 := random8_range (nextSeed^[place 0] baseC.2) 0 32
  let v1 := random8_range (nextSeed^[place 1] baseC.2) 128 255
  let h2 := random8_range (nextSeed^[place 2] baseC.2) 0 32
  let v2 := random8_range (nextSeed^[place 3] baseC.2) 128 255
  let h3 := random8_range (nextSeed^[place 4] baseC.2) 0 32
  let v3 := random8_range (nextSeed^[place 5] baseC.2) 128 255
  let h4 := random8_range (nextSeed^[place 6] baseC.2) 0 32
  let v4 := random8_range (nextSeed^[place 7] baseC.2) 128 255
  ((⟨(baseC.1 + h1.1) % 256, 255, v1.1⟩,
    ⟨(baseC.1 + h2.1) % 256, 255, v2.1⟩,
    ⟨(baseC.1 + h3.1) % 256, 192, v3.1⟩,
    ⟨(baseC.1 + h4.1) % 256, 255, v4.1⟩), nextSeed^[8] baseC.2)

/-- `AvantLumi::generateRandomPalette`, on the object and the generator state. -/
def generateRandomPalette (fx : FastLEDFns) (s : AvantLumi) (rand16seed : Nat) :
    AvantLumi × Nat :=
  let c := randomColours fx.drawPlace rand16seed
  ({ s with targetPalette := fx.paletteOfCHSV4 c.1.1 c.1.2.1 c.1.2.2.1 c.1.2.2.2 }, c.2)

end AvantLumi

/-- The running program: the controller object, the two function-local statics
of `update()`, the state of the FastLED random generator and the EEPROM. -/
structure Sketch where
  lumi : AvantLumi
  lastPaletteBlend : Nat
  lastRandomPalette : Nat
  rand16seed : Nat
  eeprom : AvantLumi.EEPROMClass

namespace AvantLumi

/-- `AvantLumi::update`, with `millis()` returning `now` throughout the call.
The final `FastLED.show()` transmits the frame and changes nothing here. -/
def update (fx : FastLEDFns) (w : Sketch) (now : Nat) : Sketch :=
  let s := updateBrightness w.lumi now
  let blend := getBlendParameters s.blendSpeed
  let blendInterval := blend.1
  let maxBlendChanges := blend.2
  let w :=
    if elapsed now w.lastPaletteBlend ≥ blendInterval then
      { w with
        lastPaletteBlend := now
        lumi := { s with currentPalette :=
          nblendPaletteTowardPalette s.currentPalette s.targetPalette maxBlendChanges } }
    else
      { w with lumi := s }
  let w :=
    if elapsed now w.lastRandomPalette ≥ 5000 then
      let w := { w with lastRandomPalette := now }
      if w.lumi.useRandomPalette && !w.lumi.useSolidColor then
        let g := generateRandomPalette fx w.lumi w.rand16seed
        { w with lumi := g.1, rand16seed := g.2 }
      else w
    else w
  let r := updateLEDs fx w.lumi w.rand16seed now
  { w with lumi := r.1, rand16seed := r.2 }

/-- A program that has just constructed its controller: the statics of
`update()` are zero, the generator holds FastLED's initial seed 1337. -/
def boot (fl : FastLEDPalettes) (dataPin numLeds : Nat) (E : EEPROMClass) : Sketch :=
  { lumi := ctor fl dataPin numLeds
    lastPaletteBlend := 0
    lastRandomPalette := 0
    rand16seed := 1337
    eeprom := E }

/-- One public operation on the running program; `storeContent` is the
environment placing a content in the store. -/
inductive Op where
  | setter (c : Setter)
  | update (now : Nat)
  | saveConfig
  | loadConfig
  | checkConfig
  | storeContent (E : EEPROMClass)

/-- The effect of one operation on the program. -/
def Op.run (fl : FastLEDPalettes) (fx : FastLEDFns) (w : Sketch) : Op → Sketch
  | .setter c => { w with lumi := (c.run fl w.lumi).2 }
  | .update now => AvantLumi.update fx w now
  | .saveConfig => { w with eeprom := (AvantLumi.saveConfig w.lumi w.eeprom).2 }
  | .loadConfig => { w with lumi := (AvantLumi.loadConfig fl w.lumi w.eeprom).2 }
  | .checkConfig => { w with lumi := (AvantLumi.checkConfig w.lumi w.eeprom).2 }
  | .storeContent E => { w with eeprom := E }

/-- The program after a sequence of operations. -/
def runOps (fl : FastLEDPalettes) (fx : FastLEDFns) (w : Sketch) (ops : List Op) : Sketch :=
  ops.foldl (fun v op => op.run fl fx v) w

/-- An instance of the library functions and of the order of evaluation, for
evaluating the embedding on concrete inputs: the three functions are arbitrary
stand-ins, the arguments are evaluated from the last to the first. -/
def sampleFns : FastLEDFns :=
  { sin8 := fun theta => theta
    ColorFromPalette := fun pal index brightness _ =>
      let c := pal.val.getD (index / 16) CRGB.Black
      ⟨c.r * brightness / 255, c.g * brightness / 255, c.b * brightness / 255⟩
    paletteOfCHSV4 := fun a b c d =>
      CRGBPalette16.of16 ⟨a.h, a.s, a.v⟩ ⟨a.h, a.s, a.v⟩ ⟨a.h, a.s, a.v⟩ ⟨a.h, a.s, a.v⟩
        ⟨b.h, b.s, b.v⟩ ⟨b.h, b.s, b.v⟩ ⟨b.h, b.s, b.v⟩ ⟨b.h, b.s, b.v⟩
        ⟨c.h, c.s, c.v⟩ ⟨c.h, c.s, c.v⟩ ⟨c.h, c.s, c.v⟩ ⟨c.h, c.s, c.v⟩
        ⟨d.h, d.s, d.v⟩ ⟨d.h, d.s, d.v⟩ ⟨d.h, d.s, d.v⟩ ⟨d.h, d.s, d.v⟩
    drawPlace := rightToLeft }

/-- The instance `sampleFns` with the arguments evaluated in the order in which
they are written. -/
def sampleFnsInOrder : FastLEDFns :=
  { sampleFns with drawPlace := leftToRight }

/-! ### Auxiliary definitions for the proofs about `update()` -/

/-- The blend step of `update()`: the statement guarded by
`millis() - lastPaletteBlend >= blendInterval`, applied after
`updateBrightness` has produced the object `s`. -/
def blendStage (w : Sketch) (s : AvantLumi) (now : Nat) : Sketch :=
  let blend := getBlendParameters s.blendSpeed
  if elapsed now w.lastPaletteBlend ≥ blend.1 then
    { w with
      lastPaletteBlend := now
      lumi := { s with currentPalette :=
        nblendPaletteTowardPalette s.currentPalette s.targetPalette blend.2 } }
  else
    { w with lumi := s }

/-- The random-palette step of `update()`: the statement guarded by
`millis() - lastRandomPalette >= 5000`. -/
def randomStage (fx : FastLEDFns) (w : Sketch) (now : Nat) : Sketch :=
  if elapsed now w.lastRandomPalette ≥ 5000 then
    let w := { w with lastRandomPalette := now }
    if w.lumi.useRandomPalette && !w.lumi.useSolidColor then
      let g := generateRandomPalette fx w.lumi w.rand16seed
      { w with lumi := g.1, rand16seed := g.2 }
    else w
  else w

/-- The last step of `update()`: `updateLEDs()`. -/
def renderStage (fx : FastLEDFns) (w : Sketch) (now : Nat) : Sketch :=
  let r := updateLEDs fx w.lumi w.rand16seed now
  { w with lumi := r.1, rand16seed := r.2 }

/-- The members that hold the user's settings (everything the setters write,
apart from the target gradient). -/
def settingsOf (s : AvantLumi) :
    Bool × Bool × Bool × CRGB × Bool × Nat × Str × Str × Nat × Nat × Nat :=
  (s.fadeinEnabled, s.useRandomPalette, s.useSolidColor, s.solidColor, s.ledEnabled,
   s.currentBrightnessLevel, s.currentPaletteName, s.solidColorName, s.blendSpeed,
   s.maxVolts, s.maxMilliamps)

/-- The brightness that the governor steers to:
`ledEnabled ? brightnessLevels[currentBrightnessLevel] : 0`. -/
def desiredBrightness (s : AvantLumi) : Nat :=
  if s.ledEnabled then brightnessAt s.currentBrightnessLevel else 0

/-- One governor step from `a` toward `d`: at most 3 units, never past `d`. -/
def approach (a d : Nat) : Nat :=
  if a < d then min (a + 3) d else if a > d then max (a - 3) d else a

/-- The object after calls of `updateBrightness` at the given times. -/
def runGovernor (s : AvantLumi) (times : List Nat) : AvantLumi :=
  times.foldl updateBrightness s

/-- Every call of `updateBrightness` in the sequence passes the 20 ms gate. -/
def allFire : AvantLumi → List Nat → Bool
  | _, [] => true
  | s, now :: rest =>
    decide (elapsed now s.lastBrightnessUpdate ≥ 20) && allFire (updateBrightness s now) rest

/-- The distance between two brightness values. -/
def gap (a d : Nat) : Nat := (a - d) + (d - a)

/-- Brightness level and blend speed are both in 1..5. -/
def LevelsInRange (s : AvantLumi) : Prop :=
  (1 ≤ s.currentBrightnessLevel ∧ s.currentBrightnessLevel ≤ 5) ∧
  (1 ≤ s.blendSpeed ∧ s.blendSpeed ≤ 5)

/-- The members that determine the mode and its detail. -/
def modeOf (s : AvantLumi) : Bool × Bool × CRGB × Str × Str :=
  (s.useSolidColor, s.useRandomPalette, s.solidColor, s.currentPaletteName, s.solidColorName)

/-- The program after calls of `update()` at the given times. -/
def runUpdates (fx : FastLEDFns) (w : Sketch) (times : List Nat) : Sketch :=
  times.foldl (update fx) w

/-- The record in the store, if it carries the magic marker, holds a
brightness level and a blend speed in 1..5. -/
def RecordInRange (E : EEPROMClass) : Prop :=
  E.image.magic = CONFIG_MAGIC →
    (1 ≤ E.image.currentBrightnessLevel ∧ E.image.currentBrightnessLevel ≤ 5) ∧
    (1 ≤ E.image.blendSpeed ∧ E.image.blendSpeed ≤ 5)

/-- An operation that places a content in the store places one whose record
is in range; every other operation is unrestricted. -/
def Op.storesInRange : Op → Prop
  | .storeContent E => RecordInRange E
  | _ => True

/-- A store content that carries the magic marker followed by the brightness
level 200 and the blend speed 0. -/
def outOfRangeStore : EEPROMClass :=
  { image :=
      { magic := CONFIG_MAGIC
        ledEnabled := true
        currentBrightnessLevel := 200
        fadeinEnabled := true
        useSolidColor := false
        solidColor := ⟨0, 0, 0⟩
        currentPaletteName := storeName "party".toList
        solidColorName := storeName "".toList
        useRandomPalette := false
        blendSpeed := 0 }
    commitOk := true }

/-- The mode part of the status snapshot as the specification describes it: an
`rgb` object with `r`, `g`, `b` (and a `color` key exactly when the solid colour
name is not empty) in SolidColor mode, a `palette` key otherwise. -/
def snapshotMode (s : AvantLumi) : Str :=
  if s.useSolidColor then
    "\"rgb\":\x7b\"r\":".toList ++ decimal s.solidColor.r ++ ",\"g\":".toList
      ++ decimal s.solidColor.g ++ ",\"b\":".toList ++ decimal s.solidColor.b
      ++ (if s.solidColorName ≠ [] then
            ",\"color\":\"".toList ++ s.solidColorName ++ "\"".toList
          else [])
      ++ "\x7d".toList
  else
    "\"palette\":\"".toList ++ s.currentPaletteName ++ "\"".toList

/-- The status snapshot as the specification describes it: switch, bright,
fade, the mode part, the power object and blend_spd, in this order. -/
def snapshot (s : AvantLumi) : Str :=
  "\x7b\"switch\":\"".toList ++ (if s.ledEnabled then "on".toList else "off".toList)
    ++ "\",\"bright\":".toList ++ decimal s.currentBrightnessLevel
    ++ ",\"fade\":\"".toList ++ (if s.fadeinEnabled then "on".toList else "off".toList)
    ++ "\",".toList ++ snapshotMode s
    ++ ",\"power\":\x7b\"v\":".toList ++ decimal s.maxVolts
    ++ ",\"ma\":".toList ++ decimal s.maxMilliamps
    ++ "\x7d,\"blend_spd\":".toList ++ decimal s.blendSpeed ++ "\x7d".toList

/-- The colour names of the specification's Color Resolver with the RGB triple
that each name stands for: the web colour names with their standard values,
in decimal.  The table is written from the web colour standard, independently
of `parseColorName` and of the `CRGB` constants above. -/
def webColors : List (Str × CRGB) :=
  [("red".toList, ⟨255, 0, 0⟩), ("green".toList, ⟨0, 128, 0⟩), ("blue".toList, ⟨0, 0, 255⟩),
   ("white".toList, ⟨255, 255, 255⟩), ("black".toList, ⟨0, 0, 0⟩),
   ("yellow".toList, ⟨255, 255, 0⟩), ("cyan".toList, ⟨0, 255, 255⟩),
   ("magenta".toList, ⟨255, 0, 255⟩), ("orange".toList, ⟨255, 165, 0⟩),
   ("purple".toList, ⟨128, 0, 128⟩), ("pink".toList, ⟨255, 192, 203⟩),
   ("brown".toList, ⟨165, 42, 42⟩), ("lightgreen".toList, ⟨144, 238, 144⟩),
   ("lightblue".toList, ⟨173, 216, 230⟩), ("lightpink".toList, ⟨255, 182, 193⟩),
   ("lightcyan".toList, ⟨224, 255, 255⟩), ("lightyellow".toList, ⟨255, 255, 224⟩),
   ("lightsteelblue".toList, ⟨176, 196, 222⟩), ("darkred".toList, ⟨139, 0, 0⟩),
   ("darkgreen".toList, ⟨0, 100, 0⟩), ("darkblue".toList, ⟨0, 0, 139⟩),
   ("darkorange".toList, ⟨255, 140, 0⟩), ("darkviolet".toList, ⟨148, 0, 211⟩),
   ("darkgray".toList, ⟨169, 169, 169⟩), ("darkgrey".toList, ⟨169, 169, 169⟩),
   ("darkcyan".toList, ⟨0, 139, 139⟩), ("darkgoldenrod".toList, ⟨184, 134, 11⟩),
   ("darkslateblue".toList, ⟨72, 61, 139⟩), ("darkturquoise".toList, ⟨0, 206, 209⟩),
   ("darkseagreen".toList, ⟨143, 188, 143⟩), ("mediumblue".toList, ⟨0, 0, 205⟩),
   ("mediumorchid".toList, ⟨186, 85, 211⟩), ("mediumspringgreen".toList, ⟨0, 250, 154⟩),
   ("springgreen".toList, ⟨0, 255, 127⟩), ("forestgreen".toList, ⟨34, 139, 34⟩),
   ("seagreen".toList, ⟨46, 139, 87⟩), ("limegreen".toList, ⟨50, 205, 50⟩),
   ("lime".toList, ⟨0, 255, 0⟩), ("aqua".toList, ⟨0, 255, 255⟩),
   ("aquamarine".toList, ⟨127, 255, 212⟩), ("turquoise".toList, ⟨64, 224, 208⟩),
   ("palegreen".toList, ⟨152, 251, 152⟩), ("paleturquoise".toList, ⟨175, 238, 238⟩),
   ("powderblue".toList, ⟨176, 224, 230⟩), ("steelblue".toList, ⟨70, 130, 180⟩),
   ("royalblue".toList, ⟨65, 105, 225⟩), ("cornflowerblue".toList, ⟨100, 149, 237⟩),
   ("deepskyblue".toList, ⟨0, 191, 255⟩), ("dodgerblue".toList, ⟨30, 144, 255⟩),
   ("midnightblue".toList, ⟨25, 25, 112⟩), ("navy".toList, ⟨0, 0, 128⟩),
   ("indigo".toList, ⟨75, 0, 130⟩), ("violet".toList, ⟨238, 130, 238⟩),
   ("fuchsia".toList, ⟨255, 0, 255⟩), ("hotpink".toList, ⟨255, 105, 180⟩),
   ("deeppink".toList, ⟨255, 20, 147⟩), ("crimson".toList, ⟨220, 20, 60⟩),
   ("firebrick".toList, ⟨178, 34, 34⟩), ("maroon".toList, ⟨128, 0, 0⟩),
   ("orangered".toList, ⟨255, 69, 0⟩), ("tomato".toList, ⟨255, 99, 71⟩),
   ("coral".toList, ⟨255, 127, 80⟩), ("chocolate".toList, ⟨210, 105, 30⟩),
   ("saddlebrown".toList, ⟨139, 69, 19⟩), ("sienna".toList, ⟨160, 82, 45⟩),
   ("peru".toList, ⟨205, 133, 63⟩), ("goldenrod".toList, ⟨218, 165, 32⟩),
   ("gold".toList, ⟨255, 215, 0⟩), ("greenyellow".toList, ⟨173, 255, 47⟩),
   ("lemonchiffon".toList, ⟨255, 250, 205⟩), ("honeydew".toList, ⟨240, 255, 240⟩),
   ("lavender".toList, ⟨230, 230, 250⟩), ("thistle".toList, ⟨216, 191, 216⟩),
   ("aliceblue".toList, ⟨240, 248, 255⟩), ("gray".toList, ⟨128, 128, 128⟩),
   ("grey".toList, ⟨128, 128, 128⟩), ("silver".toList, ⟨192, 192, 192⟩),
   ("teal".toList, ⟨0, 128, 128⟩), ("cadetblue".toList, ⟨95, 158, 160⟩),
   ("darkslategray".toList, ⟨47, 79, 79⟩), ("darkslategrey".toList, ⟨47, 79, 79⟩),
   ("indianred".toList, ⟨205, 92, 92⟩)]

/-- The number of channel bytes before position `i` that differ from their
target byte. -/
def differingBefore : List Nat → List Nat → Nat → Nat
  | c :: p1, t :: p2, i + 1 => (if c = t then 0 else 1) + differingBefore p1 p2 i
  | _, _, _ => 0

/-! ### Auxiliary definitions for the renderer and the blend step -/

/-- The period that the pixel loop draws for pixel `i` when fade is enabled: the
`i`-th value of `random8(10, 20)` after `random16_set_seed(535)`. -/
def pixelPeriod (i : Nat) : Nat :=
  (random8_range (nextSeed^[i] (random16_set_seed 535)) 10 20).1

/-- The move that `nblendPaletteTowardPalette` makes on one channel byte `c`
with target `t`, when it moves it: up by one, or down by one and by one more
if it is still above the target. -/
def stepChannel (c t : Nat) : Nat :=
  if c = t then c else if c < t then c + 1 else if c - 1 > t then c - 2 else c - 1

/-- A call that is a setter call or an `update()` tick at a given time. -/
def opOf : Setter ⊕ Nat → Op
  | .inl c => Op.setter c
  | .inr now => Op.update now

end AvantLumi

/-! ## Lemmas on strings -/

theorem tolower_of_isspace (c : Char) (h : isspace c = true) : tolower c = c := by
  unfold isspace at h
  unfold tolower
  have hc : ¬ (65 ≤ c.toNat ∧ c.toNat ≤ 90) := by
    simp only [Bool.or_eq_true, Bool.and_eq_true, beq_iff_eq, decide_eq_true_eq] at h
    omega
  rw [if_neg hc]

theorem toNat_ofNat_small (n : Nat) (h : n < 55296) : (Char.ofNat n).toNat = n := by
  have hv : n.isValidChar := Or.inl h
  simp [Char.ofNat, hv, Char.ofNatAux, Char.toNat, UInt32.toNat]

theorem tolower_tolower (c : Char) : tolower (tolower c) = tolower c := by
  by_cases hc : 65 ≤ c.toNat ∧ c.toNat ≤ 90
  · have h1 : tolower c = Char.ofNat (c.toNat + 32) := by unfold tolower; rw [if_pos hc]
    have h2 : (Char.ofNat (c.toNat + 32)).toNat = c.toNat + 32 :=
      toNat_ofNat_small _ (by omega)
    rw [h1]
    unfold tolower
    rw [h2, if_neg (by omega)]
  · have h1 : tolower c = c := by unfold tolower; rw [if_neg hc]
    rw [h1, h1]

theorem toLowerCase_toLowerCase (s : Str) : toLowerCase (toLowerCase s) = toLowerCase s := by
  unfold toLowerCase
  rw [List.map_map]
  apply List.map_congr_left
  intro c _
  exact tolower_tolower c

theorem toLowerCase_append (s t : Str) :
    toLowerCase (s ++ t) = toLowerCase s ++ toLowerCase t := by
  unfold toLowerCase
  exact List.map_append _ _ _

theorem toLowerCase_of_spaces (ws : Str) (h : ∀ c ∈ ws, isspace c = true) :
    toLowerCase ws = ws := by
  unfold toLowerCase
  conv_rhs => rw [← List.map_id ws]
  apply List.map_congr_left
  intro c hc
  simpa using tolower_of_isspace c (h c hc)

theorem not_isspace_of_tolower (c : Char) (h : isspace (tolower c) = false) :
    isspace c = false := by
  cases hs : isspace c with
  | false => rfl
  | true => rw [tolower_of_isspace c hs, hs] at h; exact h

theorem no_space_of_toLowerCase (s : Str) (h : ∀ c ∈ toLowerCase s, isspace c = false) :
    ∀ c ∈ s, isspace c = false := by
  intro c hc
  apply not_isspace_of_tolower
  apply h
  unfold toLowerCase
  exact List.mem_map_of_mem _ hc

theorem dropWhile_no_space (l : Str) (t : Str) (hne : l ≠ [])
    (h : ∀ c ∈ l, isspace c = false) : (l ++ t).dropWhile isspace = l ++ t := by
  cases l with
  | nil => exact absurd rfl hne
  | cons a l =>
    have ha : isspace a = false := h a (List.mem_cons_self _ _)
    simp [List.dropWhile_cons, ha]

/-- Trimming removes a whitespace prefix and suffix around a text that is not
empty and holds no whitespace. -/
theorem trim_sandwich (pre body post : Str)
    (hpre : ∀ c ∈ pre, isspace c = true) (hpost : ∀ c ∈ post, isspace c = true)
    (hne : body ≠ []) (hbody : ∀ c ∈ body, isspace c = false) :
    trim (pre ++ body ++ post) = body := by
  unfold trim
  rw [List.append_assoc, List.dropWhile_append_of_pos hpre, dropWhile_no_space body post hne hbody,
    List.reverse_append]
  have hpost' : ∀ c ∈ post.reverse, isspace c = true := fun c hc =>
    hpost c (List.mem_reverse.mp hc)
  rw [List.dropWhile_append_of_pos hpost']
  have h2 := dropWhile_no_space body.reverse [] (by simpa using hne)
    (fun c hc => hbody c (List.mem_reverse.mp hc))
  rw [List.append_nil] at h2
  rw [h2, List.reverse_reverse]

/-- Lower-casing then trimming a text written in any letter case between
whitespace yields the lower-case text. -/
theorem trim_toLowerCase_sandwich (pre body post : Str)
    (hpre : ∀ c ∈ pre, isspace c = true) (hpost : ∀ c ∈ post, isspace c = true)
    (hne : toLowerCase body ≠ []) (hbody : ∀ c ∈ toLowerCase body, isspace c = false) :
    trim (toLowerCase (pre ++ body ++ post)) = toLowerCase body := by
  rw [toLowerCase_append, toLowerCase_append, toLowerCase_of_spaces pre hpre,
    toLowerCase_of_spaces post hpost]
  exact trim_sandwich pre (toLowerCase body) post hpre hpost hne hbody

namespace AvantLumi

theorem validColors_shape : ∀ v ∈ validColors, v ≠ [] ∧ ∀ c ∈ v, isspace c = false := by
  decide

theorem isValidColorName_iff (colorName : Str) :
    isValidColorName colorName = true ↔ toLowerCase colorName ∈ validColors := by
  unfold isValidColorName
  simp only [List.any_eq_true, beq_iff_eq]
  constructor
  · rintro ⟨v, hv, rfl⟩; exact hv
  · intro h; exact ⟨_, h, rfl⟩

/-- A name whose lower-case form is a valid colour is not empty and holds no
whitespace. -/
theorem valid_body_shape (body : Str) (h : toLowerCase body ∈ validColors) :
    body ≠ [] ∧ ∀ c ∈ body, isspace c = false := by
  obtain ⟨hne, hsp⟩ := validColors_shape _ h
  refine ⟨?_, no_space_of_toLowerCase body hsp⟩
  intro hb
  apply hne
  rw [hb]
  rfl

theorem parseColorName_toLowerCase (n : Str) :
    parseColorName (toLowerCase n) = parseColorName n := by
  unfold parseColorName
  rw [toLowerCase_toLowerCase]

theorem parseColorName_red_only :
    ∀ v ∈ validColors, parseColorName v = CRGB.Red → v = "red".toList := by
  decide

/-- The names of `webColors` are the entries of `validColors`, in the same
order. -/
theorem webColors_names : webColors.map Prod.fst = validColors := by
  decide

/-- The chain of comparisons of `parseColorName` returns, for every name of
`webColors`, the RGB triple that the table gives for the name. -/
theorem parseColorName_webColors : ∀ p ∈ webColors, parseColorName p.1 = p.2 := by
  decide

theorem webColors_red_only :
    ∀ p ∈ webColors, p.2 = (⟨255, 0, 0⟩ : CRGB) → p.1 = "red".toList := by
  decide

end AvantLumi

/-! ## The claims -/

namespace AvantLumi

/-- C1: for every level L in 1..5, `setBright(L)` returns true and `getBright()`
then returns L; for every other L (0 and 6 upwards) `setBright(L)` returns false
and the whole object, `getBright()` included, is unchanged. -/
theorem setBright_accepts_one_to_five (s : AvantLumi) (L : Nat) :
    (1 ≤ L ∧ L ≤ 5 → (setBright s L).1 = true ∧ getBright (setBright s L).2 = L) ∧
    (L = 0 ∨ 6 ≤ L → (setBright s L).1 = false ∧ (setBright s L).2 = s) := by
  unfold setBright getBright
  constructor
  · intro h
    rw [if_pos h]
    exact ⟨rfl, rfl⟩
  · intro h
    rw [if_neg (by omega)]
    exact ⟨rfl, rfl⟩

/-- C1, evaluated: level 4 is accepted on a fresh controller and level 9 is
rejected without a change. -/
theorem setBright_accepts_one_to_five_witness :
    ((setBright (ctor sampleStock 2 8) 4).1 = true ∧
      getBright (setBright (ctor sampleStock 2 8) 4).2 = 4) ∧
    ((setBright (ctor sampleStock 2 8) 9).1 = false ∧
      (setBright (ctor sampleStock 2 8) 9).2 = ctor sampleStock 2 8) :=
  ⟨(setBright_accepts_one_to_five (ctor sampleStock 2 8) 4).1 ⟨by decide, by decide⟩,
   (setBright_accepts_one_to_five (ctor sampleStock 2 8) 9).2 (Or.inr (by decide))⟩

/-- C2: every name of the Color Resolver's set (`webColors`, whose names are
exactly the entries of `validColors`), written in any letter case (`body`)
between any leading and trailing whitespace, is accepted by `setColor`: the
call returns true, the mode becomes SolidColor (`useSolidColor` true,
`useRandomPalette` false) and `getRGB()` is the RGB triple that the table maps
the name to, which is the red fallback (255, 0, 0) only for the name `red`. -/
theorem setColor_valid_name (s : AvantLumi) (pre body post : Str) (rgb : CRGB)
    (hpre : ∀ c ∈ pre, isspace c = true) (hpost : ∀ c ∈ post, isspace c = true)
    (hbody : (toLowerCase body, rgb) ∈ webColors) :
    webColors.map Prod.fst = validColors ∧
    (setColor s (pre ++ body ++ post)).1 = true ∧
    (setColor s (pre ++ body ++ post)).2.useSolidColor = true ∧
    (setColor s (pre ++ body ++ post)).2.useRandomPalette = false ∧
    getRGB (setColor s (pre ++ body ++ post)).2 = rgb ∧
    (getRGB (setColor s (pre ++ body ++ post)).2 = ⟨255, 0, 0⟩ →
      toLowerCase body = "red".toList) := by
  have hvc : toLowerCase body ∈ validColors := by
    rw [← webColors_names]
    exact List.mem_map_of_mem Prod.fst hbody
  obtain ⟨hne, hsp⟩ := valid_body_shape body hvc
  have htrim : trim (pre ++ body ++ post) = body := trim_sandwich pre body post hpre hpost hne hsp
  have hlen : body.length > 0 := List.length_pos.mpr hne
  have hvalid : isValidColorName body = true := (isValidColorName_iff body).mpr hvc
  have hrun : setColor s (pre ++ body ++ post) =
      (true, { s with
        solidColor := parseColorName body
        solidColorName := body
        targetPalette := createSolidPalette (parseColorName body)
        useSolidColor := true
        useRandomPalette := false
        currentPaletteName := "solid_color".toList }) := by
    unfold setColor
    simp only [htrim]
    rw [if_pos ⟨hlen, hvalid⟩]
  have hrgb : parseColorName body = rgb := by
    rw [← parseColorName_toLowerCase]
    exact parseColorName_webColors _ hbody
  rw [hrun]
  refine ⟨webColors_names, rfl, rfl, rfl, hrgb, ?_⟩
  intro hred
  have h2 : rgb = ⟨255, 0, 0⟩ := hrgb.symm.trans hred
  exact webColors_red_only _ hbody h2

/-- C2, evaluated: `"  DarkGrey\t"` is accepted on a fresh controller and
`getRGB()` is then (169, 169, 169). -/
theorem setColor_valid_name_witness :
    (setColor (ctor sampleStock 2 8) ("  ".toList ++ "DarkGrey".toList ++ "\t".toList)).1 = true ∧
    (setColor (ctor sampleStock 2 8)
      ("  ".toList ++ "DarkGrey".toList ++ "\t".toList)).2.useSolidColor = true ∧
    (setColor (ctor sampleStock 2 8)
      ("  ".toList ++ "DarkGrey".toList ++ "\t".toList)).2.useRandomPalette = false ∧
    getRGB (setColor (ctor sampleStock 2 8)
      ("  ".toList ++ "DarkGrey".toList ++ "\t".toList)).2 = ⟨169, 169, 169⟩ ∧
    (getRGB (setColor (ctor sampleStock 2 8)
      ("  ".toList ++ "DarkGrey".toList ++ "\t".toList)).2 = ⟨255, 0, 0⟩ →
      toLowerCase "DarkGrey".toList = "red".toList) :=
  (setColor_valid_name (ctor sampleStock 2 8) "  ".toList "DarkGrey".toList "\t".toList
    ⟨169, 169, 169⟩ (by decide) (by decide) (by decide)).2

/-- C3: a name that is empty after trimming, or whose trimmed lower-case form
is not in `validColors`, is rejected by `setColor`: the call returns false and
the object is unchanged (mode flags, solid colour, both names and
`targetPalette` included). -/
theorem setColor_invalid_name (s : AvantLumi) (N : Str)
    (h : trim N = [] ∨ toLowerCase (trim N) ∉ validColors) :
    (setColor s N).1 = false ∧ (setColor s N).2 = s := by
  have hcond : ¬ ((trim N).length > 0 ∧ isValidColorName (trim N) = true) := by
    rintro ⟨hlen, hvalid⟩
    rcases h with h | h
    · rw [h] at hlen; exact absurd hlen (by decide)
    · exact h ((isValidColorName_iff _).mp hvalid)
  unfold setColor
  simp only []
  rw [if_neg hcond]
  exact ⟨rfl, rfl⟩

/-- C3, evaluated: the blank name and the unknown name `mauve` are rejected
on a fresh controller. -/
theorem setColor_invalid_name_witness :
    ((setColor (ctor sampleStock 2 8) "  ".toList).1 = false ∧
      (setColor (ctor sampleStock 2 8) "  ".toList).2 = ctor sampleStock 2 8) ∧
    ((setColor (ctor sampleStock 2 8) " Mauve".toList).1 = false ∧
      (setColor (ctor sampleStock 2 8) " Mauve".toList).2 = ctor sampleStock 2 8) :=
  ⟨setColor_invalid_name (ctor sampleStock 2 8) "  ".toList (Or.inl (by decide)),
   setColor_invalid_name (ctor sampleStock 2 8) " Mauve".toList (Or.inr (by decide))⟩

/-- C4: the call `setRGB(300, -1, 128)` reaches the body with the arguments
converted to `uint8_t`, that is 44, 255 and 128; `constrain` then changes
nothing, so the call returns true and `getRGB()` is (44, 255, 128), not the
clamped (255, 0, 128). -/
theorem setRGB_300_minus1_128_wraps (s : AvantLumi) :
    (setRGB s (uint8_t_of 300) (uint8_t_of (-1)) (uint8_t_of 128)).1 = true ∧
    getRGB (setRGB s (uint8_t_of 300) (uint8_t_of (-1)) (uint8_t_of 128)).2
      = ⟨44, 255, 128⟩ ∧
    getRGB (setRGB s (uint8_t_of 300) (uint8_t_of (-1)) (uint8_t_of 128)).2
      ≠ ⟨255, 0, 128⟩ := by
  have h300 : uint8_t_of 300 = 44 := by decide
  have hm1 : uint8_t_of (-1) = 255 := by decide
  have h128 : uint8_t_of 128 = 128 := by decide
  rw [h300, hm1, h128]
  have hget : getRGB (setRGB s 44 255 128).2 = ⟨44, 255, 128⟩ := rfl
  refine ⟨rfl, hget, ?_⟩
  rw [hget]
  decide

/-- C5: for all r, g, b in 0..255 and from any state, `setRGB(r,g,b)` returns
true; afterwards `getRGB()` is (r,g,b), `getColor()` is empty, `getPalette()` is
`solid_color`, the mode is SolidColor and `targetPalette` is the gradient
whose sixteen stops all equal (r,g,b). -/
theorem setRGB_in_range (s : AvantLumi) (r g b : Nat)
    (hr : r ≤ 255) (hg : g ≤ 255) (hb : b ≤ 255) :
    (setRGB s r g b).1 = true ∧
    getRGB (setRGB s r g b).2 = ⟨r, g, b⟩ ∧
    getColor (setRGB s r g b).2 = "".toList ∧
    getPalette (setRGB s r g b).2 = "solid_color".toList ∧
    (setRGB s r g b).2.useSolidColor = true ∧
    (setRGB s r g b).2.useRandomPalette = false ∧
    (setRGB s r g b).2.targetPalette = createSolidPalette ⟨r, g, b⟩ ∧
    (setRGB s r g b).2.targetPalette.val = List.replicate 16 ⟨r, g, b⟩ := by
  have cr : constrain r 0 255 = r := by unfold constrain; rw [if_neg (by omega), if_neg (by omega)]
  have cg : constrain g 0 255 = g := by unfold constrain; rw [if_neg (by omega), if_neg (by omega)]
  have cb : constrain b 0 255 = b := by unfold constrain; rw [if_neg (by omega), if_neg (by omega)]
  have hrun : setRGB s r g b =
      (true, { s with
        solidColor := ⟨r, g, b⟩
        targetPalette := createSolidPalette ⟨r, g, b⟩
        useSolidColor := true
        useRandomPalette := false
        currentPaletteName := "solid_color".toList
        solidColorName := "".toList }) := by
    unfold setRGB
    simp only [cr, cg, cb]
  rw [hrun]
  exact ⟨rfl, rfl, rfl, rfl, rfl, rfl, rfl, rfl⟩

/-- C5, evaluated: `setRGB(10, 20, 30)` on a fresh controller. -/
theorem setRGB_in_range_witness :
    (setRGB (ctor sampleStock 2 8) 10 20 30).1 = true ∧
    getRGB (setRGB (ctor sampleStock 2 8) 10 20 30).2 = ⟨10, 20, 30⟩ ∧
    getColor (setRGB (ctor sampleStock 2 8) 10 20 30).2 = "".toList ∧
    getPalette (setRGB (ctor sampleStock 2 8) 10 20 30).2 = "solid_color".toList ∧
    (setRGB (ctor sampleStock 2 8) 10 20 30).2.useSolidColor = true ∧
    (setRGB (ctor sampleStock 2 8) 10 20 30).2.useRandomPalette = false ∧
    (setRGB (ctor sampleStock 2 8) 10 20 30).2.targetPalette = createSolidPalette ⟨10, 20, 30⟩ ∧
    (setRGB (ctor sampleStock 2 8) 10 20 30).2.targetPalette.val
      = List.replicate 16 ⟨10, 20, 30⟩ :=
  setRGB_in_range (ctor sampleStock 2 8) 10 20 30 (by decide) (by decide) (by decide)

end AvantLumi

namespace AvantLumi

/-- `setPalette` looks at its argument only through `trim (toLowerCase _)`. -/
theorem setPalette_congr (fl : FastLEDPalettes) (s : AvantLumi) (N M : Str)
    (h : trim (toLowerCase N) = trim (toLowerCase M)) :
    setPalette fl s N = setPalette fl s M := by
  unfold setPalette
  simp only [h]

/-- A spelling of `id` in any letter case between whitespace is handled like `id`. -/
theorem setPalette_variant (fl : FastLEDPalettes) (s : AvantLumi) (pre body post id : Str)
    (hpre : ∀ c ∈ pre, isspace c = true) (hpost : ∀ c ∈ post, isspace c = true)
    (hid : toLowerCase body = id)
    (hshape : id ≠ [] ∧ ∀ c ∈ id, isspace c = false)
    (hnorm : trim (toLowerCase id) = id) :
    setPalette fl s (pre ++ body ++ post) = setPalette fl s id := by
  apply setPalette_congr
  rw [hnorm, trim_toLowerCase_sandwich pre body post hpre hpost (hid ▸ hshape.1) (hid ▸ hshape.2)]
  exact hid

theorem ite_cases {α : Type} (P : α → Prop) {c : Prop} [Decidable c] {a b : α}
    (ha : P a) (hb : P b) : P (if c then a else b) := by
  split
  · exact ha
  · exact hb

/-- Case analysis on a call of `setPalette`: either the name is rejected and
only `useSolidColor` was cleared, or the call succeeded and wrote
`useSolidColor`, `targetPalette`, `useRandomPalette`, `currentPaletteName`. -/
theorem setPalette_cases (fl : FastLEDPalettes) (s : AvantLumi) (N : Str)
    (P : Bool × AvantLumi → Prop)
    (hfail : P (false, { s with useSolidColor := false }))
    (hok : ∀ tp rp nm, nm ∈ paletteNames →
      P (true, { s with useSolidColor := false, targetPalette := tp, useRandomPalette := rp,
                        currentPaletteName := nm })) :
    P (setPalette fl s N) := by
  have hok2 : ∀ tp rp nm, decide (nm ∈ paletteNames) = true →
      P (true, { s with useSolidColor := false, targetPalette := tp, useRandomPalette := rp,
                        currentPaletteName := nm }) :=
    fun tp rp nm h => hok tp rp nm (of_decide_eq_true h)
  unfold setPalette
  exact (ite_cases P (hok2 _ _ _ rfl)
    (ite_cases P (hok2 _ _ _ rfl)
    (ite_cases P (hok2 _ _ _ rfl)
    (ite_cases P (hok2 _ _ _ rfl)
    (ite_cases P (hok2 _ _ _ rfl)
    (ite_cases P (hok2 _ _ _ rfl)
    (ite_cases P (hok2 _ _ _ rfl)
    (ite_cases P (hok2 _ _ _ rfl)
    (ite_cases P (hok2 _ _ _ rfl)
    (ite_cases P (hok2 _ _ _ rfl)
    (ite_cases P (hok2 _ _ _ rfl)
    (ite_cases P (hok2 _ _ _ rfl)
    (ite_cases P (hok2 _ _ _ rfl)
    (ite_cases P (hok2 _ _ _ rfl)
    (ite_cases P (hok2 _ _ _ rfl)
    (ite_cases P (hok2 _ _ _ rfl)
    (ite_cases P (hok2 _ _ _ rfl)
    (ite_cases P (hok2 _ _ _ rfl)
    hfail))))))))))))))))))

theorem setPalette_useSolidColor (fl : FastLEDPalettes) (s : AvantLumi) (N : Str) :
    (setPalette fl s N).2.useSolidColor = false :=
  setPalette_cases fl s N (fun r => r.2.useSolidColor = false) rfl (fun _ _ _ _ => rfl)

/-- C6: on a controller in SolidColor mode (here: fresh, then `setRGB(10,20,30)`)
the unknown palette name `bogus` is rejected, `setPalette` returns false, and
yet the object has changed: `useSolidColor` went from true to false, so the
controller left SolidColor mode and `getStatus()` reports a palette named
`solid_color` instead of the colour. -/
theorem setPalette_unknown_leaves_solid_mode :
    (setRGB (ctor sampleStock 2 8) 10 20 30).2.useSolidColor = true ∧
    (setPalette sampleStock (setRGB (ctor sampleStock 2 8) 10 20 30).2 "bogus".toList).1
      = false ∧
    (setPalette sampleStock (setRGB (ctor sampleStock 2 8) 10 20 30).2
      "bogus".toList).2.useSolidColor = false ∧
    (setPalette sampleStock (setRGB (ctor sampleStock 2 8) 10 20 30).2 "bogus".toList).2
      ≠ (setRGB (ctor sampleStock 2 8) 10 20 30).2 ∧
    getStatus (setRGB (ctor sampleStock 2 8) 10 20 30).2 =
      ("\x7b\"switch\":\"on\",\"bright\":3,\"fade\":\"on\"," ++
       "\"rgb\":\x7b\"r\":10,\"g\":20,\"b\":30\x7d," ++
       "\"power\":\x7b\"v\":5,\"ma\":500\x7d,\"blend_spd\":4\x7d").toList ∧
    getStatus (setPalette sampleStock (setRGB (ctor sampleStock 2 8) 10 20 30).2
      "bogus".toList).2 =
      ("\x7b\"switch\":\"on\",\"bright\":3,\"fade\":\"on\"," ++
       "\"palette\":\"solid_color\"," ++
       "\"power\":\x7b\"v\":5,\"ma\":500\x7d,\"blend_spd\":4\x7d").toList := by
  decide

/-- C7: every Catalog identifier, written in any letter case between any
whitespace, is accepted by `setPalette`: the call returns true, clears
SolidColor mode, sets `targetPalette` to the identifier's gradient and
`useRandomPalette` to false; `random`, written likewise, is accepted, clears
SolidColor mode, sets `useRandomPalette` to true and leaves `targetPalette`
as it was. -/
theorem setPalette_catalog (fl : FastLEDPalettes) (s : AvantLumi) (pre body post : Str)
    (hpre : ∀ c ∈ pre, isspace c = true) (hpost : ∀ c ∈ post, isspace c = true) :
    (∀ g, (toLowerCase body, g) ∈ catalog fl →
      (setPalette fl s (pre ++ body ++ post)).1 = true ∧
      (setPalette fl s (pre ++ body ++ post)).2.useSolidColor = false ∧
      (setPalette fl s (pre ++ body ++ post)).2.targetPalette = g ∧
      (setPalette fl s (pre ++ body ++ post)).2.useRandomPalette = false) ∧
    (toLowerCase body = "random".toList →
      (setPalette fl s (pre ++ body ++ post)).1 = true ∧
      (setPalette fl s (pre ++ body ++ post)).2.useSolidColor = false ∧
      (setPalette fl s (pre ++ body ++ post)).2.useRandomPalette = true ∧
      (setPalette fl s (pre ++ body ++ post)).2.targetPalette = s.targetPalette) := by
  constructor
  · intro g hmem
    simp only [catalog, List.mem_cons, Prod.mk.injEq, List.mem_singleton, List.not_mem_nil,
      or_false] at hmem
    rcases hmem with ⟨h, rfl⟩ | ⟨h, rfl⟩ | ⟨h, rfl⟩ | ⟨h, rfl⟩ | ⟨h, rfl⟩ | ⟨h, rfl⟩ | ⟨h, rfl⟩ | ⟨h, rfl⟩ | ⟨h, rfl⟩ | ⟨h, rfl⟩ | ⟨h, rfl⟩ | ⟨h, rfl⟩ | ⟨h, rfl⟩ | ⟨h, rfl⟩ | ⟨h, rfl⟩ | ⟨h, rfl⟩ | ⟨h, rfl⟩ | ⟨h, rfl⟩ | ⟨h, rfl⟩ | ⟨h, rfl⟩ | ⟨h, rfl⟩ | ⟨h, rfl⟩ | ⟨h, rfl⟩ | ⟨h, rfl⟩ | ⟨h, rfl⟩ | ⟨h, rfl⟩ | ⟨h, rfl⟩
    all_goals
      rw [setPalette_variant fl s pre body post _ hpre hpost h (by decide) (by decide)]
      exact ⟨rfl, rfl, rfl, rfl⟩
  · intro h
    rw [setPalette_variant fl s pre body post _ hpre hpost h (by decide) (by decide)]
    exact ⟨rfl, rfl, rfl, rfl⟩

/-- C7, evaluated: `" Deep_Ocean\n"` selects the deep-ocean gradient and
`"RANDOM "` switches to Random mode, from a controller showing a solid colour. -/
theorem setPalette_catalog_witness :
    ((setPalette sampleStock (setRGB (ctor sampleStock 2 8) 10 20 30).2
        (" ".toList ++ "Deep_Ocean".toList ++ "\n".toList)).1 = true ∧
      (setPalette sampleStock (setRGB (ctor sampleStock 2 8) 10 20 30).2
        (" ".toList ++ "Deep_Ocean".toList ++ "\n".toList)).2.useSolidColor = false ∧
      (setPalette sampleStock (setRGB (ctor sampleStock 2 8) 10 20 30).2
        (" ".toList ++ "Deep_Ocean".toList ++ "\n".toList)).2.targetPalette = ocean_deep_p ∧
      (setPalette sampleStock (setRGB (ctor sampleStock 2 8) 10 20 30).2
        (" ".toList ++ "Deep_Ocean".toList ++ "\n".toList)).2.useRandomPalette = false) ∧
    ((setPalette sampleStock (setRGB (ctor sampleStock 2 8) 10 20 30).2
        ("".toList ++ "RANDOM".toList ++ " ".toList)).1 = true ∧
      (setPalette sampleStock (setRGB (ctor sampleStock 2 8) 10 20 30).2
        ("".toList ++ "RANDOM".toList ++ " ".toList)).2.useSolidColor = false ∧
      (setPalette sampleStock (setRGB (ctor sampleStock 2 8) 10 20 30).2
        ("".toList ++ "RANDOM".toList ++ " ".toList)).2.useRandomPalette = true ∧
      (setPalette sampleStock (setRGB (ctor sampleStock 2 8) 10 20 30).2
        ("".toList ++ "RANDOM".toList ++ " ".toList)).2.targetPalette
          = (setRGB (ctor sampleStock 2 8) 10 20 30).2.targetPalette) :=
  ⟨(setPalette_catalog sampleStock (setRGB (ctor sampleStock 2 8) 10 20 30).2
      " ".toList "Deep_Ocean".toList "\n".toList (by decide) (by decide)).1
      ocean_deep_p (by decide),
   (setPalette_catalog sampleStock (setRGB (ctor sampleStock 2 8) 10 20 30).2
      "".toList "RANDOM".toList " ".toList (by decide) (by decide)).2 (by decide)⟩

/-- C8: alias equivalence.  For each of the ten custom palettes, `setPalette`
with the short code and `setPalette` with the descriptive alias return the
same value and the same object from the same starting state (hence the same
`targetPalette`, mode flags and `getPalette()`), and both calls succeed. -/
theorem setPalette_alias_equivalence (fl : FastLEDPalettes) (s : AvantLumi) :
    (setPalette fl s "u01".toList = setPalette fl s "christmas".toList ∧
    setPalette fl s "u02".toList = setPalette fl s "autumn".toList ∧
    setPalette fl s "u03".toList = setPalette fl s "cyberpunk".toList ∧
    setPalette fl s "u04".toList = setPalette fl s "halloween".toList ∧
    setPalette fl s "u05".toList = setPalette fl s "winter".toList ∧
    setPalette fl s "u06".toList = setPalette fl s "spring".toList ∧
    setPalette fl s "u07".toList = setPalette fl s "sunset".toList ∧
    setPalette fl s "u08".toList = setPalette fl s "deep_ocean".toList ∧
    setPalette fl s "u09".toList = setPalette fl s "neon".toList ∧
    setPalette fl s "u10".toList = setPalette fl s "fire".toList) ∧
    ((setPalette fl s "u01".toList).1 = true ∧
    (setPalette fl s "u02".toList).1 = true ∧
    (setPalette fl s "u03".toList).1 = true ∧
    (setPalette fl s "u04".toList).1 = true ∧
    (setPalette fl s "u05".toList).1 = true ∧
    (setPalette fl s "u06".toList).1 = true ∧
    (setPalette fl s "u07".toList).1 = true ∧
    (setPalette fl s "u08".toList).1 = true ∧
    (setPalette fl s "u09".toList).1 = true ∧
    (setPalette fl s "u10".toList).1 = true) := by
  refine ⟨⟨rfl, rfl, rfl, rfl, rfl, rfl, rfl, rfl, rfl, rfl⟩,
    ⟨rfl, rfl, rfl, rfl, rfl, rfl, rfl, rfl, rfl, rfl⟩⟩

/-! ### Mode exclusivity -/

theorem Setter.run_not_both (fl : FastLEDPalettes) (s : AvantLumi) (c : Setter)
    (h : ¬ (s.useSolidColor = true ∧ s.useRandomPalette = true)) :
    ¬ ((c.run fl s).2.useSolidColor = true ∧ (c.run fl s).2.useRandomPalette = true) := by
  cases c with
  | setRGB rVal gVal bVal => simp [Setter.run, AvantLumi.setRGB]
  | setColor colorName =>
    unfold Setter.run AvantLumi.setColor
    apply ite_cases (fun r : Bool × AvantLumi =>
      ¬ (r.2.useSolidColor = true ∧ r.2.useRandomPalette = true))
    · simp
    · exact h
  | setBright level =>
    unfold Setter.run AvantLumi.setBright
    exact ite_cases (fun r : Bool × AvantLumi =>
      ¬ (r.2.useSolidColor = true ∧ r.2.useRandomPalette = true)) h h
  | setSwitch state =>
    unfold Setter.run AvantLumi.setSwitch
    exact ite_cases (fun r : Bool × AvantLumi =>
      ¬ (r.2.useSolidColor = true ∧ r.2.useRandomPalette = true)) h
      (ite_cases (fun r : Bool × AvantLumi =>
      ¬ (r.2.useSolidColor = true ∧ r.2.useRandomPalette = true)) h h)
  | setSwitchBool state => exact h
  | setFade state =>
    unfold Setter.run AvantLumi.setFade
    exact ite_cases (fun r : Bool × AvantLumi =>
      ¬ (r.2.useSolidColor = true ∧ r.2.useRandomPalette = true)) h
      (ite_cases (fun r : Bool × AvantLumi =>
      ¬ (r.2.useSolidColor = true ∧ r.2.useRandomPalette = true)) h h)
  | setFadeBool state => exact h
  | setPalette paletteName =>
    intro hboth
    have hs := setPalette_useSolidColor fl s paletteName
    unfold Setter.run at hboth
    rw [hs] at hboth
    exact absurd hboth.1 (by decide)
  | setBlendSpeed speed_val =>
    unfold Setter.run AvantLumi.setBlendSpeed
    exact ite_cases (fun r : Bool × AvantLumi =>
      ¬ (r.2.useSolidColor = true ∧ r.2.useRandomPalette = true)) h h
  | setMaxPower voltsVal milliamps =>
    unfold Setter.run AvantLumi.setMaxPower
    exact ite_cases (fun r : Bool × AvantLumi =>
      ¬ (r.2.useSolidColor = true ∧ r.2.useRandomPalette = true)) h
      (ite_cases (fun r : Bool × AvantLumi =>
      ¬ (r.2.useSolidColor = true ∧ r.2.useRandomPalette = true)) h h)

theorem runSetters_not_both (fl : FastLEDPalettes) (calls : List Setter) :
    ∀ s : AvantLumi, ¬ (s.useSolidColor = true ∧ s.useRandomPalette = true) →
      ¬ ((runSetters fl s calls).useSolidColor = true ∧
         (runSetters fl s calls).useRandomPalette = true) := by
  induction calls with
  | nil => intro s h; exact h
  | cons c rest ih =>
    intro s h
    exact ih (c.run fl s).2 (Setter.run_not_both fl s c h)

/-- C9: mode exclusivity.  After any sequence of setter calls (accepted or
rejected) on a freshly constructed controller, `useSolidColor` and
`useRandomPalette` are not both true, so the flags show exactly one of the
three modes SolidColor (solid, not random), Random (random, not solid) and
Palette (neither). -/
theorem mode_exclusive (fl : FastLEDPalettes) (dataPin numLeds : Nat) (calls : List Setter) :
    ¬ ((runSetters fl (ctor fl dataPin numLeds) calls).useSolidColor = true ∧
       (runSetters fl (ctor fl dataPin numLeds) calls).useRandomPalette = true) ∧
    (((runSetters fl (ctor fl dataPin numLeds) calls).useSolidColor = true ∧
       (runSetters fl (ctor fl dataPin numLeds) calls).useRandomPalette = false) ∨
     ((runSetters fl (ctor fl dataPin numLeds) calls).useSolidColor = false ∧
       (runSetters fl (ctor fl dataPin numLeds) calls).useRandomPalette = true) ∨
     ((runSetters fl (ctor fl dataPin numLeds) calls).useSolidColor = false ∧
       (runSetters fl (ctor fl dataPin numLeds) calls).useRandomPalette = false)) := by
  have h := runSetters_not_both fl calls (ctor fl dataPin numLeds)
    (by intro hb; exact Bool.false_ne_true hb.1)
  refine ⟨h, ?_⟩
  cases h1 : (runSetters fl (ctor fl dataPin numLeds) calls).useSolidColor <;>
    cases h2 : (runSetters fl (ctor fl dataPin numLeds) calls).useRandomPalette <;>
    simp_all

/-! ### Save and load -/

theorem solid_color_mem_paletteNames : "solid_color".toList ∈ paletteNames := by decide

theorem party_mem_paletteNames : "party".toList ∈ paletteNames := by decide

theorem Setter.run_namesOK (fl : FastLEDPalettes) (s : AvantLumi) (c : Setter)
    (h : NamesOK s) : NamesOK (c.run fl s).2 := by
  cases c with
  | setRGB rVal gVal bVal => exact ⟨solid_color_mem_paletteNames, Or.inl rfl⟩
  | setColor colorName =>
    unfold Setter.run AvantLumi.setColor
    simp only []
    by_cases hc : (trim colorName).length > 0 ∧ isValidColorName (trim colorName) = true
    · rw [if_pos hc]
      exact ⟨solid_color_mem_paletteNames, Or.inr ((isValidColorName_iff _).mp hc.2)⟩
    · rw [if_neg hc]
      exact h
  | setBright level =>
    unfold Setter.run AvantLumi.setBright
    exact ite_cases (fun r : Bool × AvantLumi => NamesOK r.2) h h
  | setSwitch state =>
    unfold Setter.run AvantLumi.setSwitch
    exact ite_cases (fun r : Bool × AvantLumi => NamesOK r.2) h
      (ite_cases (fun r : Bool × AvantLumi => NamesOK r.2) h h)
  | setSwitchBool state => exact h
  | setFade state =>
    unfold Setter.run AvantLumi.setFade
    exact ite_cases (fun r : Bool × AvantLumi => NamesOK r.2) h
      (ite_cases (fun r : Bool × AvantLumi => NamesOK r.2) h h)
  | setFadeBool state => exact h
  | setPalette paletteName =>
    exact setPalette_cases fl s paletteName (fun r => NamesOK r.2) h
      (fun _ _ nm hnm => ⟨hnm, h.2⟩)
  | setBlendSpeed speed_val =>
    unfold Setter.run AvantLumi.setBlendSpeed
    exact ite_cases (fun r : Bool × AvantLumi => NamesOK r.2) h h
  | setMaxPower voltsVal milliamps =>
    unfold Setter.run AvantLumi.setMaxPower
    exact ite_cases (fun r : Bool × AvantLumi => NamesOK r.2) h
      (ite_cases (fun r : Bool × AvantLumi => NamesOK r.2) h h)

theorem runSetters_namesOK (fl : FastLEDPalettes) (calls : List Setter) :
    ∀ s : AvantLumi, NamesOK s → NamesOK (runSetters fl s calls) := by
  induction calls with
  | nil => intro s h; exact h
  | cons c rest ih =>
    intro s h
    exact ih (c.run fl s).2 (Setter.run_namesOK fl s c h)

theorem ctor_namesOK (fl : FastLEDPalettes) (dataPin numLeds : Nat) :
    NamesOK (ctor fl dataPin numLeds) :=
  ⟨party_mem_paletteNames, Or.inl rfl⟩

theorem paletteNames_fit :
    ∀ n ∈ paletteNames, n.length ≤ 31 ∧ ∀ c ∈ n, (c != NUL) = true := by
  decide

theorem validColors_fit :
    ∀ n ∈ validColors, n.length ≤ 31 ∧ ∀ c ∈ n, (c != NUL) = true := by
  decide

theorem tolower_NUL : tolower NUL = NUL := by decide

theorem ne_NUL_of_tolower (c : Char) (h : (tolower c != NUL) = true) : (c != NUL) = true := by
  rw [bne_iff_ne] at h ⊢
  intro hc
  apply h
  rw [hc]
  exact tolower_NUL

/-- A name of at most 31 characters without NUL is read back from its
32-character field as it was stored. -/
theorem stringOfBuffer_storeName (name : Str) (hlen : name.length ≤ 31)
    (hnul : ∀ c ∈ name, (c != NUL) = true) : stringOfBuffer (storeName name) = name := by
  have hc : c_str name = name := by
    unfold c_str
    exact List.takeWhile_eq_self_iff.mpr hnul
  have htake : name.take 31 = name := List.take_of_length_le hlen
  unfold stringOfBuffer storeName strncpy
  simp only [hc, htake]
  rw [List.append_assoc, List.takeWhile_append_of_pos hnul]
  have hrest : (List.replicate (31 - name.length) NUL ++ [NUL]).takeWhile (fun c => c != NUL)
      = [] := by
    cases (31 - name.length) with
    | zero => rfl
    | succ k => rfl
  rw [hrest, List.append_nil]

/-- The names of a state reached by setter calls survive `saveConfig` /
`loadConfig` unchanged. -/
theorem NamesOK.roundtrip {s : AvantLumi} (h : NamesOK s) :
    stringOfBuffer (storeName s.currentPaletteName) = s.currentPaletteName ∧
    stringOfBuffer (storeName s.solidColorName) = s.solidColorName := by
  obtain ⟨hp, hc⟩ := h
  constructor
  · obtain ⟨h1, h2⟩ := paletteNames_fit _ hp
    exact stringOfBuffer_storeName _ h1 h2
  · rcases hc with hc | hc
    · rw [hc]; rfl
    · obtain ⟨h1, h2⟩ := validColors_fit _ hc
      apply stringOfBuffer_storeName
      · unfold toLowerCase at h1
        rw [List.length_map] at h1
        exact h1
      · intro c hcm
        apply ne_NUL_of_tolower
        apply h2
        unfold toLowerCase
        exact List.mem_map_of_mem _ hcm

/-- `getStatus` reads ten members only. -/
theorem getStatus_congr (s t : AvantLumi)
    (h1 : s.ledEnabled = t.ledEnabled)
    (h2 : s.currentBrightnessLevel = t.currentBrightnessLevel)
    (h3 : s.fadeinEnabled = t.fadeinEnabled)
    (h4 : s.useSolidColor = t.useSolidColor)
    (h5 : s.solidColor = t.solidColor)
    (h6 : s.solidColorName = t.solidColorName)
    (h7 : s.currentPaletteName = t.currentPaletteName)
    (h8 : s.maxVolts = t.maxVolts)
    (h9 : s.maxMilliamps = t.maxMilliamps)
    (h10 : s.blendSpeed = t.blendSpeed) : getStatus s = getStatus t := by
  unfold getStatus
  rw [h1, h2, h3, h4, h5, h6, h7, h8, h9, h10]

/-- Re-applying the stored palette name with `setPalette` keeps the name, whether
the name is accepted (`party`, `random`, ...) or not (`u01_christmas`, ...). -/
theorem setPalette_keeps_name (fl : FastLEDPalettes) (s : AvantLumi) (n : Str)
    (hn : n ∈ paletteNames) (hs : s.currentPaletteName = n) :
    (setPalette fl s n).2.currentPaletteName = n := by
  simp only [paletteNames, List.mem_cons, List.mem_singleton, List.not_mem_nil, or_false] at hn
  rcases hn with rfl | rfl | rfl | rfl | rfl | rfl | rfl | rfl | rfl | rfl | rfl | rfl | rfl | rfl | rfl | rfl | rfl | rfl | rfl
  all_goals first | rfl | exact hs

/-- `setPalette` leaves the members printed by `getStatus`, other than the
palette name and the solid-colour flag, as they are. -/
theorem setPalette_frame (fl : FastLEDPalettes) (s : AvantLumi) (N : Str) :
    (setPalette fl s N).2.ledEnabled = s.ledEnabled ∧
    (setPalette fl s N).2.currentBrightnessLevel = s.currentBrightnessLevel ∧
    (setPalette fl s N).2.fadeinEnabled = s.fadeinEnabled ∧
    (setPalette fl s N).2.solidColor = s.solidColor ∧
    (setPalette fl s N).2.solidColorName = s.solidColorName ∧
    (setPalette fl s N).2.maxVolts = s.maxVolts ∧
    (setPalette fl s N).2.maxMilliamps = s.maxMilliamps ∧
    (setPalette fl s N).2.blendSpeed = s.blendSpeed :=
  setPalette_cases fl s N
    (fun r => r.2.ledEnabled = s.ledEnabled ∧
      r.2.currentBrightnessLevel = s.currentBrightnessLevel ∧
      r.2.fadeinEnabled = s.fadeinEnabled ∧
      r.2.solidColor = s.solidColor ∧
      r.2.solidColorName = s.solidColorName ∧
      r.2.maxVolts = s.maxVolts ∧
      r.2.maxMilliamps = s.maxMilliamps ∧
      r.2.blendSpeed = s.blendSpeed)
    ⟨rfl, rfl, rfl, rfl, rfl, rfl, rfl, rfl⟩
    (fun _ _ _ _ => ⟨rfl, rfl, rfl, rfl, rfl, rfl, rfl, rfl⟩)

theorem saveConfig_ok (s : AvantLumi) (E : EEPROMClass) (hE : E.commitOk = true) :
    saveConfig s E = (true, { E with image :=
      { magic := CONFIG_MAGIC
        ledEnabled := s.ledEnabled
        currentBrightnessLevel := s.currentBrightnessLevel
        fadeinEnabled := s.fadeinEnabled
        useSolidColor := s.useSolidColor
        solidColor := s.solidColor
        currentPaletteName := storeName s.currentPaletteName
        solidColorName := storeName s.solidColorName
        useRandomPalette := s.useRandomPalette
        blendSpeed := s.blendSpeed } }) := by
  unfold saveConfig
  simp only [hE, if_true]

/-- The palette step and the brightness step that end `loadConfig`, applied to
an object `g` that holds the members of `s`: the snapshot is that of `s` with
the power budget of `g`. -/
theorem restored_status (fl : FastLEDPalettes) (g s : AvantLumi) (hs : NamesOK s)
    (h1 : g.ledEnabled = s.ledEnabled)
    (h2 : g.currentBrightnessLevel = s.currentBrightnessLevel)
    (h3 : g.fadeinEnabled = s.fadeinEnabled)
    (h4 : g.useSolidColor = s.useSolidColor)
    (h5 : g.solidColor = s.solidColor)
    (h6 : g.solidColorName = s.solidColorName)
    (h7 : g.currentPaletteName = s.currentPaletteName)
    (h10 : g.blendSpeed = s.blendSpeed) (tb : AvantLumi → Nat) (t : AvantLumi)
    (ht : t = if g.useSolidColor then { g with targetPalette := createSolidPalette g.solidColor }
      else (setPalette fl g g.currentPaletteName).2) :
    getStatus { t with targetBrightness := tb t }
      = getStatus { s with maxVolts := g.maxVolts, maxMilliamps := g.maxMilliamps } := by
  cases hsol : g.useSolidColor with
  | true =>
    rw [if_pos hsol] at ht
    subst ht
    exact getStatus_congr _ _ h1 h2 h3 h4 h5 h6 h7 rfl rfl h10
  | false =>
    rw [if_neg (by rw [hsol]; exact Bool.false_ne_true)] at ht
    obtain ⟨f1, f2, f3, f4, f5, f6, f7, f8⟩ := setPalette_frame fl g g.currentPaletteName
    have hnm := setPalette_keeps_name fl g g.currentPaletteName (h7 ▸ hs.1) rfl
    have hso := setPalette_useSolidColor fl g g.currentPaletteName
    subst ht
    exact getStatus_congr _ _ (f1.trans h1) (f2.trans h2) (f3.trans h3)
      (hso.trans (hsol.symm.trans h4)) (f4.trans h5) (f5.trans h6) (hnm.trans h7) f6 f7
      (f8.trans h10)

/-- The result of `loadConfig` on a store that carries the magic marker. -/
theorem loadConfig_of_magic (fl : FastLEDPalettes) (f : AvantLumi) (E : EEPROMClass)
    (h : E.image.magic = CONFIG_MAGIC) :
    loadConfig fl f E =
      (true,
        { (if (restoreMembers f E.image).useSolidColor then
            { restoreMembers f E.image with
              targetPalette := createSolidPalette (restoreMembers f E.image).solidColor }
          else
            (setPalette fl (restoreMembers f E.image)
              (restoreMembers f E.image).currentPaletteName).2) with
          targetBrightness := brightnessAt
            (if (restoreMembers f E.image).useSolidColor then
              { restoreMembers f E.image with
                targetPalette := createSolidPalette (restoreMembers f E.image).solidColor }
            else
              (setPalette fl (restoreMembers f E.image)
                (restoreMembers f E.image).currentPaletteName).2).currentBrightnessLevel }) := by
  unfold loadConfig
  simp only [h, ne_eq, not_true_eq_false, if_false]

/-- Saving a state whose names fit and loading the record into another
controller `f` succeeds; the snapshot of the loaded controller is the snapshot
of the saved state with the power budget of `f`. -/
theorem load_save_status (fl : FastLEDPalettes) (s f : AvantLumi) (E : EEPROMClass)
    (hE : E.commitOk = true) (hs : NamesOK s) :
    (saveConfig s E).1 = true ∧
    (loadConfig fl f (saveConfig s E).2).1 = true ∧
    getStatus (loadConfig fl f (saveConfig s E).2).2
      = getStatus { s with maxVolts := f.maxVolts, maxMilliamps := f.maxMilliamps } := by
  obtain ⟨hpn, hcn⟩ := hs.roundtrip
  have hsave : saveConfig s E = (true, { E with image := recordOf s }) := saveConfig_ok s E hE
  rw [hsave, loadConfig_of_magic fl f { E with image := recordOf s } rfl]
  refine ⟨rfl, rfl, ?_⟩
  exact restored_status fl (restoreMembers f (recordOf s)) s hs rfl rfl rfl rfl rfl hcn hpn rfl
    (fun t => brightnessAt t.currentBrightnessLevel) _ rfl

/-- C10, as stated, fails: after `setMaxPower(12, 1000)` on a fresh controller,
`saveConfig()` and then `loadConfig()` on another fresh controller both
succeed, but the two `getStatus()` texts differ (the power budget is not part
of the record). -/
theorem roundtrip_status_counterexample :
    (saveConfig (runSetters sampleStock (ctor sampleStock 2 8) [Setter.setMaxPower 12 1000])
      erasedEEPROM).1 = true ∧
    (loadConfig sampleStock (ctor sampleStock 2 8)
      (saveConfig (runSetters sampleStock (ctor sampleStock 2 8) [Setter.setMaxPower 12 1000])
        erasedEEPROM).2).1 = true ∧
    getStatus (loadConfig sampleStock (ctor sampleStock 2 8)
      (saveConfig (runSetters sampleStock (ctor sampleStock 2 8) [Setter.setMaxPower 12 1000])
        erasedEEPROM).2).2
      ≠ getStatus (runSetters sampleStock (ctor sampleStock 2 8) [Setter.setMaxPower 12 1000]) := by
  decide

/-- C10, amended: for every state S reached from construction by setter calls,
`saveConfig()` in S (on a store whose commit succeeds) followed by
`loadConfig()` on a freshly constructed controller succeeds, and `getStatus()`
of the new controller equals `getStatus()` of S with the power budget replaced
by the defaults 5 V and 500 mA of the new controller; so the two snapshots are
equal whenever S has the default power budget. -/
theorem roundtrip_status_up_to_power (fl : FastLEDPalettes) (dataPin numLeds : Nat)
    (calls : List Setter) (E : EEPROMClass) (hE : E.commitOk = true) :
    (saveConfig (runSetters fl (ctor fl dataPin numLeds) calls) E).1 = true ∧
    (loadConfig fl (ctor fl dataPin numLeds)
      (saveConfig (runSetters fl (ctor fl dataPin numLeds) calls) E).2).1 = true ∧
    getStatus (loadConfig fl (ctor fl dataPin numLeds)
      (saveConfig (runSetters fl (ctor fl dataPin numLeds) calls) E).2).2
      = getStatus { runSetters fl (ctor fl dataPin numLeds) calls with
          maxVolts := 5, maxMilliamps := 500 } ∧
    ((runSetters fl (ctor fl dataPin numLeds) calls).maxVolts = 5 ∧
      (runSetters fl (ctor fl dataPin numLeds) calls).maxMilliamps = 500 →
      getStatus (loadConfig fl (ctor fl dataPin numLeds)
        (saveConfig (runSetters fl (ctor fl dataPin numLeds) calls) E).2).2
        = getStatus (runSetters fl (ctor fl dataPin numLeds) calls)) := by
  have hs : NamesOK (runSetters fl (ctor fl dataPin numLeds) calls) :=
    runSetters_namesOK fl calls _ (ctor_namesOK fl dataPin numLeds)
  obtain ⟨h1, h2, h3⟩ := load_save_status fl (runSetters fl (ctor fl dataPin numLeds) calls)
    (ctor fl dataPin numLeds) E hE hs
  refine ⟨h1, h2, h3, ?_⟩
  rintro ⟨hv, hm⟩
  rw [h3]
  apply getStatus_congr <;> first | rfl | exact hv.symm | exact hm.symm

/-- C10 amended, evaluated: a controller set to the colour `Teal`, brightness 5
and blend speed 2, saved to an erased store and loaded into a fresh controller. -/
theorem roundtrip_status_up_to_power_witness :
    (saveConfig (runSetters sampleStock (ctor sampleStock 2 8)
      [Setter.setColor " Teal".toList, Setter.setBright 5, Setter.setBlendSpeed 2])
        erasedEEPROM).1 = true ∧
    (loadConfig sampleStock (ctor sampleStock 2 8)
      (saveConfig (runSetters sampleStock (ctor sampleStock 2 8)
        [Setter.setColor " Teal".toList, Setter.setBright 5, Setter.setBlendSpeed 2])
          erasedEEPROM).2).1 = true ∧
    getStatus (loadConfig sampleStock (ctor sampleStock 2 8)
      (saveConfig (runSetters sampleStock (ctor sampleStock 2 8)
        [Setter.setColor " Teal".toList, Setter.setBright 5, Setter.setBlendSpeed 2])
          erasedEEPROM).2).2
      = getStatus { runSetters sampleStock (ctor sampleStock 2 8)
          [Setter.setColor " Teal".toList, Setter.setBright 5, Setter.setBlendSpeed 2] with
          maxVolts := 5, maxMilliamps := 500 } ∧
    ((runSetters sampleStock (ctor sampleStock 2 8)
        [Setter.setColor " Teal".toList, Setter.setBright 5, Setter.setBlendSpeed 2]).maxVolts = 5 ∧
      (runSetters sampleStock (ctor sampleStock 2 8)
        [Setter.setColor " Teal".toList, Setter.setBright 5,
          Setter.setBlendSpeed 2]).maxMilliamps = 500 →
      getStatus (loadConfig sampleStock (ctor sampleStock 2 8)
        (saveConfig (runSetters sampleStock (ctor sampleStock 2 8)
          [Setter.setColor " Teal".toList, Setter.setBright 5, Setter.setBlendSpeed 2])
            erasedEEPROM).2).2
        = getStatus (runSetters sampleStock (ctor sampleStock 2 8)
          [Setter.setColor " Teal".toList, Setter.setBright 5, Setter.setBlendSpeed 2])) :=
  roundtrip_status_up_to_power sampleStock 2 8
    [Setter.setColor " Teal".toList, Setter.setBright 5, Setter.setBlendSpeed 2]
    erasedEEPROM (by decide)

/-! ### Loading a configuration -/

/-- The result of `loadConfig` on a store without the magic marker. -/
theorem loadConfig_of_not_magic (fl : FastLEDPalettes) (s : AvantLumi) (E : EEPROMClass)
    (h : E.image.magic ≠ CONFIG_MAGIC) : loadConfig fl s E = (false, s) := by
  unfold loadConfig
  simp only []
  rw [if_pos h]

/-- C11: a custom palette is not re-derived by `loadConfig`.  After
`setPalette("u01")` on a fresh controller `targetPalette` is the christmas
gradient and the stored name is `u01_christmas`; `saveConfig()` followed by
`loadConfig()` on a fresh controller succeeds, but `setPalette` does not accept
the stored name, so `targetPalette` stays the constructor's `PartyColors_p`. -/
theorem loadConfig_custom_palette_not_rederived :
    (setPalette sampleStock (ctor sampleStock 2 8) "u01".toList).1 = true ∧
    (setPalette sampleStock (ctor sampleStock 2 8) "u01".toList).2.targetPalette
      = christmas_p ∧
    (setPalette sampleStock (ctor sampleStock 2 8) "u01".toList).2.currentPaletteName
      = "u01_christmas".toList ∧
    (saveConfig (setPalette sampleStock (ctor sampleStock 2 8) "u01".toList).2
      erasedEEPROM).1 = true ∧
    (loadConfig sampleStock (ctor sampleStock 2 8)
      (saveConfig (setPalette sampleStock (ctor sampleStock 2 8) "u01".toList).2
        erasedEEPROM).2).1 = true ∧
    (loadConfig sampleStock (ctor sampleStock 2 8)
      (saveConfig (setPalette sampleStock (ctor sampleStock 2 8) "u01".toList).2
        erasedEEPROM).2).2.targetPalette = sampleStock.PartyColors_p ∧
    (loadConfig sampleStock (ctor sampleStock 2 8)
      (saveConfig (setPalette sampleStock (ctor sampleStock 2 8) "u01".toList).2
        erasedEEPROM).2).2.targetPalette ≠ christmas_p ∧
    (setPalette sampleStock (ctor sampleStock 2 8) "u01_christmas".toList).1 = false := by
  decide

/-- C12: `useRandomPalette` is not restored for a state that still has the
constructor's mode.  A fresh controller has `useRandomPalette = true` with the
palette name `party`; `saveConfig()` followed by `loadConfig()` on a fresh
controller succeeds, and the `setPalette("party")` call inside `loadConfig`
leaves `useRandomPalette = false`. -/
theorem loadConfig_resets_useRandomPalette :
    (ctor sampleStock 2 8).useRandomPalette = true ∧
    (ctor sampleStock 2 8).currentPaletteName = "party".toList ∧
    (saveConfig (ctor sampleStock 2 8) erasedEEPROM).1 = true ∧
    (saveConfig (ctor sampleStock 2 8) erasedEEPROM).2.image.useRandomPalette = true ∧
    (loadConfig sampleStock (ctor sampleStock 2 8)
      (saveConfig (ctor sampleStock 2 8) erasedEEPROM).2).1 = true ∧
    (loadConfig sampleStock (ctor sampleStock 2 8)
      (saveConfig (ctor sampleStock 2 8) erasedEEPROM).2).2.useRandomPalette = false := by
  decide

/-- C13: when the magic value at the start of the store differs from
`CONFIG_MAGIC`, `loadConfig` returns false and the object is unchanged. -/
theorem loadConfig_bad_magic (fl : FastLEDPalettes) (s : AvantLumi) (E : EEPROMClass)
    (h : E.image.magic ≠ CONFIG_MAGIC) :
    (loadConfig fl s E).1 = false ∧ (loadConfig fl s E).2 = s := by
  rw [loadConfig_of_not_magic fl s E h]
  exact ⟨rfl, rfl⟩

/-- C13, evaluated: an erased store leaves a fresh controller at its defaults. -/
theorem loadConfig_bad_magic_witness :
    (loadConfig sampleStock (ctor sampleStock 2 8) erasedEEPROM).1 = false ∧
    (loadConfig sampleStock (ctor sampleStock 2 8) erasedEEPROM).2 = ctor sampleStock 2 8 :=
  loadConfig_bad_magic sampleStock (ctor sampleStock 2 8) erasedEEPROM (by decide)

/-- C15: a freshly constructed controller reports the defaults: switch on,
brightness level 3, palette `party`, blend speed 4, fade on. -/
theorem ctor_defaults (fl : FastLEDPalettes) (dataPin numLeds : Nat) :
    getSwitch (ctor fl dataPin numLeds) = true ∧
    getBright (ctor fl dataPin numLeds) = 3 ∧
    getPalette (ctor fl dataPin numLeds) = "party".toList ∧
    getBlendSpeed (ctor fl dataPin numLeds) = 4 ∧
    getFade (ctor fl dataPin numLeds) = true :=
  ⟨rfl, rfl, rfl, rfl, rfl⟩

/-- C17: `setMaxPower(v, ma)` returns true exactly when 3 <= v <= 24 and
50 <= ma <= 20000; on success the two getters return v and ma, on failure
the object is unchanged; `setMaxPower(2,100)` fails and `setMaxPower(5,500)`
succeeds. -/
theorem setMaxPower_range (s : AvantLumi) (v ma : Nat) :
    ((setMaxPower s v ma).1 = true ↔ (3 ≤ v ∧ v ≤ 24) ∧ (50 ≤ ma ∧ ma ≤ 20000)) ∧
    ((setMaxPower s v ma).1 = true →
      getMaxVolts (setMaxPower s v ma).2 = v ∧ getMaxMilliamps (setMaxPower s v ma).2 = ma) ∧
    ((setMaxPower s v ma).1 = false → (setMaxPower s v ma).2 = s) ∧
    (setMaxPower s 2 100).1 = false ∧
    ((setMaxPower s 5 500).1 = true ∧ getMaxVolts (setMaxPower s 5 500).2 = 5 ∧
      getMaxMilliamps (setMaxPower s 5 500).2 = 500) := by
  refine ⟨?_, ?_, ?_, rfl, rfl, rfl, rfl⟩
  all_goals
    simp only [setMaxPower, getMaxVolts, getMaxMilliamps]
    by_cases hv : v < 3 ∨ v > 24
    · rw [if_pos hv]; simp; try omega
    · by_cases hm : ma < 50 ∨ ma > 20000
      · rw [if_neg hv, if_pos hm]; simp; try omega
      · rw [if_neg hv, if_neg hm]; simp; try omega

/-- C17, evaluated on a fresh controller with the budget 12 V, 2000 mA and the
rejected budget 30 V, 2000 mA. -/
theorem setMaxPower_range_witness :
    (getMaxVolts (setMaxPower (ctor sampleStock 2 8) 12 2000).2 = 12 ∧
      getMaxMilliamps (setMaxPower (ctor sampleStock 2 8) 12 2000).2 = 2000) ∧
    (setMaxPower (ctor sampleStock 2 8) 30 2000).2 = ctor sampleStock 2 8 :=
  ⟨(setMaxPower_range (ctor sampleStock 2 8) 12 2000).2.1 (by decide),
   (setMaxPower_range (ctor sampleStock 2 8) 30 2000).2.2.1 (by decide)⟩

/-- C18: `setBlendSpeed(n)` returns true exactly when 1 <= n <= 5 and then
`getBlendSpeed()` is n; for every other n it returns false and the object,
`getBlendSpeed()` included, is unchanged. -/
theorem setBlendSpeed_range (s : AvantLumi) (n : Nat) :
    ((setBlendSpeed s n).1 = true ↔ 1 ≤ n ∧ n ≤ 5) ∧
    ((setBlendSpeed s n).1 = true → getBlendSpeed (setBlendSpeed s n).2 = n) ∧
    ((setBlendSpeed s n).1 = false →
      (setBlendSpeed s n).2 = s ∧ getBlendSpeed (setBlendSpeed s n).2 = getBlendSpeed s) := by
  unfold setBlendSpeed getBlendSpeed
  by_cases h : n ≥ 1 ∧ n ≤ 5
  · rw [if_pos h]; simp; omega
  · rw [if_neg h]; simp; omega

/-- C18, evaluated: speed 2 is accepted and speed 6 is rejected on a fresh
controller. -/
theorem setBlendSpeed_range_witness :
    getBlendSpeed (setBlendSpeed (ctor sampleStock 2 8) 2).2 = 2 ∧
    ((setBlendSpeed (ctor sampleStock 2 8) 6).2 = ctor sampleStock 2 8 ∧
      getBlendSpeed (setBlendSpeed (ctor sampleStock 2 8) 6).2
        = getBlendSpeed (ctor sampleStock 2 8)) :=
  ⟨(setBlendSpeed_range (ctor sampleStock 2 8) 2).2.1 (by decide),
   (setBlendSpeed_range (ctor sampleStock 2 8) 6).2.2 (by decide)⟩

/-! ### The switch and the fade flag -/

/-- C19, as stated, fails: `" on "` is accepted by `setSwitch` although it
differs from `on` and from `off` also when letter case is ignored. -/
theorem setSwitch_padded_counterexample :
    (setSwitch (ctor sampleStock 2 8) " on ".toList).1 = true ∧
    ¬ (toLowerCase " on ".toList = "on".toList ∨ toLowerCase " on ".toList = "off".toList) := by
  decide

/-- C19, amended: `setSwitch(s)` returns true if and only if s, lower-cased and
with surrounding whitespace trimmed, is `on` or `off` (so every spelling of
`on` / `off` in any letter case between whitespace is accepted); on success
`getSwitch()` is true for `on` and false for `off`; on failure the object is
unchanged.  The bool form always returns true and sets `getSwitch()` to its
argument. -/
theorem setSwitch_on_off (s : AvantLumi) (N : Str) :
    ((setSwitch s N).1 = true ↔
      trim (toLowerCase N) = "on".toList ∨ trim (toLowerCase N) = "off".toList) ∧
    (trim (toLowerCase N) = "on".toList →
      (setSwitch s N).1 = true ∧ getSwitch (setSwitch s N).2 = true) ∧
    (trim (toLowerCase N) = "off".toList →
      (setSwitch s N).1 = true ∧ getSwitch (setSwitch s N).2 = false) ∧
    ((setSwitch s N).1 = false → (setSwitch s N).2 = s) ∧
    (∀ pre body post : Str, (∀ c ∈ pre, isspace c = true) → (∀ c ∈ post, isspace c = true) →
      toLowerCase body = "on".toList ∨ toLowerCase body = "off".toList →
      (setSwitch s (pre ++ body ++ post)).1 = true) ∧
    (∀ b : Bool, (setSwitchBool s b).1 = true ∧ getSwitch (setSwitchBool s b).2 = b) := by
  have key : ∀ M : Str,
      ((setSwitch s M).1 = true ↔
        trim (toLowerCase M) = "on".toList ∨ trim (toLowerCase M) = "off".toList) := by
    intro M
    simp only [setSwitch]
    by_cases h1 : trim (toLowerCase M) = "on".toList
    · rw [if_pos h1]; exact ⟨fun _ => Or.inl h1, fun _ => rfl⟩
    · by_cases h2 : trim (toLowerCase M) = "off".toList
      · rw [if_neg h1, if_pos h2]; exact ⟨fun _ => Or.inr h2, fun _ => rfl⟩
      · rw [if_neg h1, if_neg h2]
        exact ⟨fun h => absurd h Bool.false_ne_true,
          fun h => h.elim (fun h => absurd h h1) (fun h => absurd h h2)⟩
  refine ⟨key N, ?_, ?_, ?_, ?_, fun b => ⟨rfl, rfl⟩⟩
  · intro h1
    simp only [setSwitch, getSwitch]
    rw [if_pos h1]
    exact ⟨rfl, rfl⟩
  · intro h2
    have h1 : ¬ trim (toLowerCase N) = "on".toList := by rw [h2]; decide
    simp only [setSwitch, getSwitch]
    rw [if_neg h1, if_pos h2]
    exact ⟨rfl, rfl⟩
  · intro hf
    by_cases h1 : trim (toLowerCase N) = "on".toList
    · have := (key N).mpr (Or.inl h1); rw [this] at hf; exact absurd hf (by decide)
    · by_cases h2 : trim (toLowerCase N) = "off".toList
      · have := (key N).mpr (Or.inr h2); rw [this] at hf; exact absurd hf (by decide)
      · simp only [setSwitch]
        rw [if_neg h1, if_neg h2]
  · intro pre body post hpre hpost hb
    apply (key _).mpr
    rcases hb with hb | hb
    · left
      rw [trim_toLowerCase_sandwich pre body post hpre hpost (by rw [hb]; decide)
        (by rw [hb]; decide)]
      exact hb
    · right
      rw [trim_toLowerCase_sandwich pre body post hpre hpost (by rw [hb]; decide)
        (by rw [hb]; decide)]
      exact hb

/-- C19 amended, evaluated: `" On\n"` switches a controller on, `"OFF"` switches
it off, `"auto"` is rejected. -/
theorem setSwitch_on_off_witness :
    ((setSwitch (setSwitchBool (ctor sampleStock 2 8) false).2 " On\n".toList).1 = true ∧
      getSwitch (setSwitch (setSwitchBool (ctor sampleStock 2 8) false).2
        " On\n".toList).2 = true) ∧
    ((setSwitch (ctor sampleStock 2 8) "OFF".toList).1 = true ∧
      getSwitch (setSwitch (ctor sampleStock 2 8) "OFF".toList).2 = false) ∧
    (setSwitch (ctor sampleStock 2 8) "auto".toList).2 = ctor sampleStock 2 8 ∧
    (setSwitch (ctor sampleStock 2 8) (" ".toList ++ "oN".toList ++ "\t".toList)).1 = true :=
  ⟨(setSwitch_on_off (setSwitchBool (ctor sampleStock 2 8) false).2 " On\n".toList).2.1
      (by decide),
   (setSwitch_on_off (ctor sampleStock 2 8) "OFF".toList).2.2.1 (by decide),
   (setSwitch_on_off (ctor sampleStock 2 8) "auto".toList).2.2.2.1 (by decide),
   (setSwitch_on_off (ctor sampleStock 2 8) []).2.2.2.2.1 " ".toList "oN".toList "\t".toList
      (by decide) (by decide) (by decide)⟩

/-- C20: `setFade` follows `setSwitch`.  For every string, `setFade` returns
what `setSwitch` returns and, when it succeeds, gives the fade flag the value
that `setSwitch` gives the enabled flag; `setFade(bool)` always succeeds and
`getFade()` is then the argument; neither form changes a member other than the
fade flag. -/
theorem setFade_like_setSwitch (s : AvantLumi) (N : Str) :
    (setFade s N).1 = (setSwitch s N).1 ∧
    ((setFade s N).1 = true → (setFade s N).2.fadeinEnabled = (setSwitch s N).2.ledEnabled) ∧
    (setFade s N).2 = { s with fadeinEnabled := (setFade s N).2.fadeinEnabled } ∧
    (∀ b : Bool, (setFadeBool s b).1 = true ∧ getFade (setFadeBool s b).2 = b ∧
      (setFadeBool s b).2 = { s with fadeinEnabled := b }) := by
  suffices main : (setFade s N).1 = (setSwitch s N).1 ∧
      ((setFade s N).1 = true →
        (setFade s N).2.fadeinEnabled = (setSwitch s N).2.ledEnabled) ∧
      (setFade s N).2 = { s with fadeinEnabled := (setFade s N).2.fadeinEnabled } from
    ⟨main.1, main.2.1, main.2.2, fun b => ⟨rfl, rfl, rfl⟩⟩
  by_cases h1 : trim (toLowerCase N) = "on".toList
  · have hf : setFade s N = (true, { s with fadeinEnabled := true }) := by
      simp only [setFade]; rw [if_pos h1]
    have hs : setSwitch s N = (true, { s with ledEnabled := true }) := by
      simp only [setSwitch]; rw [if_pos h1]
    rw [hf, hs]
    exact ⟨rfl, fun _ => rfl, rfl⟩
  · by_cases h2 : trim (toLowerCase N) = "off".toList
    · have hf : setFade s N = (true, { s with fadeinEnabled := false }) := by
        simp only [setFade]; rw [if_neg h1, if_pos h2]
      have hs : setSwitch s N = (true, { s with ledEnabled := false }) := by
        simp only [setSwitch]; rw [if_neg h1, if_pos h2]
      rw [hf, hs]
      exact ⟨rfl, fun _ => rfl, rfl⟩
    · have hf : setFade s N = (false, s) := by
        simp only [setFade]; rw [if_neg h1, if_neg h2]
      have hs : setSwitch s N = (false, s) := by
        simp only [setSwitch]; rw [if_neg h1, if_neg h2]
      rw [hf, hs]
      exact ⟨rfl, fun h => absurd h Bool.false_ne_true, rfl⟩

/-- C20, evaluated: `"Off "` clears the fade flag of a fresh controller as it
clears the switch. -/
theorem setFade_like_setSwitch_witness :
    (setFade (ctor sampleStock 2 8) "Off ".toList).2.fadeinEnabled
      = (setSwitch (ctor sampleStock 2 8) "Off ".toList).2.ledEnabled :=
  (setFade_like_setSwitch (ctor sampleStock 2 8) "Off ".toList).2.1 (by decide)

/-! ### The steps of `update()` -/

theorem update_eq (fx : FastLEDFns) (w : Sketch) (now : Nat) :
    update fx w now
      = renderStage fx (randomStage fx (blendStage w (updateBrightness w.lumi now) now) now) now :=
  rfl

theorem updateBrightness_of_gate (s : AvantLumi) (now : Nat)
    (h : elapsed now s.lastBrightnessUpdate ≥ 20) :
    settingsOf (updateBrightness s now) = settingsOf s ∧
    (updateBrightness s now).targetPalette = s.targetPalette ∧
    (updateBrightness s now).currentPalette = s.currentPalette ∧
    (updateBrightness s now).lastBrightnessUpdate = now ∧
    (updateBrightness s now).targetBrightness = desiredBrightness s ∧
    (updateBrightness s now).actualBrightness
      = approach s.actualBrightness (desiredBrightness s) := by
  unfold updateBrightness
  simp only [h, if_true, desiredBrightness, approach]
  by_cases ht : s.targetBrightness = if s.ledEnabled then brightnessAt s.currentBrightnessLevel else 0
  · simp only [ht, ne_eq, not_true_eq_false, if_false]
    split_ifs <;> refine ⟨rfl, rfl, rfl, rfl, ?_, ?_⟩ <;> simp_all <;> omega
  · simp only [ne_eq, ht, not_false_eq_true, if_true]
    split_ifs <;> refine ⟨rfl, rfl, rfl, rfl, ?_, ?_⟩ <;> simp_all <;> omega

theorem updateBrightness_of_not_gate (s : AvantLumi) (now : Nat)
    (h : ¬ elapsed now s.lastBrightnessUpdate ≥ 20) : updateBrightness s now = s := by
  unfold updateBrightness
  simp only [h, if_false]

theorem updateBrightness_frame (s : AvantLumi) (now : Nat) :
    settingsOf (updateBrightness s now) = settingsOf s ∧
    (updateBrightness s now).targetPalette = s.targetPalette ∧
    (updateBrightness s now).currentPalette = s.currentPalette := by
  by_cases h : elapsed now s.lastBrightnessUpdate ≥ 20
  · obtain ⟨h1, h2, h3, _⟩ := updateBrightness_of_gate s now h
    exact ⟨h1, h2, h3⟩
  · rw [updateBrightness_of_not_gate s now h]
    exact ⟨rfl, rfl, rfl⟩

theorem blendStage_frame (w : Sketch) (s : AvantLumi) (now : Nat) :
    settingsOf (blendStage w s now).lumi = settingsOf s ∧
    (blendStage w s now).lumi.targetPalette = s.targetPalette ∧
    (blendStage w s now).lumi.actualBrightness = s.actualBrightness ∧
    (blendStage w s now).lumi.targetBrightness = s.targetBrightness ∧
    (blendStage w s now).lumi.lastBrightnessUpdate = s.lastBrightnessUpdate ∧
    (blendStage w s now).lastRandomPalette = w.lastRandomPalette ∧
    (blendStage w s now).eeprom = w.eeprom := by
  unfold blendStage
  simp only []
  split_ifs <;> exact ⟨rfl, rfl, rfl, rfl, rfl, rfl, rfl⟩

theorem randomStage_frame (fx : FastLEDFns) (w : Sketch) (now : Nat) :
    settingsOf (randomStage fx w now).lumi = settingsOf w.lumi ∧
    (randomStage fx w now).lumi.actualBrightness = w.lumi.actualBrightness ∧
    (randomStage fx w now).lumi.targetBrightness = w.lumi.targetBrightness ∧
    (randomStage fx w now).lumi.lastBrightnessUpdate = w.lumi.lastBrightnessUpdate ∧
    (randomStage fx w now).lumi.currentPalette = w.lumi.currentPalette ∧
    (randomStage fx w now).eeprom = w.eeprom := by
  unfold randomStage
  simp only []
  split_ifs <;> exact ⟨rfl, rfl, rfl, rfl, rfl, rfl⟩

theorem renderStage_frame (fx : FastLEDFns) (w : Sketch) (now : Nat) :
    settingsOf (renderStage fx w now).lumi = settingsOf w.lumi ∧
    (renderStage fx w now).lumi.targetPalette = w.lumi.targetPalette ∧
    (renderStage fx w now).lumi.currentPalette = w.lumi.currentPalette ∧
    (renderStage fx w now).lumi.actualBrightness = w.lumi.actualBrightness ∧
    (renderStage fx w now).lumi.targetBrightness = w.lumi.targetBrightness ∧
    (renderStage fx w now).lumi.lastBrightnessUpdate = w.lumi.lastBrightnessUpdate ∧
    (renderStage fx w now).eeprom = w.eeprom :=
  ⟨rfl, rfl, rfl, rfl, rfl, rfl, rfl⟩

/-- What `update()` leaves alone: the settings and the store; and the three
brightness members are those that `updateBrightness` alone produces. -/
theorem update_frame (fx : FastLEDFns) (w : Sketch) (now : Nat) :
    settingsOf (update fx w now).lumi = settingsOf w.lumi ∧
    (update fx w now).eeprom = w.eeprom ∧
    (update fx w now).lumi.actualBrightness = (updateBrightness w.lumi now).actualBrightness ∧
    (update fx w now).lumi.targetBrightness = (updateBrightness w.lumi now).targetBrightness ∧
    (update fx w now).lumi.lastBrightnessUpdate
      = (updateBrightness w.lumi now).lastBrightnessUpdate := by
  rw [update_eq]
  obtain ⟨r1, _, _, r4, r5, r6, r7⟩ := renderStage_frame fx
    (randomStage fx (blendStage w (updateBrightness w.lumi now) now) now) now
  obtain ⟨q1, q2, q3, q4, _, q6⟩ := randomStage_frame fx
    (blendStage w (updateBrightness w.lumi now) now) now
  obtain ⟨b1, _, b3, b4, b5, _, b7⟩ := blendStage_frame w (updateBrightness w.lumi now) now
  obtain ⟨u1, _, _⟩ := updateBrightness_frame w.lumi now
  exact ⟨r1.trans (q1.trans (b1.trans u1)), r7.trans (q6.trans b7), r4.trans (q2.trans b3),
    r5.trans (q3.trans b4), r6.trans (q4.trans b5)⟩

/-! ### Ranges of level and blend speed -/

/-- The members that `loadConfig` copies from a record with the magic marker
and that the palette step does not touch afterwards. -/
theorem loadConfig_copies (fl : FastLEDPalettes) (f : AvantLumi) (E : EEPROMClass)
    (h : E.image.magic = CONFIG_MAGIC) :
    (loadConfig fl f E).2.currentBrightnessLevel = E.image.currentBrightnessLevel ∧
    (loadConfig fl f E).2.blendSpeed = E.image.blendSpeed ∧
    (loadConfig fl f E).2.actualBrightness = f.actualBrightness := by
  rw [loadConfig_of_magic fl f E h]
  cases hs : (restoreMembers f E.image).useSolidColor with
  | true => exact ⟨rfl, rfl, rfl⟩
  | false =>
    have c := setPalette_cases fl (restoreMembers f E.image)
      (restoreMembers f E.image).currentPaletteName
      (fun r => r.2.currentBrightnessLevel = E.image.currentBrightnessLevel ∧
        r.2.blendSpeed = E.image.blendSpeed ∧ r.2.actualBrightness = f.actualBrightness)
      ⟨rfl, rfl, rfl⟩ (fun _ _ _ _ => ⟨rfl, rfl, rfl⟩)
    exact c

theorem loadConfig_actualBrightness (fl : FastLEDPalettes) (f : AvantLumi) (E : EEPROMClass) :
    (loadConfig fl f E).2.actualBrightness = f.actualBrightness := by
  by_cases h : E.image.magic = CONFIG_MAGIC
  · exact (loadConfig_copies fl f E h).2.2
  · rw [loadConfig_of_not_magic fl f E h]

theorem Setter.run_levels (fl : FastLEDPalettes) (s : AvantLumi) (c : Setter)
    (h : LevelsInRange s) : LevelsInRange (c.run fl s).2 := by
  cases c with
  | setRGB rVal gVal bVal => exact h
  | setColor colorName =>
    unfold Setter.run AvantLumi.setColor
    exact ite_cases (fun r : Bool × AvantLumi => LevelsInRange r.2) h h
  | setBright level =>
    show LevelsInRange (AvantLumi.setBright s level).2
    unfold AvantLumi.setBright
    by_cases hl : level ≥ 1 ∧ level ≤ 5
    · rw [if_pos hl]; exact ⟨⟨hl.1, hl.2⟩, h.2⟩
    · rw [if_neg hl]; exact h
  | setSwitch state =>
    unfold Setter.run AvantLumi.setSwitch
    exact ite_cases (fun r : Bool × AvantLumi => LevelsInRange r.2) h
      (ite_cases (fun r : Bool × AvantLumi => LevelsInRange r.2) h h)
  | setSwitchBool state => exact h
  | setFade state =>
    unfold Setter.run AvantLumi.setFade
    exact ite_cases (fun r : Bool × AvantLumi => LevelsInRange r.2) h
      (ite_cases (fun r : Bool × AvantLumi => LevelsInRange r.2) h h)
  | setFadeBool state => exact h
  | setPalette paletteName =>
    exact setPalette_cases fl s paletteName (fun r => LevelsInRange r.2) h (fun _ _ _ _ => h)
  | setBlendSpeed speed_val =>
    show LevelsInRange (AvantLumi.setBlendSpeed s speed_val).2
    unfold AvantLumi.setBlendSpeed
    by_cases hl : speed_val ≥ 1 ∧ speed_val ≤ 5
    · rw [if_pos hl]; exact ⟨h.1, ⟨hl.1, hl.2⟩⟩
    · rw [if_neg hl]; exact h
  | setMaxPower voltsVal milliamps =>
    unfold Setter.run AvantLumi.setMaxPower
    exact ite_cases (fun r : Bool × AvantLumi => LevelsInRange r.2) h
      (ite_cases (fun r : Bool × AvantLumi => LevelsInRange r.2) h h)

theorem Setter.run_actualBrightness (fl : FastLEDPalettes) (s : AvantLumi) (c : Setter) :
    (c.run fl s).2.actualBrightness = s.actualBrightness := by
  cases c with
  | setRGB rVal gVal bVal => rfl
  | setColor colorName =>
    unfold Setter.run AvantLumi.setColor
    exact ite_cases (fun r : Bool × AvantLumi => r.2.actualBrightness = s.actualBrightness)
      rfl rfl
  | setBright level =>
    unfold Setter.run AvantLumi.setBright
    exact ite_cases (fun r : Bool × AvantLumi => r.2.actualBrightness = s.actualBrightness)
      rfl rfl
  | setSwitch state =>
    unfold Setter.run AvantLumi.setSwitch
    exact ite_cases (fun r : Bool × AvantLumi => r.2.actualBrightness = s.actualBrightness) rfl
      (ite_cases (fun r : Bool × AvantLumi => r.2.actualBrightness = s.actualBrightness)
        rfl rfl)
  | setSwitchBool state => rfl
  | setFade state =>
    unfold Setter.run AvantLumi.setFade
    exact ite_cases (fun r : Bool × AvantLumi => r.2.actualBrightness = s.actualBrightness) rfl
      (ite_cases (fun r : Bool × AvantLumi => r.2.actualBrightness = s.actualBrightness)
        rfl rfl)
  | setFadeBool state => rfl
  | setPalette paletteName =>
    exact setPalette_cases fl s paletteName
      (fun r => r.2.actualBrightness = s.actualBrightness) rfl (fun _ _ _ _ => rfl)
  | setBlendSpeed speed_val =>
    unfold Setter.run AvantLumi.setBlendSpeed
    exact ite_cases (fun r : Bool × AvantLumi => r.2.actualBrightness = s.actualBrightness)
      rfl rfl
  | setMaxPower voltsVal milliamps =>
    unfold Setter.run AvantLumi.setMaxPower
    exact ite_cases (fun r : Bool × AvantLumi => r.2.actualBrightness = s.actualBrightness) rfl
      (ite_cases (fun r : Bool × AvantLumi => r.2.actualBrightness = s.actualBrightness)
        rfl rfl)

theorem ctor_levels (fl : FastLEDPalettes) (dataPin numLeds : Nat) :
    LevelsInRange (ctor fl dataPin numLeds) :=
  ⟨⟨(by decide : 1 ≤ 3), (by decide : 3 ≤ 5)⟩, ⟨(by decide : 1 ≤ 4), (by decide : 4 ≤ 5)⟩⟩

theorem update_levels (fx : FastLEDFns) (w : Sketch) (now : Nat) (h : LevelsInRange w.lumi) :
    LevelsInRange (update fx w now).lumi := by
  have hs := (update_frame fx w now).1
  unfold settingsOf at hs
  simp only [Prod.mk.injEq] at hs
  obtain ⟨_, _, _, _, _, h6, _, _, h9, _, _⟩ := hs
  unfold LevelsInRange
  rw [h6, h9]
  exact h

theorem Op.step_levels (fl : FastLEDPalettes) (fx : FastLEDFns) (w : Sketch) (op : Op)
    (hop : op.storesInRange) (h : LevelsInRange w.lumi) (hE : RecordInRange w.eeprom) :
    LevelsInRange (op.run fl fx w).lumi ∧ RecordInRange (op.run fl fx w).eeprom := by
  cases op with
  | setter c => exact ⟨Setter.run_levels fl w.lumi c h, hE⟩
  | update now =>
    refine ⟨update_levels fx w now h, ?_⟩
    show RecordInRange (AvantLumi.update fx w now).eeprom
    rw [(update_frame fx w now).2.1]
    exact hE
  | saveConfig =>
    refine ⟨h, ?_⟩
    show RecordInRange (AvantLumi.saveConfig w.lumi w.eeprom).2
    unfold AvantLumi.saveConfig
    simp only []
    split_ifs
    · intro _; exact h
    · exact hE
  | loadConfig =>
    refine ⟨?_, hE⟩
    show LevelsInRange (AvantLumi.loadConfig fl w.lumi w.eeprom).2
    by_cases hm : w.eeprom.image.magic = CONFIG_MAGIC
    · obtain ⟨c1, c2, _⟩ := loadConfig_copies fl w.lumi w.eeprom hm
      unfold LevelsInRange
      rw [c1, c2]
      exact hE hm
    · rw [loadConfig_of_not_magic fl w.lumi w.eeprom hm]
      exact h
  | checkConfig => exact ⟨h, hE⟩
  | storeContent E => exact ⟨h, hop⟩

theorem runOps_levels (fl : FastLEDPalettes) (fx : FastLEDFns) (ops : List Op) :
    ∀ w : Sketch, (∀ op ∈ ops, op.storesInRange) → LevelsInRange w.lumi →
      RecordInRange w.eeprom → LevelsInRange (runOps fl fx w ops).lumi := by
  induction ops with
  | nil => intro w _ h _; exact h
  | cons op rest ih =>
    intro w hops h hE
    obtain ⟨h1, h2⟩ := Op.step_levels fl fx w op (hops op (List.mem_cons_self _ _)) h hE
    exact ih (op.run fl fx w) (fun o ho => hops o (List.mem_cons_of_mem _ ho)) h1 h2

/-- C14 fails in the code: `loadConfig()` checks nothing but the magic marker.
A store content that carries the marker with the level byte 200 and the
blend-speed byte 0 is accepted (the call returns true) and both bytes are
copied, so `getBright()` is 200 and `getBlendSpeed()` is 0 afterwards, although
`setBright(200)` and `setBlendSpeed(0)` reject these values; the level 200 is
then the index with which `loadConfig()` and `updateBrightness()` read the
six-entry table `brightnessLevels`, which has no such entry. -/
theorem loadConfig_levels_unchecked :
    outOfRangeStore.image.magic = CONFIG_MAGIC ∧
    (loadConfig sampleStock (ctor sampleStock 2 8) outOfRangeStore).1 = true ∧
    getBright (loadConfig sampleStock (ctor sampleStock 2 8) outOfRangeStore).2 = 200 ∧
    getBlendSpeed (loadConfig sampleStock (ctor sampleStock 2 8) outOfRangeStore).2 = 0 ∧
    (runOps sampleStock sampleFns (boot sampleStock 2 8 erasedEEPROM)
      [Op.storeContent outOfRangeStore, Op.loadConfig]).lumi.currentBrightnessLevel = 200 ∧
    (runOps sampleStock sampleFns (boot sampleStock 2 8 erasedEEPROM)
      [Op.storeContent outOfRangeStore, Op.loadConfig]).lumi.blendSpeed = 0 ∧
    brightnessLevels.length = 6 ∧
    brightnessLevels[(loadConfig sampleStock (ctor sampleStock 2 8)
      outOfRangeStore).2.currentBrightnessLevel]? = none ∧
    (setBright (ctor sampleStock 2 8) 200).1 = false ∧
    (setBlendSpeed (ctor sampleStock 2 8) 0).1 = false := by
  decide

/-- Apart from such a load the levels stay in range: brightness level and blend
speed are in 1..5 in every state reached from construction by setters,
`update()`, `saveConfig()`, `checkConfig()` and `loadConfig()`, as long as every
store content which carries the magic marker and was not written by
`saveConfig()` (the initial content and any content placed later) holds a level
and a blend speed in 1..5. -/
theorem levels_in_range (fl : FastLEDPalettes) (fx : FastLEDFns) (dataPin numLeds : Nat)
    (E : EEPROMClass) (ops : List Op) (hE : RecordInRange E)
    (hops : ∀ op ∈ ops, op.storesInRange) :
    LevelsInRange (runOps fl fx (boot fl dataPin numLeds E) ops).lumi :=
  runOps_levels fl fx ops (boot fl dataPin numLeds E) hops (ctor_levels fl dataPin numLeds) hE

/-! ### The constructor's mode -/

/-- C16: a freshly constructed controller has `useRandomPalette = true` although
`getPalette()` reports `party` and both gradients are `PartyColors_p`; the first
`update()` at 5000 ms therefore replaces `targetPalette` by the gradient that
`generateRandomPalette` builds, without any call of `setPalette("random")`. -/
theorem fresh_controller_is_in_random_mode :
    (ctor sampleStock 2 8).useRandomPalette = true ∧
    (ctor sampleStock 2 8).useSolidColor = false ∧
    getPalette (ctor sampleStock 2 8) = "party".toList ∧
    (ctor sampleStock 2 8).targetPalette = sampleStock.PartyColors_p ∧
    (update sampleFns (boot sampleStock 2 8 erasedEEPROM) 5000).lumi.targetPalette
      = (generateRandomPalette sampleFns (ctor sampleStock 2 8) 1337).1.targetPalette ∧
    (update sampleFns (boot sampleStock 2 8 erasedEEPROM) 5000).lumi.targetPalette
      ≠ sampleStock.PartyColors_p ∧
    getPalette (update sampleFns (boot sampleStock 2 8 erasedEEPROM) 5000).lumi
      = "party".toList := by
  decide

/-! ### Operations that leave the mode alone -/

theorem modeOf_of_settingsOf (s t : AvantLumi) (h : settingsOf t = settingsOf s) :
    modeOf t = modeOf s := by
  unfold settingsOf at h
  simp only [Prod.mk.injEq] at h
  obtain ⟨_, h2, h3, h4, _, _, h7, h8, _, _, _⟩ := h
  unfold modeOf
  rw [h2, h3, h4, h7, h8]

/-- C23: the mode members (`useSolidColor`, `useRandomPalette`, the solid colour,
the palette name, the solid colour name) are left unchanged by `setBright`,
both forms of `setSwitch` and `setFade`, `setBlendSpeed`, `setMaxPower`,
`saveConfig`, `checkConfig` and `update()`; the getters are functions of the
object and change nothing. -/
theorem mode_changes_only_by_mode_setters (fl : FastLEDPalettes) (fx : FastLEDFns)
    (w : Sketch) :
    (∀ level, modeOf (setBright w.lumi level).2 = modeOf w.lumi) ∧
    (∀ state, modeOf (setSwitch w.lumi state).2 = modeOf w.lumi) ∧
    (∀ state, modeOf (setSwitchBool w.lumi state).2 = modeOf w.lumi) ∧
    (∀ state, modeOf (setFade w.lumi state).2 = modeOf w.lumi) ∧
    (∀ state, modeOf (setFadeBool w.lumi state).2 = modeOf w.lumi) ∧
    (∀ speed_val, modeOf (setBlendSpeed w.lumi speed_val).2 = modeOf w.lumi) ∧
    (∀ voltsVal milliamps, modeOf (setMaxPower w.lumi voltsVal milliamps).2 = modeOf w.lumi) ∧
    modeOf (Op.run fl fx w Op.saveConfig).lumi = modeOf w.lumi ∧
    modeOf (Op.run fl fx w Op.checkConfig).lumi = modeOf w.lumi ∧
    (∀ now, modeOf (update fx w now).lumi = modeOf w.lumi) := by
  refine ⟨?_, ?_, fun _ => rfl, ?_, fun _ => rfl, ?_, ?_, rfl, rfl, ?_⟩
  · intro level
    unfold AvantLumi.setBright
    exact ite_cases (fun r : Bool × AvantLumi => modeOf r.2 = modeOf w.lumi) rfl rfl
  · intro state
    unfold AvantLumi.setSwitch
    exact ite_cases (fun r : Bool × AvantLumi => modeOf r.2 = modeOf w.lumi) rfl
      (ite_cases (fun r : Bool × AvantLumi => modeOf r.2 = modeOf w.lumi) rfl rfl)
  · intro state
    unfold AvantLumi.setFade
    exact ite_cases (fun r : Bool × AvantLumi => modeOf r.2 = modeOf w.lumi) rfl
      (ite_cases (fun r : Bool × AvantLumi => modeOf r.2 = modeOf w.lumi) rfl rfl)
  · intro speed_val
    unfold AvantLumi.setBlendSpeed
    exact ite_cases (fun r : Bool × AvantLumi => modeOf r.2 = modeOf w.lumi) rfl rfl
  · intro voltsVal milliamps
    unfold AvantLumi.setMaxPower
    exact ite_cases (fun r : Bool × AvantLumi => modeOf r.2 = modeOf w.lumi) rfl
      (ite_cases (fun r : Bool × AvantLumi => modeOf r.2 = modeOf w.lumi) rfl rfl)
  · intro now
    exact modeOf_of_settingsOf _ _ (update_frame fx w now).1

/-! ### The brightness governor -/

theorem brightnessAt_le (i : Nat) : brightnessAt i ≤ 255 := by
  unfold brightnessAt brightnessLevels
  rcases i with _ | _ | _ | _ | _ | _ | i <;> simp

theorem approach_cases (a d : Nat) :
    (gap a d ≤ 3 → approach a d = d) ∧
    (a + 3 < d → approach a d = a + 3) ∧
    (d + 3 < a → approach a d = a - 3) ∧
    (min a d ≤ approach a d ∧ approach a d ≤ max a d) ∧
    gap (approach a d) d = gap a d - 3 := by
  unfold approach gap
  simp only [Nat.min_def, Nat.max_def]
  split_ifs <;> omega

theorem desiredBrightness_of_settingsOf (s t : AvantLumi) (h : settingsOf t = settingsOf s) :
    desiredBrightness t = desiredBrightness s := by
  unfold settingsOf at h
  simp only [Prod.mk.injEq] at h
  obtain ⟨_, _, _, _, h5, h6, _, _, _, _, _⟩ := h
  unfold desiredBrightness
  rw [h5, h6]

/-- C24: one firing of the governor.  With desired = enabled ?
brightnessLevels[level] : 0 over the table {0,26,64,128,192,255}, the new
`actualBrightness` is desired when the two are at most 3 apart, and otherwise
`actual + 3` or `actual - 3` in the direction of desired; it lies between the old
value and desired (no overshoot) and stays within 0..255 (no wrap). -/
theorem governor_step (s : AvantLumi) (now : Nat)
    (h : elapsed now s.lastBrightnessUpdate ≥ 20) :
    brightnessLevels = [0, 26, 64, 128, 192, 255] ∧
    desiredBrightness s
      = (if s.ledEnabled then brightnessLevels.getD s.currentBrightnessLevel 0 else 0) ∧
    (updateBrightness s now).targetBrightness = desiredBrightness s ∧
    (gap s.actualBrightness (desiredBrightness s) ≤ 3 →
      (updateBrightness s now).actualBrightness = desiredBrightness s) ∧
    (s.actualBrightness + 3 < desiredBrightness s →
      (updateBrightness s now).actualBrightness = s.actualBrightness + 3) ∧
    (desiredBrightness s + 3 < s.actualBrightness →
      (updateBrightness s now).actualBrightness = s.actualBrightness - 3) ∧
    (min s.actualBrightness (desiredBrightness s) ≤ (updateBrightness s now).actualBrightness ∧
      (updateBrightness s now).actualBrightness
        ≤ max s.actualBrightness (desiredBrightness s)) ∧
    (s.actualBrightness ≤ 255 → (updateBrightness s now).actualBrightness ≤ 255) := by
  obtain ⟨_, _, _, _, ht, ha⟩ := updateBrightness_of_gate s now h
  obtain ⟨c1, c2, c3, c4, _⟩ := approach_cases s.actualBrightness (desiredBrightness s)
  rw [ha]
  refine ⟨rfl, rfl, ht, c1, c2, c3, c4, ?_⟩
  intro hle
  have hd : desiredBrightness s ≤ 255 := by
    unfold desiredBrightness
    split_ifs
    · exact brightnessAt_le _
    · exact Nat.zero_le _
  have := c4.2
  simp only [Nat.max_def] at this
  split_ifs at this <;> omega

/-- C24, evaluated: from 128 toward level 5 (255) one firing gives 131; from 128
with the switch off the firing gives 125; from 254 toward 255 it gives 255. -/
theorem governor_step_witness :
    (updateBrightness (setBright (ctor sampleStock 2 8) 5).2 20).actualBrightness = 128 + 3 ∧
    (updateBrightness (setSwitchBool (ctor sampleStock 2 8) false).2 20).actualBrightness
      = 128 - 3 ∧
    (updateBrightness
      { (setBright (ctor sampleStock 2 8) 5).2 with actualBrightness := 254 } 20).actualBrightness
      = desiredBrightness { (setBright (ctor sampleStock 2 8) 5).2 with actualBrightness := 254 } ∧
    (updateBrightness (ctor sampleStock 2 8) 20).actualBrightness ≤ 255 :=
  ⟨(governor_step (setBright (ctor sampleStock 2 8) 5).2 20 (by decide)).2.2.2.2.1 (by decide),
   (governor_step (setSwitchBool (ctor sampleStock 2 8) false).2 20
      (by decide)).2.2.2.2.2.1 (by decide),
   (governor_step { (setBright (ctor sampleStock 2 8) 5).2 with actualBrightness := 254 } 20
      (by decide)).2.2.2.1 (by decide),
   (governor_step (ctor sampleStock 2 8) 20 (by decide)).2.2.2.2.2.2.2 (by decide)⟩

theorem update_settled (fx : FastLEDFns) (w : Sketch) (now : Nat)
    (h : w.lumi.actualBrightness = desiredBrightness w.lumi) :
    (update fx w now).lumi.actualBrightness = w.lumi.actualBrightness ∧
    desiredBrightness (update fx w now).lumi = desiredBrightness w.lumi := by
  obtain ⟨f1, _, f3, _, _⟩ := update_frame fx w now
  refine ⟨?_, desiredBrightness_of_settingsOf _ _ f1⟩
  rw [f3]
  by_cases hg : elapsed now w.lumi.lastBrightnessUpdate ≥ 20
  · rw [(updateBrightness_of_gate w.lumi now hg).2.2.2.2.2]
    have := (approach_cases w.lumi.actualBrightness (desiredBrightness w.lumi)).1
    rw [this (by unfold gap; omega)]
    exact h.symm
  · rw [updateBrightness_of_not_gate w.lumi now hg]

/-- C25: governor idempotence.  When `actualBrightness` equals the desired
brightness (enabled ? brightnessLevels[level] : 0), any number of `update()`
calls at any times, with no setter call in between, leave `actualBrightness`
unchanged. -/
theorem governor_idempotent (fx : FastLEDFns) (times : List Nat) :
    ∀ w : Sketch, w.lumi.actualBrightness = desiredBrightness w.lumi →
      (runUpdates fx w times).lumi.actualBrightness = w.lumi.actualBrightness := by
  induction times with
  | nil => intro w _; rfl
  | cons now rest ih =>
    intro w h
    obtain ⟨h1, h2⟩ := update_settled fx w now h
    have := ih (update fx w now) (by rw [h1, h2]; exact h)
    exact this.trans h1

/-- C25, evaluated: a fresh controller (actual 128 = level 3) after `update()`
calls at 20, 45, 5000 and 5001 ms. -/
theorem governor_idempotent_witness :
    (runUpdates sampleFns (boot sampleStock 2 8 erasedEEPROM)
      [20, 45, 5000, 5001]).lumi.actualBrightness
      = (boot sampleStock 2 8 erasedEEPROM).lumi.actualBrightness :=
  governor_idempotent sampleFns [20, 45, 5000, 5001] (boot sampleStock 2 8 erasedEEPROM)
    (by decide)

theorem runGovernor_gap (times : List Nat) :
    ∀ s : AvantLumi, allFire s times = true →
      gap (runGovernor s times).actualBrightness (desiredBrightness s)
        = gap s.actualBrightness (desiredBrightness s) - 3 * times.length ∧
      desiredBrightness (runGovernor s times) = desiredBrightness s := by
  induction times with
  | nil => intro s _; exact ⟨rfl, rfl⟩
  | cons now rest ih =>
    intro s h
    unfold allFire at h
    simp only [Bool.and_eq_true, decide_eq_true_eq] at h
    obtain ⟨hg, hrest⟩ := h
    obtain ⟨hset, _, _, _, _, ha⟩ := updateBrightness_of_gate s now hg
    have hd := desiredBrightness_of_settingsOf _ _ hset
    obtain ⟨i1, i2⟩ := ih (updateBrightness s now) hrest
    have hstep := (approach_cases s.actualBrightness (desiredBrightness s)).2.2.2.2
    have hrun : runGovernor s (now :: rest) = runGovernor (updateBrightness s now) rest := rfl
    rw [hrun, i2, hd]
    rw [hd, ha, hstep] at i1
    refine ⟨?_, rfl⟩
    rw [i1, List.length_cons]
    omega

/-- C26: convergence of the governor.  With switch and level fixed, after n
firings from the actual value a toward the desired value d,
`actualBrightness` equals d if and only if n >= ceil(|a - d| / 3) (so it is
reached then and kept afterwards); the full swing from 0 to 255 is complete
after 85 firings and not earlier. -/
theorem governor_convergence (s : AvantLumi) (times : List Nat)
    (h : allFire s times = true) :
    ((runGovernor s times).actualBrightness = desiredBrightness s ↔
      (gap s.actualBrightness (desiredBrightness s) + 2) / 3 ≤ times.length) ∧
    (s.actualBrightness = 0 → desiredBrightness s = 255 →
      ((runGovernor s times).actualBrightness = 255 ↔ 85 ≤ times.length)) := by
  obtain ⟨h1, _⟩ := runGovernor_gap times s h
  unfold gap at h1 ⊢
  refine ⟨⟨?_, ?_⟩, ?_⟩
  · intro he
    rw [he] at h1
    omega
  · intro hn
    omega
  · intro ha hd
    rw [ha, hd] at h1
    constructor
    · intro he
      rw [he] at h1
      omega
    · intro hn
      omega

/-- C26, evaluated: the full swing from 0 to 255 (level 5) with firings every
20 ms is complete after 85 firings and not after 84. -/
theorem governor_convergence_witness :
    (runGovernor { (setBright (ctor sampleStock 2 8) 5).2 with actualBrightness := 0 }
      ((List.range 85).map (fun k => 20 * (k + 1)))).actualBrightness = 255 ∧
    (runGovernor { (setBright (ctor sampleStock 2 8) 5).2 with actualBrightness := 0 }
      ((List.range 84).map (fun k => 20 * (k + 1)))).actualBrightness ≠ 255 :=
  ⟨(governor_convergence
      { (setBright (ctor sampleStock 2 8) 5).2 with actualBrightness := 0 }
      ((List.range 85).map (fun k => 20 * (k + 1))) (by decide)).1.mpr (by decide),
   fun h => absurd ((governor_convergence
      { (setBright (ctor sampleStock 2 8) 5).2 with actualBrightness := 0 }
      ((List.range 84).map (fun k => 20 * (k + 1))) (by decide)).1.mp h) (by decide)⟩

/-- C27: no public operation moves `actualBrightness` by more than 3.  Every
setter, `saveConfig`, `loadConfig` (on any store content), `checkConfig` and a
change of the store leave it as it is, and one `update()` call, whatever the
time since the previous one, performs at most one governor step. -/
theorem actualBrightness_step_bound (fl : FastLEDPalettes) (fx : FastLEDFns) (w : Sketch)
    (op : Op) :
    (op.run fl fx w).lumi.actualBrightness ≤ w.lumi.actualBrightness + 3 ∧
    w.lumi.actualBrightness ≤ (op.run fl fx w).lumi.actualBrightness + 3 := by
  have same : ∀ a b : Nat, a = b → a ≤ b + 3 ∧ b ≤ a + 3 := by
    intro a b hab; omega
  cases op with
  | setter c => exact same _ _ (Setter.run_actualBrightness fl w.lumi c)
  | update now =>
    show (AvantLumi.update fx w now).lumi.actualBrightness ≤ w.lumi.actualBrightness + 3 ∧
      w.lumi.actualBrightness ≤ (AvantLumi.update fx w now).lumi.actualBrightness + 3
    rw [(update_frame fx w now).2.2.1]
    by_cases hg : elapsed now w.lumi.lastBrightnessUpdate ≥ 20
    · rw [(updateBrightness_of_gate w.lumi now hg).2.2.2.2.2]
      have := (approach_cases w.lumi.actualBrightness (desiredBrightness w.lumi)).2.2.2.1
      have h5 := (approach_cases w.lumi.actualBrightness (desiredBrightness w.lumi)).2.2.2.2
      unfold gap at h5
      simp only [Nat.min_def, Nat.max_def] at this
      split_ifs at this <;> omega
    · rw [updateBrightness_of_not_gate w.lumi now hg]
      omega
  | saveConfig => exact same _ _ rfl
  | loadConfig => exact same _ _ (loadConfig_actualBrightness fl w.lumi w.eeprom)
  | checkConfig => exact same _ _ rfl
  | storeContent E => exact same _ _ rfl

/-- C28: the blend parameters follow the fixed table: speed 1 gives (200 ms, 25),
2 gives (100, 50), 3 gives (50, 75), 4 gives (25, 100), 5 gives (10, 150), and
every other input (0 and 6 upwards) gives the level-2 values (100, 50); over
1..5 the interval strictly decreases and the number of changes strictly
increases with the speed. -/
theorem getBlendParameters_table :
    getBlendParameters 1 = (200, 25) ∧
    getBlendParameters 2 = (100, 50) ∧
    getBlendParameters 3 = (50, 75) ∧
    getBlendParameters 4 = (25, 100) ∧
    getBlendParameters 5 = (10, 150) ∧
    (∀ n, n = 0 ∨ 6 ≤ n → getBlendParameters n = (100, 50)) ∧
    (∀ a b, 1 ≤ a → a < b → b ≤ 5 →
      (getBlendParameters b).1 < (getBlendParameters a).1 ∧
      (getBlendParameters a).2 < (getBlendParameters b).2) := by
  refine ⟨rfl, rfl, rfl, rfl, rfl, ?_, ?_⟩
  · intro n hn
    unfold getBlendParameters
    split <;> first | rfl | omega
  · intro a b h1 hab hb
    have ha : a = 1 ∨ a = 2 ∨ a = 3 ∨ a = 4 := by omega
    have hb2 : b = 2 ∨ b = 3 ∨ b = 4 ∨ b = 5 := by omega
    rcases ha with rfl | rfl | rfl | rfl <;> rcases hb2 with rfl | rfl | rfl | rfl <;>
      first | omega | decide

/-- C28, evaluated: the inputs 0 and 9 fall back to (100, 50), and speed 4 is
faster than speed 2 in both components. -/
theorem getBlendParameters_table_witness :
    getBlendParameters 0 = (100, 50) ∧ getBlendParameters 9 = (100, 50) ∧
    ((getBlendParameters 4).1 < (getBlendParameters 2).1 ∧
      (getBlendParameters 2).2 < (getBlendParameters 4).2) :=
  ⟨getBlendParameters_table.2.2.2.2.2.1 0 (Or.inl rfl),
   getBlendParameters_table.2.2.2.2.2.1 9 (Or.inr (by decide)),
   getBlendParameters_table.2.2.2.2.2.2 2 4 (by decide) (by decide) (by decide)⟩

/-! ### Random regeneration -/

theorem blendStage_random_inputs (w : Sketch) (s : AvantLumi) (now : Nat) :
    (blendStage w s now).rand16seed = w.rand16seed ∧
    (blendStage w s now).lastRandomPalette = w.lastRandomPalette ∧
    (blendStage w s now).lumi.useRandomPalette = s.useRandomPalette ∧
    (blendStage w s now).lumi.useSolidColor = s.useSolidColor ∧
    (blendStage w s now).lumi.targetPalette = s.targetPalette := by
  unfold blendStage
  simp only []
  split_ifs <;> exact ⟨rfl, rfl, rfl, rfl, rfl⟩

theorem randomStage_targetPalette (fx : FastLEDFns) (w : Sketch) (now : Nat) :
    (randomStage fx w now).lumi.targetPalette =
      if elapsed now w.lastRandomPalette ≥ 5000 ∧
          (w.lumi.useRandomPalette = true ∧ w.lumi.useSolidColor = false) then
        fx.paletteOfCHSV4 (randomColours fx.drawPlace w.rand16seed).1.1
          (randomColours fx.drawPlace w.rand16seed).1.2.1
          (randomColours fx.drawPlace w.rand16seed).1.2.2.1
          (randomColours fx.drawPlace w.rand16seed).1.2.2.2
      else w.lumi.targetPalette := by
  unfold randomStage
  by_cases hg : elapsed now w.lastRandomPalette ≥ 5000
  · cases hr : w.lumi.useRandomPalette <;> cases hs : w.lumi.useSolidColor <;>
      simp [hg, hr, hs, generateRandomPalette]
  · simp [hg]

/-- The target gradient after `update()`, in terms of the state before it. -/
theorem update_targetPalette (fx : FastLEDFns) (w : Sketch) (now : Nat) :
    (update fx w now).lumi.targetPalette =
      if elapsed now w.lastRandomPalette ≥ 5000 ∧
          (w.lumi.useRandomPalette = true ∧ w.lumi.useSolidColor = false) then
        fx.paletteOfCHSV4 (randomColours fx.drawPlace w.rand16seed).1.1
          (randomColours fx.drawPlace w.rand16seed).1.2.1
          (randomColours fx.drawPlace w.rand16seed).1.2.2.1
          (randomColours fx.drawPlace w.rand16seed).1.2.2.2
      else w.lumi.targetPalette := by
  rw [update_eq]
  rw [(renderStage_frame fx _ now).2.1, randomStage_targetPalette]
  obtain ⟨b1, b2, b3, b4, b5⟩ := blendStage_random_inputs w (updateBrightness w.lumi now) now
  obtain ⟨u1, u2, _⟩ := updateBrightness_frame w.lumi now
  unfold settingsOf at u1
  simp only [Prod.mk.injEq] at u1
  obtain ⟨_, u12, u13, _⟩ := u1
  rw [b1, b2, b3, b4, b5, u12, u13, u2]

/-- C30: random regeneration is confined to Random mode.  In SolidColor mode or
in Palette mode (`useSolidColor` true, or `useRandomPalette` false) `update()`
leaves `targetPalette` unchanged whatever the time; `targetPalette` changes only
when at least 5000 ms have passed since the previous check and the mode is
Random, and then it is the gradient built by `generateRandomPalette`. -/
theorem random_regeneration_confined (fx : FastLEDFns) (w : Sketch) (now : Nat) :
    (w.lumi.useSolidColor = true ∨ w.lumi.useRandomPalette = false →
      (update fx w now).lumi.targetPalette = w.lumi.targetPalette) ∧
    ((update fx w now).lumi.targetPalette ≠ w.lumi.targetPalette →
      elapsed now w.lastRandomPalette ≥ 5000 ∧
      w.lumi.useRandomPalette = true ∧ w.lumi.useSolidColor = false) ∧
    (elapsed now w.lastRandomPalette ≥ 5000 →
      w.lumi.useRandomPalette = true → w.lumi.useSolidColor = false →
      (update fx w now).lumi.targetPalette
        = (generateRandomPalette fx w.lumi w.rand16seed).1.targetPalette) := by
  rw [update_targetPalette]
  refine ⟨?_, ?_, ?_⟩
  · intro h
    rw [if_neg]
    rintro ⟨_, hr, hs⟩
    rcases h with h | h
    · rw [h] at hs; exact Bool.noConfusion hs
    · rw [h] at hr; exact Bool.noConfusion hr
  · intro h
    by_cases hc : elapsed now w.lastRandomPalette ≥ 5000 ∧
        (w.lumi.useRandomPalette = true ∧ w.lumi.useSolidColor = false)
    · exact hc
    · rw [if_neg hc] at h
      exact absurd rfl h
  · intro hg hr hs
    rw [if_pos ⟨hg, hr, hs⟩]
    rfl

/-- C30, evaluated: at 5000 ms a controller showing a solid colour keeps its
target gradient, a controller in Random mode gets a generated one. -/
theorem random_regeneration_confined_witness :
    (update sampleFns
      { boot sampleStock 2 8 erasedEEPROM with
        lumi := (setRGB (ctor sampleStock 2 8) 10 20 30).2 } 5000).lumi.targetPalette
      = (setRGB (ctor sampleStock 2 8) 10 20 30).2.targetPalette ∧
    (update sampleFns
      { boot sampleStock 2 8 erasedEEPROM with
        lumi := (setPalette sampleStock (ctor sampleStock 2 8) "random".toList).2 }
        5000).lumi.targetPalette
      = (generateRandomPalette sampleFns
          (setPalette sampleStock (ctor sampleStock 2 8) "random".toList).2
          1337).1.targetPalette :=
  ⟨(random_regeneration_confined sampleFns
      { boot sampleStock 2 8 erasedEEPROM with
        lumi := (setRGB (ctor sampleStock 2 8) 10 20 30).2 } 5000).1 (Or.inl (by decide)),
   (random_regeneration_confined sampleFns
      { boot sampleStock 2 8 erasedEEPROM with
        lumi := (setPalette sampleStock (ctor sampleStock 2 8) "random".toList).2 }
      5000).2.2 (by decide) (by decide) (by decide)⟩

/-! ### The status snapshot and the store check -/

/-- C21: `getStatus()` returns the snapshot with switch, bright, fade, the mode
part, power and blend_spd; the mode part is the `rgb` object (with a `color` key
exactly when the solid colour name is not empty) if and only if the controller
is in SolidColor mode, and the `palette` key otherwise; for a freshly
constructed controller the text is exactly the one given. -/
theorem getStatus_snapshot (s : AvantLumi) :
    getStatus s = snapshot s ∧
    (∀ (fl : FastLEDPalettes) (dataPin numLeds : Nat),
      getStatus (ctor fl dataPin numLeds) =
        ("\x7b\"switch\":\"on\",\"bright\":3,\"fade\":\"on\",\"palette\":\"party\"," ++
         "\"power\":\x7b\"v\":5,\"ma\":500\x7d,\"blend_spd\":4\x7d").toList) := by
  constructor
  · unfold getStatus snapshot snapshotMode onOff
    cases s.useSolidColor
    · simp [List.append_assoc]
    · by_cases hn : s.solidColorName = []
      · simp [hn, List.append_assoc]
      · have hl : s.solidColorName.length > 0 := List.length_pos.mpr hn
        simp [hl, hn, List.append_assoc]
  · intro fl dataPin numLeds
    have h : getStatus (ctor fl dataPin numLeds) = getStatus (ctor sampleStock 2 8) :=
      getStatus_congr _ _ rfl rfl rfl rfl rfl rfl rfl rfl rfl rfl
    rw [h]
    decide

theorem saveConfig_fail (s : AvantLumi) (E : EEPROMClass) (hE : ¬ E.commitOk = true) :
    saveConfig s E = (false, E) := by
  unfold saveConfig
  simp only []
  rw [if_neg hE]

/-- C22: `checkConfig()` returns true if and only if the magic value at the
start of the store is `CONFIG_MAGIC`; it leaves the object unchanged; and it
returns true on the store left by any successful `saveConfig()`. -/
theorem checkConfig_magic (s : AvantLumi) (E : EEPROMClass) :
    ((checkConfig s E).1 = true ↔ E.image.magic = CONFIG_MAGIC) ∧
    (checkConfig s E).2 = s ∧
    (∀ t : AvantLumi, (saveConfig t E).1 = true →
      (checkConfig s (saveConfig t E).2).1 = true) := by
  refine ⟨?_, rfl, ?_⟩
  · unfold checkConfig
    simp only [beq_iff_eq]
  · intro t ht
    by_cases hc : E.commitOk = true
    · rw [saveConfig_ok t E hc]
      show (CONFIG_MAGIC == CONFIG_MAGIC) = true
      exact beq_self_eq_true _
    · rw [saveConfig_fail t E hc] at ht
      exact absurd ht Bool.false_ne_true

/-- C22, evaluated: after a save from a fresh controller to an erased store the
check succeeds; on the erased store itself it fails. -/
theorem checkConfig_magic_witness :
    (checkConfig (ctor sampleStock 2 8)
      (saveConfig (ctor sampleStock 2 8) erasedEEPROM).2).1 = true ∧
    (checkConfig (ctor sampleStock 2 8) erasedEEPROM).1 = false :=
  ⟨(checkConfig_magic (ctor sampleStock 2 8) erasedEEPROM).2.2 (ctor sampleStock 2 8)
      (by decide),
   by decide⟩

end AvantLumi

/-! ## Convergence of the palette blend -/

theorem chunk3_flatMap (cs : List CRGB) :
    chunk3 (cs.flatMap (fun c => [c.r, c.g, c.b])) = cs := by
  induction cs with
  | nil => rfl
  | cons c cs ih =>
    have h : (c :: cs).flatMap (fun c => [c.r, c.g, c.b])
        = c.r :: c.g :: c.b :: cs.flatMap (fun c => [c.r, c.g, c.b]) := rfl
    rw [h]
    unfold chunk3
    rw [ih]

theorem length_flatMap_channels (cs : List CRGB) :
    (cs.flatMap (fun c => [c.r, c.g, c.b])).length = 3 * cs.length := by
  induction cs with
  | nil => rfl
  | cons c cs ih =>
    simp only [List.flatMap_cons, List.length_append, List.length_cons, List.length_nil, ih]
    omega

theorem flatMap_chunk3 (k : Nat) :
    ∀ l : List Nat, l.length = 3 * k →
      (chunk3 l).flatMap (fun c => [c.r, c.g, c.b]) = l ∧ (chunk3 l).length = k := by
  induction k with
  | zero =>
    intro l hl
    have : l = [] := List.length_eq_zero.mp (by omega)
    subst this
    exact ⟨rfl, rfl⟩
  | succ k ih =>
    intro l hl
    match l, hl with
    | r :: g :: b :: rest, hl =>
      have hrest : rest.length = 3 * k := by
        simp only [List.length_cons] at hl
        omega
      obtain ⟨h1, h2⟩ := ih rest hrest
      simp only [chunk3, List.flatMap_cons, List.cons_append, List.nil_append, h1,
        List.length_cons, h2, and_self]
    | [], hl => simp at hl
    | [_], hl => simp at hl; omega
    | [_, _], hl => simp at hl; omega

theorem length_channelsOf (p : CRGBPalette16) : (channelsOf p).length = 48 := by
  unfold channelsOf
  rw [length_flatMap_channels, p.property]

theorem paletteOfChannels_channelsOf (p : CRGBPalette16) :
    paletteOfChannels (channelsOf p) = p := by
  apply Subtype.ext
  unfold paletteOfChannels channelsOf
  simp only [chunk3_flatMap]
  rw [List.take_append_of_le_length (by rw [p.property])]
  exact List.take_of_length_le (by rw [p.property])

theorem channelsOf_paletteOfChannels (l : List Nat) (hl : l.length = 48) :
    channelsOf (paletteOfChannels l) = l := by
  obtain ⟨h1, h2⟩ := flatMap_chunk3 16 l hl
  unfold channelsOf paletteOfChannels
  simp only []
  rw [List.take_append_of_le_length (by rw [h2]), List.take_of_length_le (by rw [h2])]
  exact h1

theorem length_blendChannels (m : Nat) (p1 : List Nat) :
    ∀ (p2 : List Nat) (changes : Nat), (blendChannels m p1 p2 changes).length = p1.length := by
  induction p1 with
  | nil => intro p2 changes; unfold blendChannels; rfl
  | cons c p1 ih =>
    intro p2 changes
    cases p2 with
    | nil => unfold blendChannels; rfl
    | cons t p2 =>
      unfold blendChannels
      simp only []
      split_ifs <;> simp only [List.length_cons, ih]

theorem gapSum_blendChannels (m : Nat) (p1 : List Nat) :
    ∀ (p2 : List Nat) (changes : Nat),
      gapSum (blendChannels m p1 p2 changes) p2 ≤ gapSum p1 p2 ∧
      (0 < gapSum p1 p2 → gapSum (blendChannels m p1 p2 changes) p2 < gapSum p1 p2) := by
  induction p1 with
  | nil => intro p2 changes; unfold blendChannels; simp [gapSum]
  | cons c p1 ih =>
    intro p2 changes
    cases p2 with
    | nil => unfold blendChannels; simp [gapSum]
    | cons t p2 =>
      unfold blendChannels
      simp only []
      have i0 := ih p2 changes
      have i1 := ih p2 (changes + 1)
      split_ifs <;> simp only [gapSum] <;> omega

theorem eq_of_gapSum_zero (p1 : List Nat) :
    ∀ p2 : List Nat, p1.length = p2.length → gapSum p1 p2 = 0 → p1 = p2 := by
  induction p1 with
  | nil =>
    intro p2 hl _
    exact (List.length_eq_zero.mp hl.symm).symm
  | cons c p1 ih =>
    intro p2 hl hg
    cases p2 with
    | nil => simp at hl
    | cons t p2 =>
      simp only [gapSum] at hg
      simp only [List.length_cons, Nat.add_right_cancel_iff] at hl
      have hct : c = t := by omega
      rw [hct, ih p2 hl (by omega)]

theorem gapSum_self (p : List Nat) : gapSum p p = 0 := by
  induction p with
  | nil => rfl
  | cons c p ih => simp only [gapSum, ih]; omega

theorem channelsOf_nblend (current target : CRGBPalette16) (m : Nat) :
    channelsOf (nblendPaletteTowardPalette current target m)
      = blendChannels m (channelsOf current) (channelsOf target) 0 := by
  unfold nblendPaletteTowardPalette
  apply channelsOf_paletteOfChannels
  rw [length_blendChannels, length_channelsOf]

theorem gapSum_iterate (target : CRGBPalette16) (m : Nat) (n : Nat) :
    ∀ current : CRGBPalette16,
      gapSum (channelsOf ((fun c => nblendPaletteTowardPalette c target m)^[n] current))
        (channelsOf target)
        ≤ gapSum (channelsOf current) (channelsOf target) - n := by
  induction n with
  | zero => intro current; exact Nat.le_refl _
  | succ n ih =>
    intro current
    rw [Function.iterate_succ_apply]
    have h1 := ih (nblendPaletteTowardPalette current target m)
    rw [channelsOf_nblend] at h1
    obtain ⟨h2, h3⟩ := gapSum_blendChannels m (channelsOf current) (channelsOf target) 0
    omega

namespace AvantLumi

/-- C29: blend convergence.  For every current gradient, every fixed target
gradient and every blend speed, after N = (sum of the channel distances)
firings of the blend step, and after any larger number, `currentPalette` equals
`targetPalette` in every channel of every stop; a further firing then changes
nothing. -/
theorem blend_converges (current target : CRGBPalette16) (speed : Nat) :
    (∀ n, gapSum (channelsOf current) (channelsOf target) ≤ n →
      (fun c => nblendPaletteTowardPalette c target (getBlendParameters speed).2)^[n] current
        = target) ∧
    nblendPaletteTowardPalette target target (getBlendParameters speed).2 = target := by
  refine ⟨?_, ?_⟩
  · intro n hn
    have h := gapSum_iterate target (getBlendParameters speed).2 n current
    have h0 : gapSum (channelsOf ((fun c =>
        nblendPaletteTowardPalette c target (getBlendParameters speed).2)^[n] current))
        (channelsOf target) = 0 := by omega
    have heq := eq_of_gapSum_zero _ _ (by rw [length_channelsOf, length_channelsOf]) h0
    rw [← paletteOfChannels_channelsOf ((fun c =>
        nblendPaletteTowardPalette c target (getBlendParameters speed).2)^[n] current),
      heq, paletteOfChannels_channelsOf]
  · have h := gapSum_blendChannels (getBlendParameters speed).2 (channelsOf target)
      (channelsOf target) 0
    rw [gapSum_self] at h
    have h0 : gapSum (blendChannels (getBlendParameters speed).2 (channelsOf target)
        (channelsOf target) 0) (channelsOf target) = 0 := by omega
    have heq := eq_of_gapSum_zero _ _
      (by rw [length_blendChannels]) h0
    rw [← paletteOfChannels_channelsOf
      (nblendPaletteTowardPalette target target (getBlendParameters speed).2),
      channelsOf_nblend, heq, paletteOfChannels_channelsOf]

/-- C29, evaluated at speed 1: from the flat gradient (3, 0, 0) toward black
(a channel distance of 48) the current gradient equals the target after 48
firings. -/
theorem blend_converges_witness :
    (fun c => nblendPaletteTowardPalette c (createSolidPalette ⟨0, 0, 0⟩)
      (getBlendParameters 1).2)^[48] (createSolidPalette ⟨3, 0, 0⟩)
      = createSolidPalette ⟨0, 0, 0⟩ :=
  (blend_converges (createSolidPalette ⟨3, 0, 0⟩) (createSolidPalette ⟨0, 0, 0⟩) 1).1 48
    (by decide)

/-! ### The time gate of the governor -/

theorem elapsed_wrap (last d : Nat) (hd : d < 4294967296) :
    elapsed ((last + d) % 4294967296) (last % 4294967296) = d := by
  unfold elapsed
  omega

/-- C31: the governor is gated at 20 ms.  `updateBrightness` at time `now`
changes `targetBrightness`, `actualBrightness` or `lastBrightnessUpdate` only
when `(now - lastBrightnessUpdate) mod 2^32 >= 20`; when it fires it records
`now`; and as the difference is taken modulo 2^32, a counter that has advanced
by d < 2^32 ms since the recorded time yields d, also across a wrap-around. -/
theorem governor_time_gate (s : AvantLumi) (now : Nat) :
    (s.lastBrightnessUpdate < 4294967296 → now < 4294967296 →
      (elapsed now s.lastBrightnessUpdate : Int)
        = ((now : Int) - (s.lastBrightnessUpdate : Int)) % 4294967296) ∧
    (¬ elapsed now s.lastBrightnessUpdate ≥ 20 → updateBrightness s now = s) ∧
    ((updateBrightness s now).targetBrightness ≠ s.targetBrightness ∨
      (updateBrightness s now).actualBrightness ≠ s.actualBrightness ∨
      (updateBrightness s now).lastBrightnessUpdate ≠ s.lastBrightnessUpdate →
      elapsed now s.lastBrightnessUpdate ≥ 20) ∧
    (elapsed now s.lastBrightnessUpdate ≥ 20 →
      (updateBrightness s now).lastBrightnessUpdate = now) ∧
    (∀ d, d < 4294967296 →
      elapsed ((s.lastBrightnessUpdate + d) % 4294967296)
        (s.lastBrightnessUpdate % 4294967296) = d) := by
  refine ⟨?_, updateBrightness_of_not_gate s now, ?_, ?_, fun d hd => elapsed_wrap _ d hd⟩
  · intro h1 h2
    unfold elapsed
    omega
  · intro h
    by_cases hg : elapsed now s.lastBrightnessUpdate ≥ 20
    · exact hg
    · rw [updateBrightness_of_not_gate s now hg] at h
      rcases h with h | h | h <;> exact absurd rfl h
  · intro hg
    exact (updateBrightness_of_gate s now hg).2.2.2.1

/-- C31, evaluated: on a fresh controller a call at 19 ms does nothing and a call
at 20 ms records 20; with the recorded time 4294967290 a call at counter value
18 (24 ms later, after the wrap-around) sees 24 elapsed milliseconds. -/
theorem governor_time_gate_witness :
    updateBrightness (ctor sampleStock 2 8) 19 = ctor sampleStock 2 8 ∧
    (updateBrightness (ctor sampleStock 2 8) 20).lastBrightnessUpdate = 20 ∧
    elapsed
      (((updateBrightness (ctor sampleStock 2 8) 4294967290).lastBrightnessUpdate + 24)
        % 4294967296)
      ((updateBrightness (ctor sampleStock 2 8) 4294967290).lastBrightnessUpdate
        % 4294967296) = 24 :=
  ⟨(governor_time_gate (ctor sampleStock 2 8) 19).2.1 (by decide),
   (governor_time_gate (ctor sampleStock 2 8) 20).2.2.2.1 (by decide),
   (governor_time_gate (updateBrightness (ctor sampleStock 2 8) 4294967290) 0).2.2.2.2 24
      (by decide)⟩

/-! ### The random generator -/

theorem random8_lt (rand16seed : Nat) : (random8 rand16seed).1 < 256 := by
  unfold random8
  exact Nat.mod_lt _ (by decide)

theorem random8_range_snd (rand16seed min lim : Nat) :
    (random8_range rand16seed min lim).2 = nextSeed rand16seed := rfl

/-- The value of `random8(min, lim)` lies in `min .. lim - 1`. -/
theorem random8_range_bounds (rand16seed min lim : Nat) (h1 : min < lim) (h2 : lim ≤ 255) :
    min ≤ (random8_range rand16seed min lim).1 ∧ (random8_range rand16seed min lim).1 < lim := by
  have hx := random8_lt rand16seed
  have hdelta : (lim + 256 - min) % 256 = lim - min := by omega
  have hr : (random8 rand16seed).1 * (lim - min) / 256 < lim - min := by
    apply Nat.div_lt_of_lt_mul
    exact Nat.mul_lt_mul_of_pos_right hx (Nat.sub_pos_of_lt h1)
  unfold random8_range random8_lim
  simp only [hdelta]
  generalize (random8 rand16seed).1 * (lim - min) / 256 = r at hr ⊢
  omega

theorem random8_lim_lt (rand16seed lim : Nat) : (random8_lim rand16seed lim).1 < 256 := by
  unfold random8_lim
  exact Nat.mod_lt _ (by decide)

/-- C35: for every generator state, and for every order in which the compiled
program evaluates the eight argument draws, each of the four HSV colours from
which `generateRandomPalette` builds the target gradient has a hue that is the
base hue plus less than 32 (modulo 256), a saturation in [192,255] (255, 255,
192, 255) and a value in [128,255]. -/
theorem randomColours_ranges (place : Nat → Nat) (rand16seed : Nat) :
    (((randomColours place rand16seed).1.1.h + 256 - (random8_lim rand16seed 255).1 % 256) % 256
        < 32 ∧
      (192 ≤ (randomColours place rand16seed).1.1.s ∧
        (randomColours place rand16seed).1.1.s ≤ 255) ∧
      (128 ≤ (randomColours place rand16seed).1.1.v ∧
        (randomColours place rand16seed).1.1.v ≤ 255)) ∧
    (((randomColours place rand16seed).1.2.1.h + 256 - (random8_lim rand16seed 255).1 % 256) % 256
        < 32 ∧
      (192 ≤ (randomColours place rand16seed).1.2.1.s ∧
        (randomColours place rand16seed).1.2.1.s ≤ 255) ∧
      (128 ≤ (randomColours place rand16seed).1.2.1.v ∧
        (randomColours place rand16seed).1.2.1.v ≤ 255)) ∧
    (((randomColours place rand16seed).1.2.2.1.h + 256 - (random8_lim rand16seed 255).1 % 256)
        % 256 < 32 ∧
      (192 ≤ (randomColours place rand16seed).1.2.2.1.s ∧
        (randomColours place rand16seed).1.2.2.1.s ≤ 255) ∧
      (128 ≤ (randomColours place rand16seed).1.2.2.1.v ∧
        (randomColours place rand16seed).1.2.2.1.v ≤ 255)) ∧
    (((randomColours place rand16seed).1.2.2.2.h + 256 - (random8_lim rand16seed 255).1 % 256)
        % 256 < 32 ∧
      (192 ≤ (randomColours place rand16seed).1.2.2.2.s ∧
        (randomColours place rand16seed).1.2.2.2.s ≤ 255) ∧
      (128 ≤ (randomColours place rand16seed).1.2.2.2.v ∧
        (randomColours place rand16seed).1.2.2.2.v ≤ 255)) ∧
    (∀ s : AvantLumi, ∀ fx : FastLEDFns,
      (generateRandomPalette fx s rand16seed).1.targetPalette =
        fx.paletteOfCHSV4 (randomColours fx.drawPlace rand16seed).1.1
          (randomColours fx.drawPlace rand16seed).1.2.1
          (randomColours fx.drawPlace rand16seed).1.2.2.1
          (randomColours fx.drawPlace rand16seed).1.2.2.2) := by
  have hb := random8_lim_lt rand16seed 255
  have hh : ∀ sd : Nat, (random8_range sd 0 32).1 < 32 := fun sd =>
    (random8_range_bounds sd 0 32 (by decide) (by decide)).2
  have hv : ∀ sd : Nat, 128 ≤ (random8_range sd 128 255).1 ∧ (random8_range sd 128 255).1 < 255 :=
    fun sd => random8_range_bounds sd 128 255 (by decide) (by decide)
  have h1 := hh (nextSeed^[place 0] (random8_lim rand16seed 255).2)
  have v1 := hv (nextSeed^[place 1] (random8_lim rand16seed 255).2)
  have h2 := hh (nextSeed^[place 2] (random8_lim rand16seed 255).2)
  have v2 := hv (nextSeed^[place 3] (random8_lim rand16seed 255).2)
  have h3 := hh (nextSeed^[place 4] (random8_lim rand16seed 255).2)
  have v3 := hv (nextSeed^[place 5] (random8_lim rand16seed 255).2)
  have h4 := hh (nextSeed^[place 6] (random8_lim rand16seed 255).2)
  have v4 := hv (nextSeed^[place 7] (random8_lim rand16seed 255).2)
  unfold randomColours
  simp only []
  refine ⟨⟨?_, ⟨?_, ?_⟩, ?_⟩, ⟨?_, ⟨?_, ?_⟩, ?_⟩, ⟨?_, ⟨?_, ?_⟩, ?_⟩, ⟨?_, ⟨?_, ?_⟩, ?_⟩,
    fun _ _ => rfl⟩ <;> omega

/-! ### The renderer -/

/-- The pixel loop, pixel by pixel: pixel `i + k` samples the palette at
`((i + k) * 20) mod 256` with the fader drawn from the `k`-th generator state. -/
theorem renderPixels_eq (fx : FastLEDFns) (s : AvantLumi) (now : Nat) (n : Nat) :
    ∀ i rand16seed : Nat,
      (renderPixels fx s now n i rand16seed).1 =
        (List.range n).map (fun k =>
          fx.ColorFromPalette s.currentPalette (((i + k) * 20) % 256)
            (if s.fadeinEnabled then
              fx.sin8 ((now / (random8_range (nextSeed^[k] rand16seed) 10 20).1) % 256)
             else 255)
            s.currentBlending) := by
  induction n with
  | zero => intro i rand16seed; rfl
  | succ n ih =>
    intro i rand16seed
    rw [List.range_succ_eq_map, List.map_cons, List.map_map]
    unfold renderPixels
    simp only []
    cases hf : s.fadeinEnabled with
    | true =>
      simp only [if_true]
      rw [ih (i + 1) (random8_range rand16seed 10 20).2]
      simp only [hf, if_true, Nat.add_zero, Function.iterate_zero, id_eq, List.cons.injEq,
        true_and, random8_range_snd]
      apply List.map_congr_left
      intro k _
      simp only [Function.comp, Function.iterate_succ_apply]
      have : i + 1 + k = i + (k + 1) := by omega
      rw [this]
    | false =>
      simp only [Bool.false_eq_true, if_false]
      rw [ih (i + 1) rand16seed]
      simp only [hf, Bool.false_eq_true, if_false, Nat.add_zero, List.cons.injEq, true_and]
      apply List.map_congr_left
      intro k _
      simp only [Function.comp]
      have : i + 1 + k = i + (k + 1) := by omega
      rw [this]

/-- The frame written by `updateLEDs`, pixel by pixel, and the generator state
it leaves. -/
theorem updateLEDs_eq (fx : FastLEDFns) (s : AvantLumi) (rand16seed now : Nat) :
    (updateLEDs fx s rand16seed now).1.leds =
      (List.range s.numLeds).map (fun i =>
        fx.ColorFromPalette s.currentPalette ((i * 20) % 256)
          (if s.fadeinEnabled then fx.sin8 ((now / pixelPeriod i) % 256) else 255)
          s.currentBlending) ∧
    (updateLEDs fx s rand16seed now).2 = random16_set_seed now := by
  refine ⟨?_, rfl⟩
  unfold updateLEDs
  simp only []
  rw [renderPixels_eq]
  apply List.map_congr_left
  intro k _
  simp only [Nat.zero_add, pixelPeriod]

theorem pixelPeriod_bounds (i : Nat) : 10 ≤ pixelPeriod i ∧ pixelPeriod i < 20 :=
  random8_range_bounds _ 10 20 (by decide) (by decide)

/-- C33: the fade pattern is deterministic.  The period of pixel i is
`pixelPeriod i`, a function of i alone (the i-th draw after the reseed to 535);
so two calls of the renderer with the same time, palette, LED count, fade
setting and blend mode (the blend mode is LINEARBLEND throughout) produce the
same pixel array, whatever the generator state before each call, and both
leave the generator at the time-derived seed. -/
theorem renderer_deterministic (fx : FastLEDFns) (s t : AvantLumi) (seedS seedT now : Nat)
    (hp : s.currentPalette = t.currentPalette) (hn : s.numLeds = t.numLeds)
    (hf : s.fadeinEnabled = t.fadeinEnabled) (hb : s.currentBlending = t.currentBlending) :
    (updateLEDs fx s seedS now).1.leds = (updateLEDs fx t seedT now).1.leds ∧
    (updateLEDs fx s seedS now).2 = (updateLEDs fx t seedT now).2 ∧
    (updateLEDs fx s seedS now).1.leds =
      (List.range s.numLeds).map (fun i =>
        fx.ColorFromPalette s.currentPalette ((i * 20) % 256)
          (if s.fadeinEnabled then fx.sin8 ((now / pixelPeriod i) % 256) else 255)
          s.currentBlending) := by
  obtain ⟨h1, h2⟩ := updateLEDs_eq fx s seedS now
  obtain ⟨h3, h4⟩ := updateLEDs_eq fx t seedT now
  refine ⟨?_, h2.trans h4.symm, h1⟩
  rw [h1, h3, hp, hn, hf, hb]

/-- C33, evaluated: a fresh controller rendered at 1000 ms from the generator
states 1 and 40000 gives the same eight pixels. -/
theorem renderer_deterministic_witness :
    (updateLEDs sampleFns (ctor sampleStock 2 8) 1 1000).1.leds
      = (updateLEDs sampleFns (ctor sampleStock 2 8) 40000 1000).1.leds :=
  (renderer_deterministic sampleFns (ctor sampleStock 2 8) (ctor sampleStock 2 8) 1 40000 1000
    rfl rfl rfl rfl).1

/-- C36: in the renderer the period by which the time is divided when fade is
enabled lies in [10,20] for every pixel and every generator state (so it is
never zero); pixel i samples the palette at `(i * 20) mod 256`, with the
multiplier `sin8(time / period)` when fade is enabled and 255 when it is
disabled. -/
theorem renderer_periods_and_positions (fx : FastLEDFns) (s : AvantLumi)
    (rand16seed now : Nat) :
    (∀ sd : Nat, 10 ≤ (random8_range sd 10 20).1 ∧ (random8_range sd 10 20).1 ≤ 20 ∧
      (random8_range sd 10 20).1 ≠ 0) ∧
    (∀ i : Nat, 10 ≤ pixelPeriod i ∧ pixelPeriod i ≤ 20 ∧ pixelPeriod i ≠ 0) ∧
    (updateLEDs fx s rand16seed now).1.leds =
      (List.range s.numLeds).map (fun i =>
        fx.ColorFromPalette s.currentPalette ((i * 20) % 256)
          (if s.fadeinEnabled then fx.sin8 ((now / pixelPeriod i) % 256) else 255)
          s.currentBlending) ∧
    (s.fadeinEnabled = false →
      (updateLEDs fx s rand16seed now).1.leds =
        (List.range s.numLeds).map (fun i =>
          fx.ColorFromPalette s.currentPalette ((i * 20) % 256) 255 s.currentBlending)) := by
  refine ⟨?_, ?_, (updateLEDs_eq fx s rand16seed now).1, ?_⟩
  · intro sd
    have h := random8_range_bounds sd 10 20 (by decide) (by decide)
    omega
  · intro i
    have h := pixelPeriod_bounds i
    omega
  · intro hf
    rw [(updateLEDs_eq fx s rand16seed now).1]
    apply List.map_congr_left
    intro i _
    simp only [hf, Bool.false_eq_true, if_false]

/-- C36, evaluated: with fade switched off every pixel of a fresh controller is
sampled with the multiplier 255 at the positions 0, 20, 40, ... -/
theorem renderer_periods_and_positions_witness :
    (updateLEDs sampleFns (setFadeBool (ctor sampleStock 2 8) false).2 7 1000).1.leds =
      (List.range (setFadeBool (ctor sampleStock 2 8) false).2.numLeds).map (fun i =>
        sampleFns.ColorFromPalette (setFadeBool (ctor sampleStock 2 8) false).2.currentPalette
          ((i * 20) % 256) 255 (setFadeBool (ctor sampleStock 2 8) false).2.currentBlending) :=
  (renderer_periods_and_positions sampleFns (setFadeBool (ctor sampleStock 2 8) false).2
    7 1000).2.2.2 rfl

end AvantLumi

/-! ## One firing of the palette blend -/

namespace AvantLumi

theorem stepChannel_facts (c t : Nat) :
    (min c t ≤ stepChannel c t ∧ stepChannel c t ≤ max c t) ∧
    (stepChannel c t ≤ c + 2 ∧ c ≤ stepChannel c t + 2) ∧
    (c ≠ t → (stepChannel c t - t) + (t - stepChannel c t) < (c - t) + (t - c)) := by
  unfold stepChannel
  simp only [Nat.min_def, Nat.max_def]
  split_ifs <;> omega

/-- One round of the loop of `nblendPaletteTowardPalette`: an equal byte is
kept; a differing byte is moved by `stepChannel` and counted, and the loop
stops when the count reaches `maxChanges`. -/
theorem blendChannels_cons (m c t changes : Nat) (p1 p2 : List Nat) :
    blendChannels m (c :: p1) (t :: p2) changes =
      if c = t then c :: blendChannels m p1 p2 changes
      else if changes + 1 ≥ m then stepChannel c t :: p1
      else stepChannel c t :: blendChannels m p1 p2 (changes + 1) := by
  rw [blendChannels]
  unfold stepChannel
  by_cases h1 : c = t
  · simp only [h1, if_true]
  · by_cases h2 : c < t
    · have h3 : ¬ c + 1 > t := by omega
      simp only [h1, h2, h3, if_true, if_false]
    · have h3 : c > t := by omega
      have h4 : c - 1 - 1 = c - 2 := by omega
      simp only [h1, h2, h3, h4, if_true, if_false]

theorem blendChannels_getD (m : Nat) (p1 : List Nat) :
    ∀ (p2 : List Nat) (changes i : Nat),
      (blendChannels m p1 p2 changes).getD i 0 = p1.getD i 0 ∨
      (blendChannels m p1 p2 changes).getD i 0 = stepChannel (p1.getD i 0) (p2.getD i 0) := by
  induction p1 with
  | nil => intro p2 changes i; left; unfold blendChannels; rfl
  | cons c p1 ih =>
    intro p2 changes i
    cases p2 with
    | nil => left; unfold blendChannels; rfl
    | cons t p2 =>
      rw [blendChannels_cons]
      cases i with
      | zero =>
        split_ifs
        · left; rfl
        · right; rfl
        · right; rfl
      | succ i =>
        split_ifs
        · exact ih p2 changes i
        · left; rfl
        · exact ih p2 (changes + 1) i

theorem blendChannels_all (m : Nat) (p1 : List Nat) :
    ∀ (p2 : List Nat) (changes i : Nat), changes + p1.length ≤ m →
      i < p1.length → i < p2.length →
      (blendChannels m p1 p2 changes).getD i 0 = stepChannel (p1.getD i 0) (p2.getD i 0) := by
  induction p1 with
  | nil => intro p2 changes i _ hi _; simp at hi
  | cons c p1 ih =>
    intro p2 changes i hm hi1 hi2
    cases p2 with
    | nil => simp at hi2
    | cons t p2 =>
      rw [blendChannels_cons]
      simp only [List.length_cons] at hm hi1 hi2
      cases i with
      | zero =>
        split_ifs with h1 h2
        · show c = stepChannel c t
          unfold stepChannel
          rw [if_pos h1]
        · rfl
        · rfl
      | succ i =>
        split_ifs with h1 h2
        · exact ih p2 changes i (by omega) (by omega) (by omega)
        · omega
        · exact ih p2 (changes + 1) i (by omega) (by omega) (by omega)

/-- The loop of `nblendPaletteTowardPalette`, channel by channel: the byte at
position `i` is moved by `stepChannel` when fewer than `m` bytes have been
changed before it, and is left as it was otherwise. -/
theorem blendChannels_exact (m : Nat) (p1 : List Nat) :
    ∀ (p2 : List Nat) (changes i : Nat), changes < m → i < p1.length → i < p2.length →
      (blendChannels m p1 p2 changes).getD i 0 =
        if changes + differingBefore p1 p2 i < m then stepChannel (p1.getD i 0) (p2.getD i 0)
        else p1.getD i 0 := by
  induction p1 with
  | nil => intro p2 changes i _ hi _; simp at hi
  | cons c p1 ih =>
    intro p2 changes i hm hi1 hi2
    cases p2 with
    | nil => simp at hi2
    | cons t p2 =>
      rw [blendChannels_cons]
      simp only [List.length_cons] at hi1 hi2
      cases i with
      | zero =>
        have h0 : changes + differingBefore (c :: p1) (t :: p2) 0 < m := by
          unfold differingBefore
          omega
        rw [if_pos h0]
        split_ifs with h1 h2
        · show c = stepChannel c t
          unfold stepChannel
          rw [if_pos h1]
        · rfl
        · rfl
      | succ i =>
        have hd : differingBefore (c :: p1) (t :: p2) (i + 1)
            = (if c = t then 0 else 1) + differingBefore p1 p2 i := by
          rw [differingBefore]
        rw [hd]
        by_cases h1 : c = t
        · rw [if_pos h1, if_pos h1]
          have e := ih p2 changes i hm (by omega) (by omega)
          simp only [List.getD_cons_succ, Nat.zero_add]
          exact e
        · rw [if_neg h1, if_neg h1]
          by_cases h2 : changes + 1 ≥ m
          · rw [if_pos h2, if_neg (by omega)]
            rfl
          · rw [if_neg h2]
            have e := ih p2 (changes + 1) i (by omega) (by omega) (by omega)
            simp only [List.getD_cons_succ]
            rw [e]
            have ha : changes + 1 + differingBefore p1 p2 i
                = changes + (1 + differingBefore p1 p2 i) := by omega
            rw [ha]

theorem differingBefore_le (p1 : List Nat) :
    ∀ (p2 : List Nat) (i : Nat), differingBefore p1 p2 i ≤ i := by
  induction p1 with
  | nil => intro p2 i; unfold differingBefore; omega
  | cons c p1 ih =>
    intro p2 i
    cases p2 with
    | nil => unfold differingBefore; omega
    | cons t p2 =>
      cases i with
      | zero => unfold differingBefore; omega
      | succ i =>
        rw [differingBefore]
        have := ih p2 i
        split_ifs <;> omega

theorem maxChanges_covers_all (speed : Nat) (h : speed ≠ 1) :
    48 ≤ (getBlendParameters speed).2 := by
  unfold getBlendParameters
  split <;> omega

theorem maxChanges_ge_two (speed : Nat) : 2 ≤ (getBlendParameters speed).2 := by
  unfold getBlendParameters
  split <;> decide

theorem update_currentPalette (fx : FastLEDFns) (w : Sketch) (now : Nat) :
    (update fx w now).lumi.currentPalette =
      if elapsed now w.lastPaletteBlend ≥ (getBlendParameters w.lumi.blendSpeed).1 then
        nblendPaletteTowardPalette w.lumi.currentPalette w.lumi.targetPalette
          (getBlendParameters w.lumi.blendSpeed).2
      else w.lumi.currentPalette := by
  rw [update_eq, (renderStage_frame fx _ now).2.2.1, (randomStage_frame fx _ now).2.2.2.2.1]
  obtain ⟨u1, u2, u3⟩ := updateBrightness_frame w.lumi now
  unfold settingsOf at u1
  simp only [Prod.mk.injEq] at u1
  obtain ⟨_, _, _, _, _, _, _, _, u9, _, _⟩ := u1
  have hb : (blendStage w (updateBrightness w.lumi now) now).lumi.currentPalette =
      if elapsed now w.lastPaletteBlend
          ≥ (getBlendParameters (updateBrightness w.lumi now).blendSpeed).1 then
        nblendPaletteTowardPalette (updateBrightness w.lumi now).currentPalette
          (updateBrightness w.lumi now).targetPalette
          (getBlendParameters (updateBrightness w.lumi now).blendSpeed).2
      else (updateBrightness w.lumi now).currentPalette := by
    unfold blendStage
    simp only []
    split_ifs <;> rfl
  rw [hb, u9, u2, u3]

/-- C32, as stated, fails at blend speed 1: from the flat gradient (10,10,10)
toward black all 16 stops differ from the target, the firing changes 25 channel
bytes (stops 0..7 and one byte of stop 8), and stop 15 is left as it was. -/
theorem blend_speed_one_counterexample :
    (getBlendParameters 1).2 = 25 ∧
    (createSolidPalette ⟨10, 10, 10⟩).val.getD 15 CRGB.Black
      ≠ (createSolidPalette ⟨0, 0, 0⟩).val.getD 15 CRGB.Black ∧
    (nblendPaletteTowardPalette (createSolidPalette ⟨10, 10, 10⟩) (createSolidPalette ⟨0, 0, 0⟩)
      (getBlendParameters 1).2).val.getD 15 CRGB.Black
      = (createSolidPalette ⟨10, 10, 10⟩).val.getD 15 CRGB.Black ∧
    (nblendPaletteTowardPalette (createSolidPalette ⟨10, 10, 10⟩) (createSolidPalette ⟨0, 0, 0⟩)
      (getBlendParameters 1).2).val.getD 0 CRGB.Black = ⟨8, 8, 8⟩ := by
  decide

/-- C32, amended: a firing of the blend step (`update()` with the blend gate
open) replaces `currentPalette` by `nblendPaletteTowardPalette(current, target,
maxChanges)`, which walks the 48 channel bytes in memory order.  A channel byte
with fewer than max-changes differing bytes before it is moved toward its
target byte: up by exactly 1 if it is below the target, down to the target if
it is 1 above, down by exactly 2 if it is more than 1 above (and it stays if it
equals the target); a channel byte with max-changes or more differing bytes
before it is left as it was.  Max-changes is 25 at speed 1 and at least 48 at
every other speed, so at every speed other than 1 every differing channel of
every stop moves closer to its target, and at speed 1 exactly the first 25
differing channels are moved (at least one if the gradients differ, so the
total distance drops).  No channel moves by more than 2 (hence by no more than
max-changes) or past its target. -/
theorem blend_step_moves (current target : CRGBPalette16) (speed i : Nat) :
    (min ((channelsOf current).getD i 0) ((channelsOf target).getD i 0)
        ≤ (channelsOf (nblendPaletteTowardPalette current target
            (getBlendParameters speed).2)).getD i 0 ∧
      (channelsOf (nblendPaletteTowardPalette current target
            (getBlendParameters speed).2)).getD i 0
        ≤ max ((channelsOf current).getD i 0) ((channelsOf target).getD i 0)) ∧
    ((channelsOf (nblendPaletteTowardPalette current target
            (getBlendParameters speed).2)).getD i 0 ≤ (channelsOf current).getD i 0 + 2 ∧
      (channelsOf current).getD i 0
        ≤ (channelsOf (nblendPaletteTowardPalette current target
            (getBlendParameters speed).2)).getD i 0 + 2 ∧
      2 ≤ (getBlendParameters speed).2) ∧
    (speed ≠ 1 → i < 48 → (channelsOf current).getD i 0 ≠ (channelsOf target).getD i 0 →
      gap ((channelsOf (nblendPaletteTowardPalette current target
            (getBlendParameters speed).2)).getD i 0) ((channelsOf target).getD i 0)
        < gap ((channelsOf current).getD i 0) ((channelsOf target).getD i 0)) ∧
    (current ≠ target →
      gapSum (channelsOf (nblendPaletteTowardPalette current target
            (getBlendParameters speed).2)) (channelsOf target)
        < gapSum (channelsOf current) (channelsOf target)) ∧
    (∀ (fx : FastLEDFns) (w : Sketch) (now : Nat),
      elapsed now w.lastPaletteBlend ≥ (getBlendParameters w.lumi.blendSpeed).1 →
      (update fx w now).lumi.currentPalette =
        nblendPaletteTowardPalette w.lumi.currentPalette w.lumi.targetPalette
          (getBlendParameters w.lumi.blendSpeed).2) ∧
    (i < 48 →
      differingBefore (channelsOf current) (channelsOf target) i < (getBlendParameters speed).2 →
      ((channelsOf current).getD i 0 < (channelsOf target).getD i 0 →
        (channelsOf (nblendPaletteTowardPalette current target
            (getBlendParameters speed).2)).getD i 0 = (channelsOf current).getD i 0 + 1) ∧
      ((channelsOf current).getD i 0 = (channelsOf target).getD i 0 + 1 →
        (channelsOf (nblendPaletteTowardPalette current target
            (getBlendParameters speed).2)).getD i 0 = (channelsOf target).getD i 0) ∧
      ((channelsOf target).getD i 0 + 1 < (channelsOf current).getD i 0 →
        (channelsOf (nblendPaletteTowardPalette current target
            (getBlendParameters speed).2)).getD i 0 = (channelsOf current).getD i 0 - 2) ∧
      ((channelsOf current).getD i 0 = (channelsOf target).getD i 0 →
        (channelsOf (nblendPaletteTowardPalette current target
            (getBlendParameters speed).2)).getD i 0 = (channelsOf current).getD i 0)) ∧
    (i < 48 →
      (getBlendParameters speed).2 ≤ differingBefore (channelsOf current) (channelsOf target) i →
      (channelsOf (nblendPaletteTowardPalette current target
          (getBlendParameters speed).2)).getD i 0 = (channelsOf current).getD i 0) ∧
    (speed = 1 → (getBlendParameters speed).2 = 25) ∧
    (speed ≠ 1 → i < 48 →
      differingBefore (channelsOf current) (channelsOf target) i
        < (getBlendParameters speed).2) ∧
    (speed ≠ 1 → 48 ≤ (getBlendParameters speed).2) := by
  rw [channelsOf_nblend]
  obtain ⟨s1, s2, s3⟩ := stepChannel_facts ((channelsOf current).getD i 0)
    ((channelsOf target).getD i 0)
  have hm := maxChanges_ge_two speed
  have hex : i < 48 →
      (blendChannels (getBlendParameters speed).2 (channelsOf current) (channelsOf target)
          0).getD i 0 =
        if 0 + differingBefore (channelsOf current) (channelsOf target) i
            < (getBlendParameters speed).2 then
          stepChannel ((channelsOf current).getD i 0) ((channelsOf target).getD i 0)
        else (channelsOf current).getD i 0 := fun hi =>
    blendChannels_exact (getBlendParameters speed).2 (channelsOf current) (channelsOf target)
      0 i (by omega) (by rw [length_channelsOf]; exact hi) (by rw [length_channelsOf]; exact hi)
  refine ⟨?_, ?_, ?_, ?_, ?_, ?_, ?_, ?_, ?_, maxChanges_covers_all speed⟩
  · rcases blendChannels_getD (getBlendParameters speed).2 (channelsOf current)
      (channelsOf target) 0 i with h | h
    · rw [h]; simp only [Nat.min_def, Nat.max_def]; split_ifs <;> omega
    · rw [h]; exact s1
  · rcases blendChannels_getD (getBlendParameters speed).2 (channelsOf current)
      (channelsOf target) 0 i with h | h
    · rw [h]; omega
    · rw [h]; exact ⟨s2.1, s2.2, hm⟩
  · intro hs hi hne
    rw [blendChannels_all (getBlendParameters speed).2 (channelsOf current) (channelsOf target)
      0 i (by rw [length_channelsOf]; have := maxChanges_covers_all speed hs; omega)
      (by rw [length_channelsOf]; exact hi) (by rw [length_channelsOf]; exact hi)]
    unfold gap
    exact s3 hne
  · intro hne
    apply (gapSum_blendChannels (getBlendParameters speed).2 (channelsOf current)
      (channelsOf target) 0).2
    apply Nat.pos_of_ne_zero
    intro h0
    apply hne
    have heq := eq_of_gapSum_zero _ _ (by rw [length_channelsOf, length_channelsOf]) h0
    rw [← paletteOfChannels_channelsOf current, heq, paletteOfChannels_channelsOf]
  · intro fx w now hg
    rw [update_currentPalette, if_pos hg]
  · intro hi hd
    rw [hex hi, if_pos (by omega)]
    unfold stepChannel
    refine ⟨?_, ?_, ?_, ?_⟩ <;> intro hc <;> split_ifs <;> omega
  · intro hi hd
    rw [hex hi, if_neg (by omega)]
  · intro hs
    rw [hs]
    rfl
  · intro hs hi
    have h1 := maxChanges_covers_all speed hs
    have h2 := differingBefore_le (channelsOf current) (channelsOf target) i
    omega

/-- C32 amended, evaluated from the flat gradient (10,10,10) toward black: at
speed 3 the blue byte of the last stop (channel 47) moves closer to its target;
at speed 1 channel 24, with 24 differing bytes before it, goes down by 2 and
channel 25, with 25 differing bytes before it, is left as it was. -/
theorem blend_step_moves_witness :
    gap ((channelsOf (nblendPaletteTowardPalette (createSolidPalette ⟨10, 10, 10⟩)
          (createSolidPalette ⟨0, 0, 0⟩) (getBlendParameters 3).2)).getD 47 0)
        ((channelsOf (createSolidPalette ⟨0, 0, 0⟩)).getD 47 0)
      < gap ((channelsOf (createSolidPalette ⟨10, 10, 10⟩)).getD 47 0)
        ((channelsOf (createSolidPalette ⟨0, 0, 0⟩)).getD 47 0) ∧
    (channelsOf (nblendPaletteTowardPalette (createSolidPalette ⟨10, 10, 10⟩)
        (createSolidPalette ⟨0, 0, 0⟩) (getBlendParameters 1).2)).getD 24 0
      = (channelsOf (createSolidPalette ⟨10, 10, 10⟩)).getD 24 0 - 2 ∧
    (channelsOf (nblendPaletteTowardPalette (createSolidPalette ⟨10, 10, 10⟩)
        (createSolidPalette ⟨0, 0, 0⟩) (getBlendParameters 1).2)).getD 25 0
      = (channelsOf (createSolidPalette ⟨10, 10, 10⟩)).getD 25 0 :=
  ⟨(blend_step_moves (createSolidPalette ⟨10, 10, 10⟩) (createSolidPalette ⟨0, 0, 0⟩) 3
      47).2.2.1 (by decide) (by decide) (by decide),
   ((blend_step_moves (createSolidPalette ⟨10, 10, 10⟩) (createSolidPalette ⟨0, 0, 0⟩) 1
      24).2.2.2.2.2.1 (by decide) (by decide)).2.2.1 (by decide),
   (blend_step_moves (createSolidPalette ⟨10, 10, 10⟩) (createSolidPalette ⟨0, 0, 0⟩) 1
      25).2.2.2.2.2.2.1 (by decide) (by decide)⟩

/-! ### The random source of the palette -/

theorem update_rand16seed (fx : FastLEDFns) (w : Sketch) (now : Nat) :
    (update fx w now).rand16seed = random16_set_seed now := by
  rw [update_eq]
  rfl

/-- The four colours drawn from FastLED's initial generator state 1337 when the
arguments are evaluated from the last to the first, and when they are evaluated
as written. -/
theorem randomColours_at_1337 :
    (randomColours rightToLeft 1337).1
      = (⟨79, 255, 209⟩, ⟨87, 255, 163⟩, ⟨79, 192, 245⟩, ⟨81, 255, 194⟩) ∧
    (randomColours leftToRight 1337).1
      = (⟨93, 255, 146⟩, ⟨106, 255, 138⟩, ⟨86, 192, 168⟩, ⟨97, 255, 137⟩) := by
  decide

theorem randomColours_congr (place place2 : Nat → Nat) (rand16seed : Nat)
    (h : ∀ j, j < 8 → place j = place2 j) :
    randomColours place rand16seed = randomColours place2 rand16seed := by
  unfold randomColours
  rw [h 0 (by decide), h 1 (by decide), h 2 (by decide), h 3 (by decide), h 4 (by decide),
    h 5 (by decide), h 6 (by decide), h 7 (by decide)]

/-- C34, as stated, fails: the generated gradient depends on the generator
state that the renderer wrote.  Two runs of a fresh controller that differ only
in the time of the first `update()` (100 ms or 101 ms, which the renderer turns
into the generator state) get different target gradients from the `update()` at
5100 ms, whether the argument draws are evaluated from the last to the first
(`sampleFns`) or as written (`sampleFnsInOrder`): the four colours handed to the
gradient constructor differ. -/
theorem random_palette_shares_generator_counterexample :
    (runUpdates sampleFns (boot sampleStock 2 8 erasedEEPROM) [100]).rand16seed = 100 ∧
    (runUpdates sampleFns (boot sampleStock 2 8 erasedEEPROM) [101]).rand16seed = 101 ∧
    (runUpdates sampleFns (boot sampleStock 2 8 erasedEEPROM) [100]).lumi.targetPalette
      = (runUpdates sampleFns (boot sampleStock 2 8 erasedEEPROM) [101]).lumi.targetPalette ∧
    (runUpdates sampleFns (boot sampleStock 2 8 erasedEEPROM) [100, 5100]).lumi.targetPalette
      ≠ (runUpdates sampleFns (boot sampleStock 2 8 erasedEEPROM)
          [101, 5100]).lumi.targetPalette ∧
    (runUpdates sampleFnsInOrder (boot sampleStock 2 8 erasedEEPROM)
          [100, 5100]).lumi.targetPalette
      ≠ (runUpdates sampleFnsInOrder (boot sampleStock 2 8 erasedEEPROM)
          [101, 5100]).lumi.targetPalette ∧
    (randomColours rightToLeft 100).1 ≠ (randomColours rightToLeft 101).1 ∧
    (randomColours leftToRight 100).1 ≠ (randomColours leftToRight 101).1 := by
  decide

/-- C34, amended: the palette randomization draws from the same FastLED
generator as the renderer.  After any `update()` at time t the generator holds
the renderer's time-derived seed `t mod 2^16`, which is the renderer's fixed seed
535 exactly when t is congruent to 535 modulo 65536; the gradient that the next
regenerating `update()` builds is made of the four colours determined by that
seed and by the order in which the program evaluates the eight argument draws;
`generateRandomPalette` depends on nothing else in the object, and the colours
depend on the order only through the places of the eight calls. -/
theorem random_palette_from_renderer_seed (fx : FastLEDFns) (w : Sketch) (t1 t2 : Nat) :
    (update fx w t1).rand16seed = t1 % 65536 ∧
    ((update fx w t1).rand16seed = 535 ↔ t1 % 65536 = 535) ∧
    (elapsed t2 (update fx w t1).lastRandomPalette ≥ 5000 →
      (update fx w t1).lumi.useRandomPalette = true →
      (update fx w t1).lumi.useSolidColor = false →
      (update fx (update fx w t1) t2).lumi.targetPalette =
        fx.paletteOfCHSV4 (randomColours fx.drawPlace (t1 % 65536)).1.1
          (randomColours fx.drawPlace (t1 % 65536)).1.2.1
          (randomColours fx.drawPlace (t1 % 65536)).1.2.2.1
          (randomColours fx.drawPlace (t1 % 65536)).1.2.2.2) ∧
    (∀ (s t : AvantLumi) (rand16seed : Nat),
      (generateRandomPalette fx s rand16seed).1.targetPalette
        = (generateRandomPalette fx t rand16seed).1.targetPalette ∧
      (generateRandomPalette fx s rand16seed).2 = (generateRandomPalette fx t rand16seed).2) ∧
    (∀ (place place2 : Nat → Nat) (rand16seed : Nat), (∀ j, j < 8 → place j = place2 j) →
      randomColours place rand16seed = randomColours place2 rand16seed) := by
  have hseed : (update fx w t1).rand16seed = t1 % 65536 := update_rand16seed fx w t1
  refine ⟨hseed, by rw [hseed], ?_, fun _ _ _ => ⟨rfl, rfl⟩, randomColours_congr⟩
  intro hg hr hs
  rw [update_targetPalette, if_pos ⟨hg, hr, hs⟩, hseed]

/-- C34 amended, evaluated: a fresh controller updated at 100 ms and then at
5100 ms gets the gradient determined by the generator state 100. -/
theorem random_palette_from_renderer_seed_witness :
    (update sampleFns (update sampleFns (boot sampleStock 2 8 erasedEEPROM) 100)
      5100).lumi.targetPalette =
      sampleFns.paletteOfCHSV4 (randomColours sampleFns.drawPlace (100 % 65536)).1.1
        (randomColours sampleFns.drawPlace (100 % 65536)).1.2.1
        (randomColours sampleFns.drawPlace (100 % 65536)).1.2.2.1
        (randomColours sampleFns.drawPlace (100 % 65536)).1.2.2.2 :=
  (random_palette_from_renderer_seed sampleFns (boot sampleStock 2 8 erasedEEPROM) 100
    5100).2.2.1 (by decide) (by decide) (by decide)

/-! ### The index into the brightness table -/

theorem runOps_opOf_levels (fl : FastLEDPalettes) (fx : FastLEDFns)
    (calls : List (Setter ⊕ Nat)) :
    ∀ w : Sketch, LevelsInRange w.lumi →
      LevelsInRange (runOps fl fx w (calls.map opOf)).lumi := by
  induction calls with
  | nil => intro w h; exact h
  | cons c rest ih =>
    intro w h
    cases c with
    | inl c => exact ih _ (Setter.run_levels fl w.lumi c h)
    | inr now => exact ih _ (update_levels fx w now h)

/-- C37: in every state reached from construction by setter calls and
`update()` ticks, the index `currentBrightnessLevel` with which
`updateBrightness` reads the six-entry table is in 1..5: the read is in bounds
and yields one of 26, 64, 128, 192, 255, never the reserved entry 0. -/
theorem brightness_index_in_bounds (fl : FastLEDPalettes) (fx : FastLEDFns)
    (dataPin numLeds : Nat) (E : EEPROMClass) (calls : List (Setter ⊕ Nat)) :
    (1 ≤ (runOps fl fx (boot fl dataPin numLeds E)
        (calls.map opOf)).lumi.currentBrightnessLevel ∧
      (runOps fl fx (boot fl dataPin numLeds E)
        (calls.map opOf)).lumi.currentBrightnessLevel ≤ 5) ∧
    (runOps fl fx (boot fl dataPin numLeds E)
        (calls.map opOf)).lumi.currentBrightnessLevel < brightnessLevels.length ∧
    brightnessLevels[(runOps fl fx (boot fl dataPin numLeds E)
        (calls.map opOf)).lumi.currentBrightnessLevel]? =
      some (brightnessAt (runOps fl fx (boot fl dataPin numLeds E)
        (calls.map opOf)).lumi.currentBrightnessLevel) ∧
    brightnessAt (runOps fl fx (boot fl dataPin numLeds E)
        (calls.map opOf)).lumi.currentBrightnessLevel ∈ [26, 64, 128, 192, 255] := by
  have h := (runOps_opOf_levels fl fx calls (boot fl dataPin numLeds E)
    (ctor_levels fl dataPin numLeds)).1
  generalize (runOps fl fx (boot fl dataPin numLeds E)
    (calls.map opOf)).lumi.currentBrightnessLevel = L at h ⊢
  have hL : L = 1 ∨ L = 2 ∨ L = 3 ∨ L = 4 ∨ L = 5 := by omega
  rcases hL with rfl | rfl | rfl | rfl | rfl <;> decide

/-! ### The name fields of the record -/

theorem NamesOK.lengths {s : AvantLumi} (h : NamesOK s) :
    (s.currentPaletteName.length ≤ 31 ∧ ∀ c ∈ s.currentPaletteName, (c != NUL) = true) ∧
    (s.solidColorName.length ≤ 31 ∧ ∀ c ∈ s.solidColorName, (c != NUL) = true) := by
  obtain ⟨hp, hc⟩ := h
  refine ⟨paletteNames_fit _ hp, ?_⟩
  rcases hc with hc | hc
  · rw [hc]
    exact ⟨Nat.zero_le _, fun c hcm => absurd hcm (List.not_mem_nil c)⟩
  · obtain ⟨h1, h2⟩ := validColors_fit _ hc
    constructor
    · unfold toLowerCase at h1
      rw [List.length_map] at h1
      exact h1
    · intro c hcm
      apply ne_NUL_of_tolower
      apply h2
      unfold toLowerCase
      exact List.mem_map_of_mem _ hcm

/-- A name of at most 31 characters without NUL fills the start of its field
unchanged; the field has 32 characters. -/
theorem storeName_prefix (name : Str) (hlen : name.length ≤ 31)
    (hnul : ∀ c ∈ name, (c != NUL) = true) :
    (storeName name).take name.length = name ∧ (storeName name).length = 32 := by
  have hc : c_str name = name := by
    unfold c_str
    exact List.takeWhile_eq_self_iff.mpr hnul
  have htake : name.take 31 = name := List.take_of_length_le hlen
  unfold storeName strncpy
  simp only [hc, htake]
  constructor
  · rw [List.append_assoc, List.take_left']
    rfl
  · simp only [List.length_append, List.length_replicate, List.length_cons, List.length_nil]
    omega

/-- The two names that `loadConfig` leaves in the object, for a record with
the magic marker whose palette name is one that the setters write. -/
theorem loadConfig_names (fl : FastLEDPalettes) (f : AvantLumi) (E : EEPROMClass)
    (hm : E.image.magic = CONFIG_MAGIC)
    (hn : stringOfBuffer E.image.currentPaletteName ∈ paletteNames) :
    (loadConfig fl f E).2.currentPaletteName = stringOfBuffer E.image.currentPaletteName ∧
    (loadConfig fl f E).2.solidColorName = stringOfBuffer E.image.solidColorName := by
  rw [loadConfig_of_magic fl f E hm]
  cases hs : (restoreMembers f E.image).useSolidColor with
  | true => exact ⟨rfl, rfl⟩
  | false =>
    have k := setPalette_keeps_name fl (restoreMembers f E.image)
      (restoreMembers f E.image).currentPaletteName hn rfl
    have fr := (setPalette_frame fl (restoreMembers f E.image)
      (restoreMembers f E.image).currentPaletteName).2.2.2.2.1
    exact ⟨k, fr⟩

/-- C38: in every state reached from construction by setter calls the palette
name and the solid colour name have at most 31 characters (and no NUL), so
`saveConfig()` stores each of them whole at the start of its 32-character,
NUL-terminated field, and `loadConfig()` reads back exactly the same two
strings. -/
theorem names_fit_their_fields (fl : FastLEDPalettes) (dataPin numLeds : Nat)
    (calls : List Setter) (f : AvantLumi) (E : EEPROMClass) (hE : E.commitOk = true) :
    ((runSetters fl (ctor fl dataPin numLeds) calls).currentPaletteName.length ≤ 31 ∧
      (runSetters fl (ctor fl dataPin numLeds) calls).solidColorName.length ≤ 31) ∧
    (((saveConfig (runSetters fl (ctor fl dataPin numLeds) calls) E).2.image.currentPaletteName
        ).take (runSetters fl (ctor fl dataPin numLeds) calls).currentPaletteName.length
        = (runSetters fl (ctor fl dataPin numLeds) calls).currentPaletteName ∧
      ((saveConfig (runSetters fl (ctor fl dataPin numLeds) calls) E).2.image.solidColorName
        ).take (runSetters fl (ctor fl dataPin numLeds) calls).solidColorName.length
        = (runSetters fl (ctor fl dataPin numLeds) calls).solidColorName) ∧
    ((saveConfig (runSetters fl (ctor fl dataPin numLeds) calls)
        E).2.image.currentPaletteName.length = 32 ∧
      (saveConfig (runSetters fl (ctor fl dataPin numLeds) calls)
        E).2.image.solidColorName.length = 32) ∧
    ((loadConfig fl f (saveConfig (runSetters fl (ctor fl dataPin numLeds) calls)
        E).2).2.currentPaletteName
        = (runSetters fl (ctor fl dataPin numLeds) calls).currentPaletteName ∧
      (loadConfig fl f (saveConfig (runSetters fl (ctor fl dataPin numLeds) calls)
        E).2).2.solidColorName
        = (runSetters fl (ctor fl dataPin numLeds) calls).solidColorName) := by
  have hs : NamesOK (runSetters fl (ctor fl dataPin numLeds) calls) :=
    runSetters_namesOK fl calls _ (ctor_namesOK fl dataPin numLeds)
  generalize runSetters fl (ctor fl dataPin numLeds) calls = S at hs ⊢
  obtain ⟨⟨lp, np⟩, ⟨lc, nc⟩⟩ := hs.lengths
  obtain ⟨rp, rc⟩ := hs.roundtrip
  obtain ⟨pp, pl⟩ := storeName_prefix S.currentPaletteName lp np
  obtain ⟨cp, cl⟩ := storeName_prefix S.solidColorName lc nc
  have hsave : saveConfig S E = (true, { E with image := recordOf S }) := saveConfig_ok S E hE
  rw [hsave]
  refine ⟨⟨lp, lc⟩, ⟨pp, cp⟩, ⟨pl, cl⟩, ?_⟩
  obtain ⟨l1, l2⟩ := loadConfig_names fl f { E with image := recordOf S } rfl
    (by show stringOfBuffer (storeName S.currentPaletteName) ∈ paletteNames
        rw [rp]; exact hs.1)
  exact ⟨l1.trans rp, l2.trans rc⟩

/-- C38, evaluated: after `setColor("MediumSpringGreen")` and `setPalette("u08")`
the names `u08_deep_ocean` and `MediumSpringGreen` are stored whole and read
back by a fresh controller. -/
theorem names_fit_their_fields_witness :
    (loadConfig sampleStock (ctor sampleStock 2 8)
      (saveConfig (runSetters sampleStock (ctor sampleStock 2 8)
        [Setter.setColor "MediumSpringGreen".toList, Setter.setPalette "u08".toList])
        erasedEEPROM).2).2.currentPaletteName
      = (runSetters sampleStock (ctor sampleStock 2 8)
        [Setter.setColor "MediumSpringGreen".toList,
          Setter.setPalette "u08".toList]).currentPaletteName ∧
    (loadConfig sampleStock (ctor sampleStock 2 8)
      (saveConfig (runSetters sampleStock (ctor sampleStock 2 8)
        [Setter.setColor "MediumSpringGreen".toList, Setter.setPalette "u08".toList])
        erasedEEPROM).2).2.solidColorName
      = (runSetters sampleStock (ctor sampleStock 2 8)
        [Setter.setColor "MediumSpringGreen".toList,
          Setter.setPalette "u08".toList]).solidColorName :=
  (names_fit_their_fields sampleStock 2 8
    [Setter.setColor "MediumSpringGreen".toList, Setter.setPalette "u08".toList]
    (ctor sampleStock 2 8) erasedEEPROM (by decide)).2.2.2

end AvantLumi
